import Mathlib

/-!
# Kernel transport layer of libsystemd-bus (`bus-kernel.c`)

A shallow embedding of the transport-translation layer: the unique-name
parser, the item writer, the message transcoder (`bus_message_setup_kmsg`),
the kernel receiver (`bus_kernel_make_message`), the notification
translator (`bus_kernel_translate_message`), the send and receive calls
(`bus_kernel_write_message`, `bus_kernel_read_message`), the segment cache
(`bus_kernel_pop_memfd`, `bus_kernel_push_memfd`) and the handshake
(`bus_kernel_take_fd`).

Conventions of the embedding.
* C strings are lists of characters (`List Char`); `NULL` strings are `none`.
* Unsigned machine integers are natural numbers; where the C code can wrap,
  the arithmetic is reduced modulo `2 ^ 64` explicitly (LP64 is assumed, so
  `size_t` and `uint64_t` are both 64 bits wide).
* A C function that returns an `int` status and writes through pointers is a
  function returning the status together with the new state.
* A function that calls out (system calls, the mutex of the segment cache)
  also returns the calls it made, in program order.
* An `assert` is a precondition of the function it stands in and is not part
  of the model; a theorem names the preconditions it needs as hypotheses.
-/

namespace BusKernel

/-! ## Constants -/

/-- Error numbers of `errno.h` used by this layer. -/
def ESRCH : Int := 3
def EINTR : Int := 4
def ENXIO : Int := 6
def EAGAIN : Int := 11
def ENOMEM : Int := 12
def EINVAL : Int := 22
def ERANGE : Int := 34
def EBADMSG : Int := 74
def ENOTSUP : Int := 95
def EADDRNOTAVAIL : Int := 99

/-- Width of `uint64_t` and, on LP64, of `size_t`. -/
def U64 : Nat := 2 ^ 64

/-- Modelled from the spec: the macro `ALIGN8(l)` of `util.h` (not part of
the tree): every item is padded to 8-byte alignment, so the macro rounds up
to a multiple of eight. -/
def ALIGN8 (l : Nat) : Nat := (l + 7) / 8 * 8

/-! ## Strings and decimal numerals -/

/-- A C string: the characters before the terminating NUL. -/
abbrev cstr := List Char

/-- Modelled from the spec: the helper `startswith(s, p)` of `util.h` (not
part of the tree), the test for the "required prefix": the rest of `s` after
`p`, or `NULL` when `s` does not begin with `p`. -/
def startswith : cstr → cstr → Option cstr
  | s, [] => some s
  | [], _ :: _ => none
  | c :: s, p :: ps => if c = p then startswith s ps else none

/-- Value of a string of decimal digits, most significant digit first. -/
def decimal_value (s : cstr) : Nat :=
  s.foldl (fun v c => 10 * v + (c.toNat - 48)) 0

/-- Modelled from the spec: `safe_atou64` (declared in `util.h`, not part of
the tree).  The spec fixes the grammar of a unique name as the required
leading `":1."` followed by "a decimal numeral"; accordingly the conversion
accepts a non-empty string of decimal digits whose value fits in 64 bits and
stores that value, and fails with a negative error otherwise, leaving the
output untouched. -/
def safe_atou64 (s : cstr) (id : Nat) : Int × Nat :=
  if s = [] ∨ ¬ s.all Char.isDigit then (-EINVAL, id)
  else if U64 ≤ decimal_value s then (-ERANGE, id)
  else (0, decimal_value s)

/-- Source: `bus_kernel_parse_unique_name` (bus-kernel.c:40-54).  Returns
the status and the value left in `*id`. -/
def bus_kernel_parse_unique_name (s : cstr) (id : Nat) : Int × Nat :=
  match startswith s ":1.".data with
  | none => (0, id)
  | some rest =>
    let r := safe_atou64 rest id
    if r.1 < 0 then (r.1, r.2)
    else (1, r.2)

/-- The character of a decimal digit. -/
def digit_char (d : Nat) : Char := Char.ofNat (48 + d)

/-- Decimal rendering with the given recursion budget. -/
def decimal_digits : Nat → Nat → cstr
  | 0, _ => []
  | f + 1, n => if n < 10 then [digit_char n] else decimal_digits f (n / 10) ++ [digit_char (n % 10)]

/-- The conversion `%llu` of `printf`: decimal, no sign, no leading zero. -/
def format_llu (n : Nat) : cstr := decimal_digits (n + 1) n

/-- The format `":1.%llu"` with which this layer renders every unique name
(bus-kernel.c:356, 517, 522, 534, 825, 835). -/
def format_unique_name (id : Nat) : cstr := ":1.".data ++ format_llu id

/-! ## Kernel wire format (`kdbus.h`) -/

/-- Modelled from the spec: the reserved sentinel ids of `kdbus.h` (not part
of the tree): the broadcast destination is the all-ones id, "resolve by
name" is id 0 (the value `bus_message_setup_kmsg` writes for a well-known
destination), and the kernel itself is source id 0. -/
def KDBUS_DST_ID_BROADCAST : Nat := 2 ^ 64 - 1
def KDBUS_DST_ID_NAME : Nat := 0
def KDBUS_SRC_ID_KERNEL : Nat := 0

/-- Modelled from the spec: the payload-type tags of `kdbus.h`: kernel
notifications and D-Bus version 1 messages (the ASCII bytes `DBusVer1`). -/
def KDBUS_PAYLOAD_KERNEL : Nat := 0
def KDBUS_PAYLOAD_DBUS1 : Nat := 0x4442757356657231

/-- Modelled from the spec: the message flags of `kdbus.h` and the header
flags of the D-Bus wire protocol. -/
def KDBUS_MSG_FLAGS_EXPECT_REPLY : Nat := 1
def KDBUS_MSG_FLAGS_NO_AUTO_START : Nat := 2
def BUS_MESSAGE_NO_REPLY_EXPECTED : Nat := 1
def BUS_MESSAGE_NO_AUTO_START : Nat := 2

/-- Modelled from the spec: the item type tags of `enum kdbus_item_type` in
`kdbus.h` (not part of the tree).  Only their being pairwise distinct, and
the seven notification tags being consecutive from the kernel base, matters
to this layer. -/
def KDBUS_ITEM_PAYLOAD_VEC : Nat := 1
def KDBUS_ITEM_PAYLOAD_OFF : Nat := 2
def KDBUS_ITEM_PAYLOAD_MEMFD : Nat := 3
def KDBUS_ITEM_FDS : Nat := 4
def KDBUS_ITEM_BLOOM : Nat := 5
def KDBUS_ITEM_DST_NAME : Nat := 6
def KDBUS_ITEM_NAMES : Nat := 0x600
def KDBUS_ITEM_TIMESTAMP : Nat := 0x602
def KDBUS_ITEM_CREDS : Nat := 0x603
def KDBUS_ITEM_PID_COMM : Nat := 0x604
def KDBUS_ITEM_TID_COMM : Nat := 0x605
def KDBUS_ITEM_EXE : Nat := 0x606
def KDBUS_ITEM_CMDLINE : Nat := 0x607
def KDBUS_ITEM_CGROUP : Nat := 0x608
def KDBUS_ITEM_CAPS : Nat := 0x609
def KDBUS_ITEM_SECLABEL : Nat := 0x60a
def KDBUS_ITEM_AUDIT : Nat := 0x60b
def _KDBUS_ITEM_KERNEL_BASE : Nat := 0x800
def KDBUS_ITEM_NAME_ADD : Nat := 0x800
def KDBUS_ITEM_NAME_REMOVE : Nat := 0x801
def KDBUS_ITEM_NAME_CHANGE : Nat := 0x802
def KDBUS_ITEM_ID_ADD : Nat := 0x803
def KDBUS_ITEM_ID_REMOVE : Nat := 0x804
def KDBUS_ITEM_REPLY_TIMEOUT : Nat := 0x805
def KDBUS_ITEM_REPLY_DEAD : Nat := 0x806

/-- Modelled from the spec: layout of the wire records of `kdbus.h`: an item
starts with its 64-bit size and 64-bit type tag, so every union member lies
at offset 16; a vector and a memfd record take 16 bytes each; the fixed part
of a message record is seven 64-bit words. -/
def offsetof_kdbus_item_data : Nat := 16
def sizeof_kdbus_vec : Nat := 16
def sizeof_kdbus_memfd : Nat := 16
def offsetof_kdbus_msg_items : Nat := 56
def sizeof_int : Nat := 4

/-- Modelled from the spec: `BLOOM_SIZE` of `bus-bloom.h`, the fixed size of
the bloom filter in bytes. -/
def BLOOM_SIZE : Nat := 64

/-- Modelled from the spec: `NSEC_PER_USEC` of `util.h`, the nanoseconds of a
microsecond (the message record carries its timeout in nanoseconds). -/
def NSEC_PER_USEC : Nat := 1000

/-- Modelled from the spec: the credential mask bits of `sd-bus.h`. -/
def SD_BUS_CREDS_UID : Nat := 1 <<< 0
def SD_BUS_CREDS_GID : Nat := 1 <<< 1
def SD_BUS_CREDS_PID : Nat := 1 <<< 2
def SD_BUS_CREDS_PID_STARTTIME : Nat := 1 <<< 3
def SD_BUS_CREDS_TID : Nat := 1 <<< 4
def SD_BUS_CREDS_COMM : Nat := 1 <<< 5
def SD_BUS_CREDS_TID_COMM : Nat := 1 <<< 6
def SD_BUS_CREDS_EXE : Nat := 1 <<< 7
def SD_BUS_CREDS_CMDLINE : Nat := 1 <<< 8
def SD_BUS_CREDS_CGROUP : Nat := 1 <<< 9
def SD_BUS_CREDS_UNIT : Nat := 1 <<< 10
def SD_BUS_CREDS_USER_UNIT : Nat := 1 <<< 11
def SD_BUS_CREDS_SLICE : Nat := 1 <<< 12
def SD_BUS_CREDS_SESSION : Nat := 1 <<< 13
def SD_BUS_CREDS_OWNER_UID : Nat := 1 <<< 14
def SD_BUS_CREDS_EFFECTIVE_CAPS : Nat := 1 <<< 15
def SD_BUS_CREDS_PERMITTED_CAPS : Nat := 1 <<< 16
def SD_BUS_CREDS_INHERITABLE_CAPS : Nat := 1 <<< 17
def SD_BUS_CREDS_BOUNDING_CAPS : Nat := 1 <<< 18
def SD_BUS_CREDS_SELINUX_CONTEXT : Nat := 1 <<< 19
def SD_BUS_CREDS_AUDIT_SESSION_ID : Nat := 1 <<< 20
def SD_BUS_CREDS_AUDIT_LOGIN_UID : Nat := 1 <<< 21
def SD_BUS_CREDS_UNIQUE_NAME : Nat := 1 <<< 22
def SD_BUS_CREDS_WELL_KNOWN_NAMES : Nat := 1 <<< 23

/-- Modelled from the spec: the message types of the D-Bus wire protocol. -/
def SD_BUS_MESSAGE_METHOD_CALL : Nat := 1
def SD_BUS_MESSAGE_METHOD_RETURN : Nat := 2
def SD_BUS_MESSAGE_METHOD_ERROR : Nat := 3
def SD_BUS_MESSAGE_SIGNAL : Nat := 4

/-- One insertion into a bloom filter, as issued by the builder. -/
inductive bloom_op where
  | add_pair (a b : cstr)
  | add_prefixes (a b : cstr) (sep : Char)
  deriving DecidableEq, Repr

/-- Modelled from the spec: the bloom filter of `bus-bloom.h`.  Insertion is
additive and nothing is ever removed, so a filter is represented by the
insertions made into the zeroed bit array, oldest first. -/
abbrev bloom_filter := List bloom_op

/-- The record `struct kdbus_vec`: a size and the union of a sender address
and a receiver pool offset. -/
structure kdbus_vec where
  size : Nat := 0
  address : Nat := 0
  deriving DecidableEq, Repr

/-- The union member `offset` of `struct kdbus_vec`: same storage as `address`. -/
def kdbus_vec.offset (v : kdbus_vec) : Nat := v.address

structure kdbus_memfd where
  size : Nat := 0
  fd : Int := 0
  deriving DecidableEq, Repr

structure kdbus_creds where
  uid : Nat := 0
  gid : Nat := 0
  pid : Nat := 0
  tid : Nat := 0
  starttime : Nat := 0
  deriving DecidableEq, Repr

structure kdbus_timestamp where
  monotonic_ns : Nat := 0
  realtime_ns : Nat := 0
  deriving DecidableEq, Repr

structure kdbus_audit where
  sessionid : Nat := 0
  loginuid : Nat := 0
  deriving DecidableEq, Repr

structure kdbus_notify_name_change where
  old_id : Nat := 0
  new_id : Nat := 0
  flags : Nat := 0
  name : cstr := []
  deriving DecidableEq, Repr

structure kdbus_notify_id_change where
  id : Nat := 0
  flags : Nat := 0
  deriving DecidableEq, Repr

/-- Modelled from the spec: `struct kdbus_item` of `kdbus.h`, a tagged record
`(size, type, union)`.  The members of the union are kept side by side; the
code reads only the member that belongs to the tag it has just tested. -/
structure kdbus_item where
  size : Nat := 0
  type : Nat := 0
  vec : kdbus_vec := {}
  memfd : kdbus_memfd := {}
  str : cstr := []
  data : List Nat := []
  bloom : bloom_filter := []
  fds : List Int := []
  creds : kdbus_creds := {}
  timestamp : kdbus_timestamp := {}
  audit : kdbus_audit := {}
  name_change : kdbus_notify_name_change := {}
  id_change : kdbus_notify_id_change := {}
  deriving DecidableEq, Repr

/-- Modelled from the spec: `struct kdbus_msg` of `kdbus.h`: total size,
flags, destination id, source id, payload-type tag, cookie, reply cookie,
timeout in nanoseconds, and the item list. -/
structure kdbus_msg where
  size : Nat := 0
  flags : Nat := 0
  dst_id : Nat := 0
  src_id : Nat := 0
  payload_type : Nat := 0
  cookie : Nat := 0
  cookie_reply : Nat := 0
  timeout_ns : Nat := 0
  items : List kdbus_item := []
  deriving DecidableEq, Repr

/-! ## Message model (`bus-message.h`) -/

/-- Modelled from the spec: the fixed D-Bus header record `struct bus_header`
of `bus-protocol.h`, 16 bytes; the numeric fields hold the values in host
byte order. -/
structure bus_header where
  endian : Nat := 0
  type : Nat := 0
  flags : Nat := 0
  version : Nat := 0
  body_size : Nat := 0
  serial : Nat := 0
  fields_size : Nat := 0
  deriving DecidableEq, Repr

/-- The size of the fixed header record, `sizeof(struct bus_header)`. -/
def sizeof_bus_header : Nat := 16

/-- Modelled from the spec: `struct bus_body_part` of `bus-message.h`: the
address of the mapped data (0 is `NULL`), the length, the backing memfd (-1
for none), the zero-fill flag and the sealed flag. -/
structure bus_body_part where
  data : Nat := 0
  size : Nat := 0
  memfd : Int := -1
  is_zero : Bool := false
  sealed : Bool := false
  deriving DecidableEq, Repr

/-- Modelled from the spec: the credentials record of a message. -/
structure bus_creds where
  mask : Nat := 0
  uid : Nat := 0
  gid : Nat := 0
  pid : Nat := 0
  tid : Nat := 0
  pid_starttime : Nat := 0
  comm : Option cstr := none
  tid_comm : Option cstr := none
  exe : Option cstr := none
  cmdline : Option cstr := none
  cmdline_size : Nat := 0
  cgroup : Option cstr := none
  audit_session_id : Nat := 0
  audit_login_uid : Nat := 0
  capability : Option (List Nat) := none
  capability_size : Nat := 0
  well_known_names : Option cstr := none
  well_known_names_size : Nat := 0
  unique_name : Option cstr := none
  deriving DecidableEq, Repr

/-- One top-level argument of a message body as the typed reader sees it:
the type code, the value of a string-like argument, and the status with
which reading it ends (negative for a malformed body). -/
structure bus_arg where
  type : Char
  str : cstr := []
  err : Int := 0
  deriving DecidableEq, Repr

/-- Modelled from the spec: `struct sd_bus_message` of `bus-message.h`:
header (and its address in memory), endpoints, header fields, the ordered
body parts, credentials, owned descriptors, the top-level arguments with the
read cursor, and the kernel buffer the message was built from or for. -/
structure sd_bus_message where
  header : bus_header := {}
  header_ptr : Nat := 0
  sealed : Bool := false
  poisoned : Bool := false
  destination : Option cstr := none
  sender : Option cstr := none
  path : Option cstr := none
  interface : Option cstr := none
  member : Option cstr := none
  error_name : Option cstr := none
  error_message : Option cstr := none
  reply_serial : Nat := 0
  timeout : Nat := 0
  body_parts : List bus_body_part := []
  fds : List Int := []
  free_fds : Bool := false
  label : Option cstr := none
  creds : bus_creds := {}
  realtime : Nat := 0
  monotonic : Nat := 0
  args : List bus_arg := []
  rindex : Nat := 0
  kdbus : Option kdbus_msg := none
  free_kdbus : Bool := false
  release_kdbus : Bool := false
  deriving DecidableEq, Repr

/-- One slot of the segment cache, `struct memfd_cache`: descriptor, mapped
address (0 is `NULL`) and mapped size. -/
structure memfd_cache where
  fd : Int := 0
  address : Nat := 0
  size : Nat := 0
  deriving DecidableEq, Repr

/-- Modelled from the spec: the part of `struct sd_bus` this layer uses: the
base address of the receive pool (0 is `NULL`), the requested credentials
mask and the ordered delivery queue (`rqueue`; `rqueue_size` is its length);
the role and handshake flags, the identity the handshake derives (unique
name, unique id, the 128-bit id of the bus as 16 bytes), and the segment
cache: the array `memfd_cache` with its fill count `n_memfd_cache`
(`ELEMENTSOF(memfd_cache)` is the length of the array). -/
structure sd_bus where
  kdbus_buffer : Nat := 0
  creds_mask : Nat := 0
  rqueue : List sd_bus_message := []
  is_server : Bool := false
  is_kernel : Bool := false
  bus_client : Bool := false
  can_fds : Bool := false
  use_memfd : Int := 0
  hello_flags : Nat := 0
  attach_flags : Nat := 0
  unique_name : Option cstr := none
  unique_id : Nat := 0
  server_id : List Nat := []
  memfd_cache : List memfd_cache := []
  n_memfd_cache : Nat := 0
  deriving DecidableEq, Repr

/-- Modelled from the spec: `struct kdbus_cmd_hello` of `kdbus.h`, the
handshake record: what the connection submits (size, connection flags,
attachment flags, pool size) and what the kernel reports back (bus flags,
connection flags, the id of the connection, the bloom size, the 128-bit id
of the bus as 16 bytes). -/
structure kdbus_cmd_hello where
  size : Nat := 0
  conn_flags : Nat := 0
  attach_flags : Nat := 0
  bus_flags : Nat := 0
  id : Nat := 0
  bloom_size : Nat := 0
  pool_size : Nat := 0
  id128 : List Nat := []
  deriving DecidableEq, Repr

/-- The header fields `bus_message_parse_fields` decodes. -/
structure bus_fields where
  path : Option cstr := none
  interface : Option cstr := none
  member : Option cstr := none
  error_name : Option cstr := none
  reply_serial : Nat := 0
  destination : Option cstr := none
  sender : Option cstr := none
  deriving DecidableEq, Repr

/-- The world outside this layer: the contents of memory behind the pointers
the code follows, and the outcomes of the calls into the allocator, the
operating system and the generic message model (all out of scope of the
spec and absent from the tree).  Statuses follow the C convention: negative
means failure. -/
structure bus_world where
  /-- The header record stored at an address of the receive pool. -/
  header_at : Nat → bus_header
  /-- Whether `memalign` of the given size succeeds. -/
  memalign_ok : Nat → Bool := fun _ => true
  /-- Status and address of the mapping `bus_body_part_map` makes. -/
  part_map : bus_body_part → Int × Nat := fun _ => (0, 0)
  /-- Whether `realloc` of the descriptor array to the given count succeeds. -/
  realloc_ok : Nat → Bool := fun _ => true
  /-- Status of `bus_message_from_header` on a header. -/
  from_header_r : bus_header → Int := fun _ => 0
  /-- Whether `message_append_part` succeeds on a message. -/
  append_part_ok : sd_bus_message → Bool := fun _ => true
  /-- Status and result of decoding the header fields of a message. -/
  parse_fields : sd_bus_message → Int × bus_fields := fun _ => (0, {})
  /-- Status of `sd_bus_message_new_signal`. -/
  new_signal_r : Int := 0
  /-- Status of `sd_bus_message_append`. -/
  append_r : sd_bus_message → Int := fun _ => 0
  /-- Status of `bus_seal_synthetic_message`. -/
  seal_r : sd_bus_message → Int := fun _ => 0
  /-- Status of `bus_message_new_synthetic_error` for a reply serial. -/
  synthetic_error_r : Nat → Int := fun _ => 0
  /-- Status of `bus_rqueue_make_room`. -/
  make_room_r : sd_bus → Int := fun _ => 0
  /-- Return value and `errno` of the ioctl `KDBUS_CMD_MSG_SEND` on a buffer. -/
  msg_send : Option kdbus_msg → Int × Int := fun _ => (0, 0)
  /-- Return value, `errno` and reported pool offset of the ioctl
  `KDBUS_CMD_MSG_RECV`. -/
  msg_recv : Int × Int × Nat := (0, 0, 0)
  /-- The message record stored at an address of the receive pool. -/
  msg_at : Nat → kdbus_msg := fun _ => {}
  /-- Return value, `errno` and new descriptor of the ioctl
  `KDBUS_CMD_MEMFD_NEW`. -/
  memfd_new : Int × Int × Int := (0, 0, 3)
  /-- Return value and `errno` of the ioctl `KDBUS_CMD_HELLO` on a handshake
  record, and the record as the kernel leaves it. -/
  cmd_hello : kdbus_cmd_hello → Int × Int × kdbus_cmd_hello := fun h => (0, 0, h)
  /-- Address returned by the `mmap` of the receive pool, and `errno`. -/
  mmap_pool : Nat × Int := (65536, 0)
  /-- Whether `asprintf` succeeds. -/
  asprintf_ok : Bool := true
  /-- Status of `bus_start_running`. -/
  start_running_r : sd_bus → Int := fun _ => 1
  /-- The page size of the system, `page_size()`. -/
  page_size : Nat := 4096
  /-- The per-entry maximum `MEMFD_CACHE_ITEM_SIZE_MAX` of the segment cache
  (a constant of `bus-internal.h`, not part of the tree). -/
  MEMFD_CACHE_ITEM_SIZE_MAX : Nat := 128 * 1024

/-! ## Item writer (bus-kernel.c:56-128) -/

/-- The write cursor `struct kdbus_item **d` over the buffer of a message:
the byte offset of the cursor from the start of the buffer, and the items
written so far, in order. -/
structure item_cursor where
  d : Nat := 0
  items : List kdbus_item := []
  deriving DecidableEq, Repr

/-- Source: `append_payload_vec` (bus-kernel.c:56-72).  A `p` of 0 is the
`NULL` pointer and encodes a region full of zeroes. -/
def append_payload_vec (w : item_cursor) (p : Nat) (sz : Nat) : item_cursor :=
  let d := ALIGN8 w.d
  let it : kdbus_item :=
    { size := offsetof_kdbus_item_data + sizeof_kdbus_vec
      type := KDBUS_ITEM_PAYLOAD_VEC
      vec := { address := p, size := sz } }
  { d := d + it.size, items := w.items ++ [it] }

/-- Source: `append_payload_memfd` (bus-kernel.c:74-86). -/
def append_payload_memfd (w : item_cursor) (memfd : Int) (sz : Nat) : item_cursor :=
  let d := ALIGN8 w.d
  let it : kdbus_item :=
    { size := offsetof_kdbus_item_data + sizeof_kdbus_memfd
      type := KDBUS_ITEM_PAYLOAD_MEMFD
      memfd := { fd := memfd, size := sz } }
  { d := d + it.size, items := w.items ++ [it] }

/-- Source: `append_destination` (bus-kernel.c:88-99). -/
def append_destination (w : item_cursor) (s : cstr) (length : Nat) : item_cursor :=
  let d := ALIGN8 w.d
  let it : kdbus_item :=
    { size := offsetof_kdbus_item_data + length + 1
      type := KDBUS_ITEM_DST_NAME
      str := s }
  { d := d + it.size, items := w.items ++ [it] }

/-- Source: `append_bloom` (bus-kernel.c:101-115).  The data area it returns
is the (zeroed) `bloom` member of the item just written, the last of the list. -/
def append_bloom (w : item_cursor) (length : Nat) : item_cursor :=
  let d := ALIGN8 w.d
  let it : kdbus_item :=
    { size := offsetof_kdbus_item_data + length
      type := KDBUS_ITEM_BLOOM }
  { d := d + it.size, items := w.items ++ [it] }

/-- Source: `append_fds` (bus-kernel.c:117-128). -/
def append_fds (w : item_cursor) (fds : List Int) (n_fds : Nat) : item_cursor :=
  let d := ALIGN8 w.d
  let it : kdbus_item :=
    { size := offsetof_kdbus_item_data + sizeof_int * n_fds
      type := KDBUS_ITEM_FDS
      fds := fds.take n_fds }
  { d := d + it.size, items := w.items ++ [it] }

/-! ## Bloom filter builder (bus-kernel.c:130-192) -/

/-- Modelled from the spec: `bus_message_type_to_string` of `bus-internal.h`. -/
def bus_message_type_to_string (t : Nat) : cstr :=
  if t = SD_BUS_MESSAGE_METHOD_CALL then "method_call".data
  else if t = SD_BUS_MESSAGE_METHOD_RETURN then "method_return".data
  else if t = SD_BUS_MESSAGE_METHOD_ERROR then "error".data
  else if t = SD_BUS_MESSAGE_SIGNAL then "signal".data
  else []

/-- Modelled from the spec: `sd_bus_message_rewind(m, true)`: only a sealed
message can be read; the argument cursor goes back to the start. -/
def sd_bus_message_rewind (m : sd_bus_message) : Int × sd_bus_message :=
  if ¬ m.sealed then (-1, m)
  else (if m.args = [] then 0 else 1, { m with rindex := 0 })

/-- Modelled from the spec: `sd_bus_message_peek_type(m, &type, NULL)`: the
type code of the argument under the cursor, 0 at the end of the body. -/
def sd_bus_message_peek_type (m : sd_bus_message) : Int × Char :=
  match m.args.get? m.rindex with
  | none => (0, Char.ofNat 0)
  | some a => if a.err < 0 then (a.err, Char.ofNat 0) else (1, a.type)

/-- Modelled from the spec: `sd_bus_message_read_basic(m, type, &t)` on a
string-like argument: yields the string and moves the cursor past it. -/
def sd_bus_message_read_basic (m : sd_bus_message) : Int × cstr × sd_bus_message :=
  match m.args.get? m.rindex with
  | none => (0, [], m)
  | some a => if a.err < 0 then (a.err, [], m) else (1, a.str, { m with rindex := m.rindex + 1 })

/-- Modelled from the spec: the type codes of the string-like basic types
(string, object path, signature) of the D-Bus wire protocol. -/
def SD_BUS_TYPE_STRING : Char := 's'
def SD_BUS_TYPE_OBJECT_PATH : Char := 'o'
def SD_BUS_TYPE_SIGNATURE : Char := 'g'

/-- The key `"arg<i>"` the loop builds in `buf` (bus-kernel.c:174-182). -/
def bloom_arg_key (i : Nat) : cstr :=
  "arg".data ++
    (if i < 10 then [Char.ofNat (48 + i)]
     else [Char.ofNat (48 + i / 10), Char.ofNat (48 + i % 10)])

/-- The loop `for (i = 0; i < 64; i++)` of `bus_message_setup_bloom`
(bus-kernel.c:155-189), with `n` iterations left to run from index `i`. -/
def bus_message_setup_bloom_args :
    Nat → Nat → sd_bus_message → bloom_filter → Int × sd_bus_message × bloom_filter
  | 0, _, m, bloom => (0, m, bloom)
  | n + 1, i, m, bloom =>
    let pk := sd_bus_message_peek_type m
    if pk.1 < 0 then (pk.1, m, bloom)
    else if pk.2 ≠ SD_BUS_TYPE_STRING ∧ pk.2 ≠ SD_BUS_TYPE_OBJECT_PATH ∧
        pk.2 ≠ SD_BUS_TYPE_SIGNATURE then (0, m, bloom)
    else
      let rd := sd_bus_message_read_basic m
      if rd.1 < 0 then (rd.1, rd.2.2, bloom)
      else
        let t := rd.2.1
        let buf := bloom_arg_key i
        let bloom := bloom ++ [bloom_op.add_pair buf t]
        let bloom := bloom ++ [bloom_op.add_prefixes (buf ++ "-dot-prefix".data) t '.']
        let bloom := bloom ++ [bloom_op.add_prefixes (buf ++ "-slash-prefix".data) t '/']
        bus_message_setup_bloom_args n (i + 1) rd.2.2 bloom

/-- Source: `bus_message_setup_bloom` (bus-kernel.c:130-192).  Returns the
status, the message (whose argument cursor the function moves) and the filter. -/
def bus_message_setup_bloom (m : sd_bus_message) : Int × sd_bus_message × bloom_filter :=
  let bloom : bloom_filter := []
  let bloom := bloom ++ [bloom_op.add_pair "message-type".data (bus_message_type_to_string m.header.type)]
  let bloom := match m.interface with
    | some i => bloom ++ [bloom_op.add_pair "interface".data i]
    | none => bloom
  let bloom := match m.member with
    | some i => bloom ++ [bloom_op.add_pair "member".data i]
    | none => bloom
  let bloom := match m.path with
    | some p => bloom ++ [bloom_op.add_pair "path".data p,
        bloom_op.add_pair "path-slash-prefix".data p,
        bloom_op.add_prefixes "path-slash-prefix".data p '/']
    | none => bloom
  let rw := sd_bus_message_rewind m
  if rw.1 < 0 then (rw.1, m, bloom)
  else bus_message_setup_bloom_args 64 0 rw.2 bloom

/-! ## Message transcoder (bus-kernel.c:194-316) -/

/-- Modelled from the spec: the macro `BUS_MESSAGE_BODY_BEGIN(m)` of
`bus-message.h`: the header length, that is the offset at which the body
starts: the fixed header record plus the header fields padded to 8 bytes. -/
def BUS_MESSAGE_BODY_BEGIN (m : sd_bus_message) : Nat :=
  sizeof_bus_header + ALIGN8 m.header.fields_size

/-- Modelled from the spec: `bus_body_part_map` of `bus-message.h`: a part
that is already mapped is left alone; otherwise it is mapped into process
memory, and a mapping failure is reported with a negative status. -/
def bus_body_part_map (o : bus_world) (part : bus_body_part) : Int × bus_body_part :=
  if part.data ≠ 0 then (0, part)
  else
    let r := o.part_map part
    if r.1 < 0 then (r.1, part)
    else (0, { part with data := r.2 })

/-- The loop `MESSAGE_FOREACH_PART` of `bus_message_setup_kmsg`
(bus-kernel.c:268-294).  Returns the status (0, or the negative status with
which the loop was left for `fail`), the cursor and the parts as the loop
leaves them. -/
def setup_kmsg_parts (o : bus_world) (has_destination : Bool) :
    item_cursor → List bus_body_part → Int × item_cursor × List bus_body_part
  | w, [] => (0, w, [])
  | w, part :: rest =>
    if part.is_zero then
      let r := setup_kmsg_parts o has_destination (append_payload_vec w 0 part.size) rest
      (r.1, r.2.1, part :: r.2.2)
    else if part.memfd ≥ 0 ∧ part.sealed ∧ has_destination then
      let r := setup_kmsg_parts o has_destination (append_payload_memfd w part.memfd part.size) rest
      (r.1, r.2.1, part :: r.2.2)
    else
      let mp := bus_body_part_map o part
      if mp.1 < 0 then (mp.1, w, mp.2 :: rest)
      else
        let r := setup_kmsg_parts o has_destination
          (append_payload_vec w mp.2.data mp.2.size) rest
        (r.1, r.2.1, mp.2 :: r.2.2)

/-- The data area `append_bloom` hands out is the one of the item written
last; filling it stores the filter in that item. -/
def fill_bloom : List kdbus_item → bloom_filter → List kdbus_item
  | [], _ => []
  | [it], bl => [{ it with bloom := bl }]
  | it :: rest, bl => it :: fill_bloom rest bl

/-- The upper bound `sz` with which `bus_message_setup_kmsg` allocates the
buffer (bus-kernel.c:219-239). -/
def setup_kmsg_sz (m : sd_bus_message) (well_known : Bool) : Nat :=
  let dl := (m.destination.getD []).length
  let sz := offsetof_kdbus_msg_items
  let sz := sz + (1 + m.body_parts.length) * ALIGN8 (offsetof_kdbus_item_data + sizeof_kdbus_vec)
  let sz := sz + ALIGN8 (offsetof_kdbus_item_data + BLOOM_SIZE)
  let sz := if well_known then sz + ALIGN8 (offsetof_kdbus_item_data + dl + 1) else sz
  if m.fds.length > 0 then
    sz + ALIGN8 (offsetof_kdbus_item_data + sizeof_int * m.fds.length) else sz

/-- The fixed part of the message record as `bus_message_setup_kmsg` fills it
in (bus-kernel.c:250-259), for the destination kind `well_known` and the
decoded id `unique`. -/
def setup_kmsg_record (m : sd_bus_message) (well_known : Bool) (unique : Nat) : kdbus_msg :=
  { flags :=
      (if m.header.flags &&& BUS_MESSAGE_NO_REPLY_EXPECTED ≠ 0 then 0
        else KDBUS_MSG_FLAGS_EXPECT_REPLY) |||
      (if m.header.flags &&& BUS_MESSAGE_NO_AUTO_START ≠ 0
        then KDBUS_MSG_FLAGS_NO_AUTO_START else 0)
    dst_id :=
      if well_known then 0
      else if m.destination.isSome then unique else KDBUS_DST_ID_BROADCAST
    payload_type := KDBUS_PAYLOAD_DBUS1
    cookie := m.header.serial
    timeout_ns := m.timeout * NSEC_PER_USEC % U64 }

/-- Source: `bus_message_setup_kmsg` from the sizing on (bus-kernel.c:219-316),
for the destination kind `well_known` and the decoded id `unique`. -/
def setup_kmsg_emit (o : bus_world) (m : sd_bus_message) (well_known : Bool) (unique : Nat) :
    Int × sd_bus_message :=
  let dl := (m.destination.getD []).length
  let sz := setup_kmsg_sz m well_known
  if ¬ o.memalign_ok sz then (-ENOMEM, { m with poisoned := true })
  else
    let k := setup_kmsg_record m well_known unique
    let d : item_cursor := { d := offsetof_kdbus_msg_items, items := [] }
    let d := if well_known then append_destination d (m.destination.getD []) dl else d
    let d := append_payload_vec d m.header_ptr (BUS_MESSAGE_BODY_BEGIN m)
    let ps := setup_kmsg_parts o m.destination.isSome d m.body_parts
    let m := { m with body_parts := ps.2.2, free_kdbus := true }
    if ps.1 < 0 then
      (ps.1, { m with poisoned := true, kdbus := some { k with items := ps.2.1.items } })
    else
      let d := ps.2.1
      if k.dst_id = KDBUS_DST_ID_BROADCAST then
        let d := append_bloom d BLOOM_SIZE
        let bl := bus_message_setup_bloom m
        let d := { d with items := fill_bloom d.items bl.2.2 }
        if bl.1 < 0 then
          (bl.1, { bl.2.1 with poisoned := true, kdbus := some { k with items := d.items } })
        else
          let d := if m.fds.length > 0 then append_fds d m.fds m.fds.length else d
          (0, { bl.2.1 with kdbus := some { k with items := d.items, size := d.d } })
      else
        let d := if m.fds.length > 0 then append_fds d m.fds m.fds.length else d
        (0, { m with kdbus := some { k with items := d.items, size := d.d } })

/-- Source: `bus_message_setup_kmsg` (bus-kernel.c:194-316).  Returns the
status and the message: on success `m.kdbus` holds the message record with
the item list. -/
def bus_message_setup_kmsg (o : bus_world) (m : sd_bus_message) : Int × sd_bus_message :=
  if m.kdbus.isSome then (0, m)
  else
    match m.destination with
    | some destination =>
      let r := bus_kernel_parse_unique_name destination 0
      if r.1 < 0 then (r.1, m)
      else setup_kmsg_emit o m (r.1 == 0) r.2
    | none => setup_kmsg_emit o m false 0

/-! ## Notification translator (bus-kernel.c:473-606) -/

/-- Modelled from the spec: `bus_seal_synthetic_message`: a synthetic message
is assigned a serial and marked immutable.  The serial is the fixed
artificial one, all ones in 32 bits. -/
def bus_seal_synthetic_message (o : bus_world) (m : sd_bus_message) : Int × sd_bus_message :=
  let r := o.seal_r m
  if r < 0 then (r, m)
  else (r, { m with sealed := true, header := { m.header with serial := 0xFFFFFFFF } })

/-- Modelled from the spec: `sd_bus_message_new_signal`: a fresh, unsealed
signal message with the given path, interface and member. -/
def sd_bus_message_new_signal (o : bus_world) (path interface member : cstr) :
    Int × sd_bus_message :=
  if o.new_signal_r < 0 then (o.new_signal_r, {})
  else (0, { header := { type := SD_BUS_MESSAGE_SIGNAL, flags := BUS_MESSAGE_NO_REPLY_EXPECTED,
                         version := 1 },
             path := some path, interface := some interface, member := some member })

/-- Modelled from the spec: `sd_bus_message_append(m, "sss", a, b, c)`:
appends three string arguments; a `NULL` string is serialized as the empty
string. -/
def sd_bus_message_append_sss (o : bus_world) (m : sd_bus_message) (a b c : Option cstr) :
    Int × sd_bus_message :=
  let r := o.append_r m
  if r < 0 then (r, m)
  else (r, { m with args := m.args ++
    [{ type := 's', str := a.getD [] }, { type := 's', str := b.getD [] },
     { type := 's', str := c.getD [] }] })

/-- Modelled from the spec: `bus_message_new_synthetic_error`: an error reply
addressed to the given serial, carrying the error name and message text. -/
def bus_message_new_synthetic_error (o : bus_world) (serial : Nat) (name message : cstr) :
    Int × sd_bus_message :=
  let r := o.synthetic_error_r serial
  if r < 0 then (r, {})
  else (r, { header := { type := SD_BUS_MESSAGE_METHOD_ERROR,
                         flags := BUS_MESSAGE_NO_REPLY_EXPECTED, version := 1 },
             reply_serial := serial, error_name := some name, error_message := some message,
             args := [{ type := 's', str := message }] })

/-- Modelled from the spec: the synthetic error names of the bus-facing
surface, `".Error.NoReply"` and `".Error.ServiceUnknown"` under the control
identity. -/
def SD_BUS_ERROR_NO_REPLY : cstr := "org.freedesktop.DBus.Error.NoReply".data
def SD_BUS_ERROR_SERVICE_UNKNOWN : cstr := "org.freedesktop.DBus.Error.ServiceUnknown".data

/-- Source: `push_name_owner_changed` (bus-kernel.c:473-502). -/
def push_name_owner_changed (o : bus_world) (bus : sd_bus)
    (name old_owner new_owner : Option cstr) : Int × sd_bus :=
  let r := sd_bus_message_new_signal o "/org/freedesktop/DBus".data
    "org.freedesktop.DBus".data "NameOwnerChanged".data
  if r.1 < 0 then (r.1, bus)
  else
    let m := r.2
    let r := sd_bus_message_append_sss o m name old_owner new_owner
    if r.1 < 0 then (r.1, bus)
    else
      let m := { r.2 with sender := some "org.freedesktop.DBus".data }
      let r := bus_seal_synthetic_message o m
      if r.1 < 0 then (r.1, bus)
      else (1, { bus with rqueue := bus.rqueue ++ [r.2] })

/-- Source: `translate_name_change` (bus-kernel.c:504-525). -/
def translate_name_change (o : bus_world) (bus : sd_bus) (_k : kdbus_msg) (d : kdbus_item) :
    Int × sd_bus :=
  if d.name_change.flags ≠ 0 then (0, bus)
  else
    let old_owner : cstr :=
      if d.type = KDBUS_ITEM_NAME_ADD then [] else format_unique_name d.name_change.old_id
    let new_owner : cstr :=
      if d.type = KDBUS_ITEM_NAME_REMOVE then [] else format_unique_name d.name_change.new_id
    push_name_owner_changed o bus (some d.name_change.name) (some old_owner) (some new_owner)

/-- Source: `translate_id_change` (bus-kernel.c:527-540). -/
def translate_id_change (o : bus_world) (bus : sd_bus) (_k : kdbus_msg) (d : kdbus_item) :
    Int × sd_bus :=
  let owner := format_unique_name d.id_change.id
  push_name_owner_changed o bus (some owner)
    (if d.type = KDBUS_ITEM_ID_ADD then none else some owner)
    (if d.type = KDBUS_ITEM_ID_ADD then some owner else none)

/-- Source: `translate_reply` (bus-kernel.c:542-570). -/
def translate_reply (o : bus_world) (bus : sd_bus) (k : kdbus_msg) (d : kdbus_item) :
    Int × sd_bus :=
  let r := bus_message_new_synthetic_error o k.cookie_reply SD_BUS_ERROR_NO_REPLY
    (if d.type = KDBUS_ITEM_REPLY_TIMEOUT then "Method call timed out".data
     else "Method call peer died".data)
  if r.1 < 0 then (r.1, bus)
  else
    let m := { r.2 with sender := some "org.freedesktop.DBus".data }
    let r := bus_seal_synthetic_message o m
    if r.1 < 0 then (r.1, bus)
    else (1, { bus with rqueue := bus.rqueue ++ [r.2] })

/-- The type of the entries of the dispatch table. -/
abbrev translate_fn := bus_world → sd_bus → kdbus_msg → kdbus_item → Int × sd_bus

/-- The dispatch table `translate[]` of `bus_kernel_translate_message`
(bus-kernel.c:575-585), indexed by item type minus the kernel base; an index
without an initializer holds `NULL`. -/
def translate (i : Nat) : Option translate_fn :=
  if i = KDBUS_ITEM_NAME_ADD - _KDBUS_ITEM_KERNEL_BASE then some translate_name_change
  else if i = KDBUS_ITEM_NAME_REMOVE - _KDBUS_ITEM_KERNEL_BASE then some translate_name_change
  else if i = KDBUS_ITEM_NAME_CHANGE - _KDBUS_ITEM_KERNEL_BASE then some translate_name_change
  else if i = KDBUS_ITEM_ID_ADD - _KDBUS_ITEM_KERNEL_BASE then some translate_id_change
  else if i = KDBUS_ITEM_ID_REMOVE - _KDBUS_ITEM_KERNEL_BASE then some translate_id_change
  else if i = KDBUS_ITEM_REPLY_TIMEOUT - _KDBUS_ITEM_KERNEL_BASE then some translate_reply
  else if i = KDBUS_ITEM_REPLY_DEAD - _KDBUS_ITEM_KERNEL_BASE then some translate_reply
  else none

/-- The number of entries of the table, `ELEMENTSOF(translate)`: one more
than the largest designated index. -/
def ELEMENTSOF_translate : Nat := KDBUS_ITEM_REPLY_DEAD - _KDBUS_ITEM_KERNEL_BASE + 1

/-- The test of the loop of `bus_kernel_translate_message` (bus-kernel.c:592):
the item is one of the recognized notification items. -/
def is_kernel_item (d : kdbus_item) : Bool :=
  decide (d.type ≥ _KDBUS_ITEM_KERNEL_BASE ∧
    d.type < _KDBUS_ITEM_KERNEL_BASE + ELEMENTSOF_translate)

/-- The loop `KDBUS_PART_FOREACH` of `bus_kernel_translate_message`
(bus-kernel.c:591-598): the status with which the loop ends (negative when it
returns from the function) and the item found. -/
def translate_find : Option kdbus_item → List kdbus_item → Int × Option kdbus_item
  | found, [] => (0, found)
  | found, d :: ds =>
    if is_kernel_item d then
      if found.isSome then (-EBADMSG, found)
      else translate_find (some d) ds
    else translate_find found ds

/-- Source: `bus_kernel_translate_message` (bus-kernel.c:572-606). -/
def bus_kernel_translate_message (o : bus_world) (bus : sd_bus) (k : kdbus_msg) :
    Int × sd_bus :=
  let f := translate_find none k.items
  if f.1 < 0 then (f.1, bus)
  else
    match f.2 with
    | none => (0, bus)
    | some found =>
      match translate (found.type - _KDBUS_ITEM_KERNEL_BASE) with
      | some fn => fn o bus k found
      | none => (0, bus) -- not reached: every index of a found item has an initializer

/-! ## Kernel receiver (bus-kernel.c:608-864) -/

/-- Modelled from the spec: `bus_header_is_complete(h, size)` of
`bus-message.h`: the `size` bytes at `h` contain a complete, self-describing
header record, that is the fixed header and all the header fields whose
length the fixed header declares. -/
def bus_header_is_complete (h : bus_header) (size : Nat) : Bool :=
  decide (sizeof_bus_header ≤ size ∧ sizeof_bus_header + h.fields_size ≤ size)

/-- Modelled from the spec: `bus_header_message_size(h, &total)` of
`bus-message.h`: the total message size the header declares, header length
plus body size. -/
def bus_header_message_size (h : bus_header) : Int × Nat :=
  (0, sizeof_bus_header + ALIGN8 h.fields_size + h.body_size)

/-- Modelled from the spec: `bus_message_from_header`: constructs an empty,
sealed message from the header at address `h`, owning the given descriptors
and security label. -/
def bus_message_from_header (o : bus_world) (h : Nat) (fds : List Int)
    (seclabel : Option cstr) : Int × sd_bus_message :=
  let r := o.from_header_r (o.header_at h)
  if r < 0 then (r, {})
  else (r, { header := o.header_at h, header_ptr := h, sealed := true, fds := fds,
             label := seclabel })

/-- Modelled from the spec: `bus_message_parse_fields`: decodes the header
fields of the message into its path, interface, member, error name, reply
serial, destination and sender. -/
def bus_message_parse_fields (o : bus_world) (m : sd_bus_message) : Int × sd_bus_message :=
  let r := o.parse_fields m
  if r.1 < 0 then (r.1, m)
  else (r.1, { m with path := r.2.path, interface := r.2.interface, member := r.2.member,
                      error_name := r.2.error_name, reply_serial := r.2.reply_serial,
                      destination := r.2.destination, sender := r.2.sender })

/-- The variables of `bus_kernel_make_message` the first loop sets: the
header pointer `h`, and `n_bytes`, `fds` (with `n_fds` its length) and
`seclabel`. -/
structure make_pass1 where
  h : Option Nat := none
  n_bytes : Nat := 0
  fds : List Int := []
  seclabel : Option cstr := none
  deriving DecidableEq, Repr

/-- One step of the first loop of `bus_kernel_make_message`
(bus-kernel.c:623-665) on item `d`: the status (negative when the function
returns) and the variables. -/
def make_message_scan (o : bus_world) (bus : sd_bus) (st : make_pass1) (d : kdbus_item) :
    Int × make_pass1 :=
  let l := d.size - offsetof_kdbus_item_data
  if d.type = KDBUS_ITEM_PAYLOAD_OFF then
    if st.h = none ∧
        ¬ bus_header_is_complete (o.header_at (bus.kdbus_buffer + d.vec.offset)) d.vec.size then
      (-EBADMSG, { st with h := some (bus.kdbus_buffer + d.vec.offset) })
    else
      (0, { st with h := some (st.h.getD (bus.kdbus_buffer + d.vec.offset))
                    n_bytes := (st.n_bytes + d.vec.size) % U64 })
  else if d.type = KDBUS_ITEM_PAYLOAD_MEMFD then
    if st.h = none then (-EBADMSG, st)
    else (0, { st with n_bytes := (st.n_bytes + d.memfd.size) % U64 })
  else if d.type = KDBUS_ITEM_FDS then
    let j := l / sizeof_int
    if ¬ o.realloc_ok (st.fds.length + j) then (-ENOMEM, st)
    else (0, { st with fds := st.fds ++ d.fds.take j })
  else if d.type = KDBUS_ITEM_SECLABEL then
    (0, { st with seclabel := some d.str })
  else (0, st)

/-- The first loop of `bus_kernel_make_message` (bus-kernel.c:622-666): the
status with which it ends (negative when it returns from the function) and
the variables. -/
def make_message_pass1 (o : bus_world) (bus : sd_bus) :
    make_pass1 → List kdbus_item → Int × make_pass1
  | st, [] => (0, st)
  | st, d :: ds =>
    let r := make_message_scan o bus st d
    if r.1 < 0 then r
    else make_message_pass1 o bus r.2 ds

/-- The variables of `bus_kernel_make_message` the second loop sets: the
message `m` under construction, the running payload offset `idx` and the
explicit `destination`. -/
structure make_pass2 where
  m : sd_bus_message
  idx : Nat := 0
  destination : Option cstr := none
  deriving DecidableEq, Repr

/-- All ones in 64 bits, `~0ULL`: the reserved "no offset" value. -/
def NO_OFFSET : Nat := 2 ^ 64 - 1

/-- The case `KDBUS_ITEM_PAYLOAD_OFF` of the second loop (bus-kernel.c:689-723). -/
def make_message_payload_off (o : bus_world) (bus : sd_bus) (st : make_pass2) (d : kdbus_item) :
    Int × make_pass2 :=
  let m := st.m
  let begin_body := BUS_MESSAGE_BODY_BEGIN m
  if (st.idx + d.vec.size) % U64 > begin_body then
    if ¬ o.append_part_ok m then (-ENOMEM, st)
    else
      let is_zero : Bool := d.vec.offset == NO_OFFSET
      let part : bus_body_part :=
        if st.idx ≥ begin_body then
          { memfd := -1, is_zero := is_zero
            data := if ¬ is_zero then bus.kdbus_buffer + d.vec.offset else 0
            size := d.vec.size
            sealed := true }
        else
          { memfd := -1, is_zero := is_zero
            data := if ¬ is_zero then bus.kdbus_buffer + d.vec.offset + (begin_body - st.idx)
                    else 0
            size := d.vec.size - (begin_body - st.idx)
            sealed := true }
      (0, { st with m := { m with body_parts := m.body_parts ++ [part] }
                    idx := (st.idx + d.vec.size) % U64 })
  else (0, { st with idx := (st.idx + d.vec.size) % U64 })

/-- The case `KDBUS_ITEM_PAYLOAD_MEMFD` of the second loop (bus-kernel.c:725-745). -/
def make_message_payload_memfd (o : bus_world) (st : make_pass2) (d : kdbus_item) :
    Int × make_pass2 :=
  let m := st.m
  if st.idx < BUS_MESSAGE_BODY_BEGIN m then (-EBADMSG, st)
  else if ¬ o.append_part_ok m then (-ENOMEM, st)
  else
    let part : bus_body_part := { memfd := d.memfd.fd, size := d.memfd.size, sealed := true }
    (0, { st with m := { m with body_parts := m.body_parts ++ [part] }
                  idx := (st.idx + d.memfd.size) % U64 })

/-- The cases of the second loop that hydrate the message from an attached
item (bus-kernel.c:747-797, 803-807); every other item leaves the message as
it is (bus-kernel.c:809-814).  The length `l` of the data of an item is its
size less the 16 bytes of size and type tag. -/
def make_message_hydrate (bus : sd_bus) (m : sd_bus_message) (d : kdbus_item) : sd_bus_message :=
  if d.type = KDBUS_ITEM_CREDS then
    { m with creds := { m.creds with
      pid_starttime := d.creds.starttime / NSEC_PER_USEC
      uid := d.creds.uid, gid := d.creds.gid, pid := d.creds.pid, tid := d.creds.tid
      mask := m.creds.mask ||| ((SD_BUS_CREDS_UID ||| SD_BUS_CREDS_GID ||| SD_BUS_CREDS_PID |||
        SD_BUS_CREDS_PID_STARTTIME ||| SD_BUS_CREDS_TID) &&& bus.creds_mask) } }
  else if d.type = KDBUS_ITEM_TIMESTAMP then
    { m with realtime := d.timestamp.realtime_ns / NSEC_PER_USEC
             monotonic := d.timestamp.monotonic_ns / NSEC_PER_USEC }
  else if d.type = KDBUS_ITEM_PID_COMM then
    { m with creds := { m.creds with
      comm := some d.str
      mask := m.creds.mask ||| (SD_BUS_CREDS_COMM &&& bus.creds_mask) } }
  else if d.type = KDBUS_ITEM_TID_COMM then
    { m with creds := { m.creds with
      tid_comm := some d.str
      mask := m.creds.mask ||| (SD_BUS_CREDS_TID_COMM &&& bus.creds_mask) } }
  else if d.type = KDBUS_ITEM_EXE then
    { m with creds := { m.creds with
      exe := some d.str
      mask := m.creds.mask ||| (SD_BUS_CREDS_EXE &&& bus.creds_mask) } }
  else if d.type = KDBUS_ITEM_CMDLINE then
    { m with creds := { m.creds with
      cmdline := some d.str, cmdline_size := d.size - offsetof_kdbus_item_data
      mask := m.creds.mask ||| (SD_BUS_CREDS_CMDLINE &&& bus.creds_mask) } }
  else if d.type = KDBUS_ITEM_CGROUP then
    { m with creds := { m.creds with
      cgroup := some d.str
      mask := m.creds.mask ||| ((SD_BUS_CREDS_CGROUP ||| SD_BUS_CREDS_UNIT |||
        SD_BUS_CREDS_USER_UNIT ||| SD_BUS_CREDS_SLICE ||| SD_BUS_CREDS_SESSION |||
        SD_BUS_CREDS_OWNER_UID) &&& bus.creds_mask) } }
  else if d.type = KDBUS_ITEM_AUDIT then
    { m with creds := { m.creds with
      audit_session_id := d.audit.sessionid, audit_login_uid := d.audit.loginuid
      mask := m.creds.mask ||| ((SD_BUS_CREDS_AUDIT_SESSION_ID |||
        SD_BUS_CREDS_AUDIT_LOGIN_UID) &&& bus.creds_mask) } }
  else if d.type = KDBUS_ITEM_CAPS then
    { m with creds := { m.creds with
      capability := some d.data, capability_size := d.size - offsetof_kdbus_item_data
      mask := m.creds.mask ||| ((SD_BUS_CREDS_EFFECTIVE_CAPS ||| SD_BUS_CREDS_PERMITTED_CAPS |||
        SD_BUS_CREDS_INHERITABLE_CAPS ||| SD_BUS_CREDS_BOUNDING_CAPS) &&& bus.creds_mask) } }
  else if d.type = KDBUS_ITEM_NAMES then
    { m with creds := { m.creds with
      well_known_names := some d.str, well_known_names_size := d.size - offsetof_kdbus_item_data
      mask := m.creds.mask ||| (SD_BUS_CREDS_WELL_KNOWN_NAMES &&& bus.creds_mask) } }
  else m

/-- One step of the second loop (bus-kernel.c:685-815), the `switch` on the
type of item `d` (its labels are distinct, so the order of the tests does not
matter): the status (negative when the loop is left for `fail`) and the
variables. -/
def make_message_item (o : bus_world) (bus : sd_bus) (st : make_pass2) (d : kdbus_item) :
    Int × make_pass2 :=
  if d.type = KDBUS_ITEM_PAYLOAD_OFF then make_message_payload_off o bus st d
  else if d.type = KDBUS_ITEM_PAYLOAD_MEMFD then make_message_payload_memfd o st d
  else if d.type = KDBUS_ITEM_DST_NAME then (0, { st with destination := some d.str })
  else (0, { st with m := make_message_hydrate bus st.m d })

/-- The second loop of `bus_kernel_make_message` (bus-kernel.c:682-816). -/
def make_message_pass2 (o : bus_world) (bus : sd_bus) :
    make_pass2 → List kdbus_item → Int × make_pass2
  | st, [] => (0, st)
  | st, d :: ds =>
    let r := make_message_item o bus st d
    if r.1 < 0 then r
    else make_message_pass2 o bus r.2 ds

/-- The label `fail` of `bus_kernel_make_message` (bus-kernel.c:850-861):
every memfd of the message is detached before the message is released. -/
def make_message_detach (m : sd_bus_message) : sd_bus_message :=
  let detach := fun (part : bus_body_part) =>
    if part.memfd ≥ 0 then { part with memfd := -1 } else part
  { m with body_parts := m.body_parts.map detach }

/-- What `bus_kernel_make_message` leaves behind: the status, the connection,
and the message it released on the way to `fail`, if any, as it was when
released. -/
structure make_result where
  r : Int
  bus : sd_bus
  unref : Option sd_bus_message := none
  deriving DecidableEq, Repr

/-- Where the construction of the message stands when `bus_kernel_make_message`
reaches line 822: the status so far (negative when the function has
returned), the message `m` with its header fields parsed, the explicit
`destination`, and the message released on the way to `fail`, if any. -/
structure make_built where
  r : Int
  m : sd_bus_message := {}
  destination : Option cstr := none
  unref : Option sd_bus_message := none
  deriving DecidableEq, Repr

/-- Source: `bus_kernel_make_message` up to the parsing of the header fields
(bus-kernel.c:608-820). -/
def make_message_construct (o : bus_world) (bus : sd_bus) (k : kdbus_msg) : make_built :=
  let p1 := make_message_pass1 o bus {} k.items
  if p1.1 < 0 then { r := p1.1 }
  else
    match p1.2.h with
    | none => { r := -EBADMSG }
    | some h =>
      let sz := bus_header_message_size (o.header_at h)
      if sz.1 < 0 then { r := sz.1 }
      else if p1.2.n_bytes ≠ sz.2 then { r := -EBADMSG }
      else
        let fh := bus_message_from_header o h p1.2.fds p1.2.seclabel
        if fh.1 < 0 then { r := fh.1 }
        else
          let p2 := make_message_pass2 o bus { m := fh.2 } k.items
          if p2.1 < 0 then { r := p2.1, unref := some (make_message_detach p2.2.m) }
          else
            let pf := bus_message_parse_fields o p2.2.m
            if pf.1 < 0 then { r := pf.1, unref := some (make_message_detach pf.2) }
            else { r := pf.1, m := pf.2, destination := p2.2.destination }

/-- The end of `bus_kernel_make_message` (bus-kernel.c:822-844): sender and
destination are settled, the message takes possession of the kernel buffer. -/
def make_message_finish (bus : sd_bus) (k : kdbus_msg) (m : sd_bus_message)
    (destination : Option cstr) : sd_bus_message :=
  let m :=
    if k.src_id = KDBUS_SRC_ID_KERNEL then
      { m with sender := some "org.freedesktop.DBus".data }
    else
      { m with sender := some (format_unique_name k.src_id)
               creds := { m.creds with
                 unique_name := some (format_unique_name k.src_id)
                 mask := m.creds.mask ||| (SD_BUS_CREDS_UNIQUE_NAME &&& bus.creds_mask) } }
  let m :=
    if m.destination.isNone then
      if destination.isSome then { m with destination := destination }
      else if k.dst_id ≠ KDBUS_DST_ID_NAME ∧ k.dst_id ≠ KDBUS_DST_ID_BROADCAST then
        { m with destination := some (format_unique_name k.dst_id) }
      else m
    else m
  { m with kdbus := some k, release_kdbus := true, free_fds := true }

/-- Source: `bus_kernel_make_message` (bus-kernel.c:608-864). -/
def bus_kernel_make_message (o : bus_world) (bus : sd_bus) (k : kdbus_msg) : make_result :=
  let b := make_message_construct o bus k
  if b.r < 0 then { r := b.r, bus := bus, unref := b.unref }
  else
    let m := make_message_finish bus k b.m b.destination
    { r := 1, bus := { bus with rqueue := bus.rqueue ++ [m] } }

/-! ## Calls to the outside -/

/-- What a function of this layer does to the outside, in program order: the
operations on the mutex of the segment cache and the system calls. -/
inductive bus_call where
  | mutex_lock
  | mutex_unlock
  | cmd_hello
  | mmap
  | cmd_msg_send (k : Option kdbus_msg)
  | cmd_msg_recv
  | cmd_free (off : Nat)
  | cmd_memfd_new
  | cmd_memfd_size_set (fd : Int) (sz : Nat)
  | munmap (address length : Nat)
  | close (fd : Int)
  deriving DecidableEq, Repr

/-- Modelled from the spec: `close_many(fds, n)` of `util.h` (not part of the
tree): closes each of the first `n` descriptors of the array, in order. -/
def close_many (fds : List Int) (n : Nat) : List bus_call :=
  (fds.take n).map bus_call.close

/-- Modelled from the spec: the macro `PAGE_ALIGN(l)` of `util.h` (not part
of the tree): `l` rounded up to a multiple of the page size, in `size_t`
arithmetic. -/
def PAGE_ALIGN (o : bus_world) (l : Nat) : Nat :=
  (l + o.page_size - 1) % U64 / o.page_size * o.page_size

/-! ## Connection setup (bus-kernel.c:318-369) -/

/-- Modelled from the spec: constants of the handshake: the size of the
handshake record, the size of the receive pool the connection asks for
(`KDBUS_POOL_SIZE` of `bus-kernel.h`), the connection flag by which the
kernel reports that descriptors may be passed, and the value `MAP_FAILED`. -/
def sizeof_kdbus_cmd_hello : Nat := 72
def KDBUS_POOL_SIZE : Nat := 16 * 1024 * 1024
def KDBUS_HELLO_ACCEPT_FD : Nat := 1
def MAP_FAILED : Nat := 2 ^ 64 - 1

/-- Modelled from the spec: `bus_start_running` of `sd-bus.c` (not part of
the tree): moves the connection to its running state, which this embedding
does not keep, and reports a status. -/
def bus_start_running (o : bus_world) (b : sd_bus) : Int × sd_bus :=
  (o.start_running_r b, b)

/-- What `bus_kernel_take_fd` leaves behind: the status, the connection and
the calls it made. -/
structure take_fd_result where
  r : Int
  b : sd_bus
  calls : List bus_call := []
  deriving DecidableEq, Repr

/-- The handshake record as `bus_kernel_take_fd` submits it
(bus-kernel.c:329-333). -/
def take_fd_hello (b : sd_bus) : kdbus_cmd_hello :=
  { size := sizeof_kdbus_cmd_hello, conn_flags := b.hello_flags
    attach_flags := b.attach_flags, pool_size := KDBUS_POOL_SIZE }

/-- The end of `bus_kernel_take_fd` (bus-kernel.c:347-368), reached with the
handshake record `hello` as the kernel has left it and the pool mapped: the
reported flags and bloom size are checked and the identity of the connection
is derived. -/
def take_fd_finish (o : bus_world) (b : sd_bus) (hello : kdbus_cmd_hello)
    (calls : List bus_call) : take_fd_result :=
  if hello.bus_flags > 0xFFFFFFFF ∨ hello.conn_flags > 0xFFFFFFFF then
    { r := -ENOTSUP, b := b, calls := calls }
  else if hello.bloom_size ≠ BLOOM_SIZE then
    { r := -ENOTSUP, b := b, calls := calls }
  else if ¬ o.asprintf_ok then
    { r := -ENOMEM, b := b, calls := calls }
  else
    let b := { b with unique_name := some (format_unique_name hello.id)
                      unique_id := hello.id
                      is_kernel := true
                      bus_client := true
                      can_fds := decide (hello.conn_flags &&& KDBUS_HELLO_ACCEPT_FD ≠ 0)
                      server_id := hello.id128 }
    let s := bus_start_running o b
    { r := s.1, b := s.2, calls := calls }

/-- Source: `bus_kernel_take_fd` (bus-kernel.c:318-369). -/
def bus_kernel_take_fd (o : bus_world) (b : sd_bus) : take_fd_result :=
  if b.is_server then { r := -EINVAL, b := b }
  else
    let hello := take_fd_hello b
    let b := { b with use_memfd := 1 }
    let io := o.cmd_hello hello
    let calls := [bus_call.cmd_hello]
    if io.1 < 0 then { r := -io.2.1, b := b, calls := calls }
    else
      let hello := io.2.2
      if b.kdbus_buffer = 0 then
        let calls := calls ++ [bus_call.mmap]
        if o.mmap_pool.1 = MAP_FAILED then
          { r := -o.mmap_pool.2, b := { b with kdbus_buffer := 0 }, calls := calls }
        else take_fd_finish o { b with kdbus_buffer := o.mmap_pool.1 } hello calls
      else take_fd_finish o b hello calls

/-! ## Sending (bus-kernel.c:389-452) -/

/-- Modelled from the spec: the macro `BUS_MESSAGE_SERIAL(m)` of
`bus-message.h`: the serial of the message, in host byte order. -/
def BUS_MESSAGE_SERIAL (m : sd_bus_message) : Nat := m.header.serial

/-- The conversion `%s` of `printf` for a string that may be `NULL`. -/
def format_s (s : Option cstr) : cstr := s.getD "(null)".data

/-- What `bus_kernel_write_message` leaves behind: the status, the
connection, the message and the calls it made. -/
structure write_result where
  r : Int
  bus : sd_bus
  m : sd_bus_message
  calls : List bus_call := []
  deriving DecidableEq, Repr

/-- The end of the failure branch of `bus_kernel_write_message`
(bus-kernel.c:433-448): the error reply is built, sealed and queued. -/
def write_message_reply (o : bus_world) (bus : sd_bus) (m : sd_bus_message)
    (calls : List bus_call) (name message : cstr) : write_result :=
  let r := bus_message_new_synthetic_error o (BUS_MESSAGE_SERIAL m) name message
  if r.1 < 0 then { r := r.1, bus := bus, m := m, calls := calls }
  else
    let s := bus_seal_synthetic_message o r.2
    if s.1 < 0 then { r := s.1, bus := bus, m := m, calls := calls }
    else { r := 0, bus := { bus with rqueue := bus.rqueue ++ [s.2] }, m := m, calls := calls }

/-- The failure branch of `bus_kernel_write_message` (bus-kernel.c:406-449),
entered when the send call has failed with `errno`. -/
def write_message_failed (o : bus_world) (bus : sd_bus) (m : sd_bus_message)
    (calls : List bus_call) (errno : Int) : write_result :=
  if errno = EAGAIN ∨ errno = EINTR then { r := 0, bus := bus, m := m, calls := calls }
  else if errno = ENXIO ∨ errno = ESRCH then
    if m.header.type = SD_BUS_MESSAGE_METHOD_CALL then
      write_message_reply o bus m calls SD_BUS_ERROR_SERVICE_UNKNOWN
        ("Destination ".data ++ format_s m.destination ++ " not known".data)
    else { r := 0, bus := bus, m := m, calls := calls }
  else if errno = EADDRNOTAVAIL then
    if m.header.type = SD_BUS_MESSAGE_METHOD_CALL then
      write_message_reply o bus m calls SD_BUS_ERROR_SERVICE_UNKNOWN
        ("Activation of ".data ++ format_s m.destination ++ " not requested".data)
    else { r := 0, bus := bus, m := m, calls := calls }
  else { r := -errno, bus := bus, m := m, calls := calls }

/-- Source: `bus_kernel_write_message` (bus-kernel.c:389-452). -/
def bus_kernel_write_message (o : bus_world) (bus : sd_bus) (m : sd_bus_message) :
    write_result :=
  let r := o.make_room_r bus
  if r < 0 then { r := r, bus := bus, m := m }
  else
    let s := bus_message_setup_kmsg o m
    let m := s.2
    if s.1 < 0 then { r := s.1, bus := bus, m := m }
    else
      let io := o.msg_send m.kdbus
      let calls := [bus_call.cmd_msg_send m.kdbus]
      if io.1 < 0 then write_message_failed o bus m calls io.2
      else { r := 1, bus := bus, m := m, calls := calls }

/-! ## Receiving (bus-kernel.c:454-471, 866-897) -/

/-- Source: `close_kdbus_msg` (bus-kernel.c:454-471), for the message record
`k` stored at address `kp`: the buffer is handed back to the kernel and every
descriptor the message carries is closed. -/
def close_kdbus_msg (bus : sd_bus) (kp : Nat) (k : kdbus_msg) : List bus_call :=
  bus_call.cmd_free (kp - bus.kdbus_buffer) ::
    k.items.flatMap (fun d =>
      if d.type = KDBUS_ITEM_FDS then
        close_many d.fds ((d.size - offsetof_kdbus_item_data) / sizeof_int)
      else if d.type = KDBUS_ITEM_PAYLOAD_MEMFD then [bus_call.close d.memfd.fd]
      else [])

/-- Modelled from the spec: `sd_bus_message_unref` of `bus-message.h` (not
part of the tree) dropping the last reference: the message is discarded and
the descriptors it owns are closed, that is the attached descriptors once
the message has taken possession of them (`free_fds`), and the memfd of
every body part that has one.  (A message that holds a kernel buffer hands
it back as well; this layer never discards such a message.) -/
def sd_bus_message_unref (m : sd_bus_message) : List bus_call :=
  (if m.free_fds then m.fds.map bus_call.close else []) ++
    m.body_parts.flatMap (fun part => if part.memfd ≥ 0 then [bus_call.close part.memfd] else [])

/-- What `bus_kernel_read_message` leaves behind: the status, the connection
and the calls it made. -/
structure read_result where
  r : Int
  bus : sd_bus
  calls : List bus_call := []
  deriving DecidableEq, Repr

/-- The dispatch of `bus_kernel_read_message` on the payload type
(bus-kernel.c:886-891). -/
def read_message_dispatch (o : bus_world) (bus : sd_bus) (k : kdbus_msg) : make_result :=
  if k.payload_type = KDBUS_PAYLOAD_DBUS1 then bus_kernel_make_message o bus k
  else if k.payload_type = KDBUS_PAYLOAD_KERNEL then
    let t := bus_kernel_translate_message o bus k
    { r := t.1, bus := t.2 }
  else { r := 0, bus := bus }

/-- Source: `bus_kernel_read_message` (bus-kernel.c:866-897).  The calls
include those of the release of a partially built message inside
`bus_kernel_make_message`. -/
def bus_kernel_read_message (o : bus_world) (bus : sd_bus) : read_result :=
  let r := o.make_room_r bus
  if r < 0 then { r := r, bus := bus }
  else
    let io := o.msg_recv
    let calls := [bus_call.cmd_msg_recv]
    if io.1 < 0 then
      if io.2.1 = EAGAIN then { r := 0, bus := bus, calls := calls }
      else { r := -io.2.1, bus := bus, calls := calls }
    else
      let kp := bus.kdbus_buffer + io.2.2
      let k := o.msg_at kp
      let res := read_message_dispatch o bus k
      let calls := calls ++ (match res.unref with
        | some m => sd_bus_message_unref m
        | none => [])
      let calls := if res.r ≤ 0 then calls ++ close_kdbus_msg res.bus kp k else calls
      { r := if res.r < 0 then res.r else 1, bus := res.bus, calls := calls }

/-! ## Segment cache (bus-kernel.c:899-989) -/

/-- What `bus_kernel_pop_memfd` leaves behind: the value returned (a
descriptor, or a negative status), the connection, the contents of `*address`
and `*size`, and the calls it made. -/
structure pop_result where
  r : Int
  bus : Option sd_bus
  address : Nat
  size : Nat
  calls : List bus_call := []
  deriving DecidableEq, Repr

/-- Source: `bus_kernel_pop_memfd` (bus-kernel.c:899-937).  The connection
may be `NULL`; `address` and `size` are the contents of the two output
locations before the call. -/
def bus_kernel_pop_memfd (o : bus_world) (bus : Option sd_bus) (address size : Nat) :
    pop_result :=
  match bus with
  | none => { r := -ENOTSUP, bus := none, address := address, size := size }
  | some b =>
    if ¬ b.is_kernel then { r := -ENOTSUP, bus := some b, address := address, size := size }
    else if b.n_memfd_cache ≤ 0 then
      let io := o.memfd_new
      let calls := [bus_call.mutex_lock, bus_call.mutex_unlock, bus_call.cmd_memfd_new]
      if io.1 < 0 then
        { r := -io.2.1, bus := some b, address := address, size := size, calls := calls }
      else { r := io.2.2, bus := some b, address := 0, size := 0, calls := calls }
    else
      let n := b.n_memfd_cache - 1
      let c := b.memfd_cache.getD n {}
      { r := c.fd, bus := some { b with n_memfd_cache := n }
        address := c.address, size := c.size
        calls := [bus_call.mutex_lock, bus_call.mutex_unlock] }

/-- Source: `close_and_munmap` (bus-kernel.c:939-944). -/
def close_and_munmap (o : bus_world) (fd : Int) (address size : Nat) : List bus_call :=
  (if size > 0 then [bus_call.munmap address (PAGE_ALIGN o size)] else []) ++
    [bus_call.close fd]

/-- What `bus_kernel_push_memfd` leaves behind: the connection and the calls
it made. -/
structure push_result where
  bus : Option sd_bus
  calls : List bus_call := []
  deriving DecidableEq, Repr

/-- Source: `bus_kernel_push_memfd` (bus-kernel.c:946-980). -/
def bus_kernel_push_memfd (o : bus_world) (bus : Option sd_bus) (fd : Int)
    (address size : Nat) : push_result :=
  let max_sz := PAGE_ALIGN o o.MEMFD_CACHE_ITEM_SIZE_MAX
  match bus with
  | none => { bus := none, calls := close_and_munmap o fd address size }
  | some b =>
    if ¬ b.is_kernel then { bus := some b, calls := close_and_munmap o fd address size }
    else if b.n_memfd_cache ≥ b.memfd_cache.length then
      { bus := some b
        calls := [bus_call.mutex_lock, bus_call.mutex_unlock] ++
          close_and_munmap o fd address size }
    else
      let n := b.n_memfd_cache
      if size > max_sz then
        { bus := some { b with
            n_memfd_cache := n + 1
            memfd_cache := b.memfd_cache.set n { fd := fd, address := address, size := max_sz } }
          calls := [bus_call.mutex_lock, bus_call.cmd_memfd_size_set fd max_sz,
                    bus_call.munmap (address + max_sz) (PAGE_ALIGN o (size - max_sz)),
                    bus_call.mutex_unlock] }
      else
        { bus := some { b with
            n_memfd_cache := n + 1
            memfd_cache := b.memfd_cache.set n { fd := fd, address := address, size := size } }
          calls := [bus_call.mutex_lock, bus_call.mutex_unlock] }

/-- Source: `bus_kernel_flush_memfd` (bus-kernel.c:982-989). -/
def bus_kernel_flush_memfd (o : bus_world) (b : sd_bus) : List bus_call :=
  (b.memfd_cache.take b.n_memfd_cache).flatMap
    (fun c => close_and_munmap o c.fd c.address c.size)

/-! ## Flag translation (bus-kernel.c:991-1043) -/

/-- Modelled from the spec: the attach flags of `enum kdbus_attach_flags` in
`kdbus.h` (not part of the tree), one bit per kind of attached item.  Only
their being distinct single bits matters. -/
def KDBUS_ATTACH_TIMESTAMP : Nat := 1 <<< 0
def KDBUS_ATTACH_CREDS : Nat := 1 <<< 1
def KDBUS_ATTACH_NAMES : Nat := 1 <<< 2
def KDBUS_ATTACH_COMM : Nat := 1 <<< 3
def KDBUS_ATTACH_EXE : Nat := 1 <<< 4
def KDBUS_ATTACH_CMDLINE : Nat := 1 <<< 5
def KDBUS_ATTACH_CGROUP : Nat := 1 <<< 6
def KDBUS_ATTACH_CAPS : Nat := 1 <<< 7
def KDBUS_ATTACH_SECLABEL : Nat := 1 <<< 8
def KDBUS_ATTACH_AUDIT : Nat := 1 <<< 9

/-- Source: `kdbus_translate_attach_flags` (bus-kernel.c:1009-1043).  Returns
the status and the value left in `*kdbus_mask`. -/
def kdbus_translate_attach_flags (mask : Nat) : Int × Nat :=
  let m := 0
  let m :=
    if mask &&& (SD_BUS_CREDS_UID ||| SD_BUS_CREDS_GID ||| SD_BUS_CREDS_PID |||
        SD_BUS_CREDS_PID_STARTTIME ||| SD_BUS_CREDS_TID) ≠ 0
    then m ||| KDBUS_ATTACH_CREDS else m
  let m :=
    if mask &&& (SD_BUS_CREDS_COMM ||| SD_BUS_CREDS_TID_COMM) ≠ 0
    then m ||| KDBUS_ATTACH_COMM else m
  let m := if mask &&& SD_BUS_CREDS_EXE ≠ 0 then m ||| KDBUS_ATTACH_EXE else m
  let m := if mask &&& SD_BUS_CREDS_CMDLINE ≠ 0 then m ||| KDBUS_ATTACH_CMDLINE else m
  let m :=
    if mask &&& (SD_BUS_CREDS_CGROUP ||| SD_BUS_CREDS_UNIT ||| SD_BUS_CREDS_USER_UNIT |||
        SD_BUS_CREDS_SLICE ||| SD_BUS_CREDS_SESSION ||| SD_BUS_CREDS_OWNER_UID) ≠ 0
    then m ||| KDBUS_ATTACH_CGROUP else m
  let m :=
    if mask &&& (SD_BUS_CREDS_EFFECTIVE_CAPS ||| SD_BUS_CREDS_PERMITTED_CAPS |||
        SD_BUS_CREDS_INHERITABLE_CAPS ||| SD_BUS_CREDS_BOUNDING_CAPS) ≠ 0
    then m ||| KDBUS_ATTACH_CAPS else m
  let m :=
    if mask &&& SD_BUS_CREDS_SELINUX_CONTEXT ≠ 0 then m ||| KDBUS_ATTACH_SECLABEL else m
  let m :=
    if mask &&& (SD_BUS_CREDS_AUDIT_SESSION_ID ||| SD_BUS_CREDS_AUDIT_LOGIN_UID) ≠ 0
    then m ||| KDBUS_ATTACH_AUDIT else m
  let m :=
    if mask &&& SD_BUS_CREDS_WELL_KNOWN_NAMES ≠ 0 then m ||| KDBUS_ATTACH_NAMES else m
  (0, m)

/-! ## Notions the statements use -/

/-- The outcome of a translation: either the status is 1 and exactly one
message was appended to the delivery queue, or the status is not 1 and the
connection is unchanged. -/
def translate_outcome (bus : sd_bus) (res : Int × sd_bus) : Prop :=
  (res.1 = 1 ∧ ∃ msg, res.2 = { bus with rqueue := bus.rqueue ++ [msg] }) ∨
  (res.1 ≠ 1 ∧ res.2 = bus)

/-- The explicit destination-name item of an item list, if present: the name
of the last item tagged destination-name. -/
def explicit_destination (items : List kdbus_item) : Option cstr :=
  (items.filter (fun d => d.type = KDBUS_ITEM_DST_NAME)).getLast?.map (fun d => d.str)

/-- The item is a payload item as the receiver knows them: a pool reference
(payload-off) or a payload-memfd. -/
def is_payload_item (d : kdbus_item) : Bool :=
  d.type = KDBUS_ITEM_PAYLOAD_OFF ∨ d.type = KDBUS_ITEM_PAYLOAD_MEMFD

/-- The payload size an item contributes: the size of its vector or memfd. -/
def payload_size (d : kdbus_item) : Nat :=
  if d.type = KDBUS_ITEM_PAYLOAD_OFF then d.vec.size
  else if d.type = KDBUS_ITEM_PAYLOAD_MEMFD then d.memfd.size
  else 0

/-- The payload item contains a complete, self-describing header record: it
is a pool reference whose bytes hold a complete header. -/
def contains_header (o : bus_world) (bus : sd_bus) (d : kdbus_item) : Bool :=
  d.type = KDBUS_ITEM_PAYLOAD_OFF ∧
    bus_header_is_complete (o.header_at (bus.kdbus_buffer + d.vec.offset)) d.vec.size

/-- The sum of the sizes of all payload items of an item list. -/
def payload_size_sum (items : List kdbus_item) : Nat :=
  (items.map payload_size).sum

/-- The sum of the sizes of body parts. -/
def body_parts_size (parts : List bus_body_part) : Nat :=
  (parts.map (fun p => p.size)).sum

/-- The payload-vector item `append_payload_vec` writes. -/
def payload_vec_item (p sz : Nat) : kdbus_item :=
  { size := offsetof_kdbus_item_data + sizeof_kdbus_vec
    type := KDBUS_ITEM_PAYLOAD_VEC
    vec := { address := p, size := sz } }

/-- The payload-memfd item `append_payload_memfd` writes. -/
def payload_memfd_item (memfd : Int) (sz : Nat) : kdbus_item :=
  { size := offsetof_kdbus_item_data + sizeof_kdbus_memfd
    type := KDBUS_ITEM_PAYLOAD_MEMFD
    memfd := { fd := memfd, size := sz } }

/-- The destination-name item `append_destination` writes. -/
def destination_item (s : cstr) : kdbus_item :=
  { size := offsetof_kdbus_item_data + s.length + 1
    type := KDBUS_ITEM_DST_NAME
    str := s }

/-- The bloom item `append_bloom` writes, once filled with a filter. -/
def bloom_item (bl : bloom_filter) : kdbus_item :=
  { size := offsetof_kdbus_item_data + BLOOM_SIZE
    type := KDBUS_ITEM_BLOOM
    bloom := bl }

/-- The attached-descriptors item `append_fds` writes. -/
def fds_item (fds : List Int) : kdbus_item :=
  { size := offsetof_kdbus_item_data + sizeof_int * fds.length
    type := KDBUS_ITEM_FDS
    fds := fds }

/-- The item that stands for a body part in the emitted list: a zero-fill
part gives a payload vector with a null address, a sealed memfd-backed part of
a message with a destination gives a payload memfd, every other part gives a
payload vector pointing at its mapped data. -/
def part_item (has_destination : Bool) (part : bus_body_part) : kdbus_item :=
  if part.is_zero then payload_vec_item 0 part.size
  else if part.memfd ≥ 0 ∧ part.sealed ∧ has_destination then
    payload_memfd_item part.memfd part.size
  else payload_vec_item part.data part.size

/-- The body parts after the transcoder has mapped them: nothing but the
data address of a part changes, and a zero-fill part is left as it is (it is
never mapped). -/
def same_part (a b : bus_body_part) : Prop :=
  b.size = a.size ∧ b.is_zero = a.is_zero ∧ b.memfd = a.memfd ∧ b.sealed = a.sealed ∧
    (a.is_zero = true → b = a)

/-- The number of items of a list that carry a given type tag. -/
def count_items (type : Nat) (items : List kdbus_item) : Nat :=
  (items.filter (fun d => d.type = type)).length

/-- The body part the receiver appends for a payload item that lies wholly
past the start of the body (bus-kernel.c:706-718, 739-741): a pool reference
becomes a part pointing into the pool, or a zero-fill part when its offset is
the reserved "no offset" value; a payload memfd becomes a memfd part. -/
def received_part (bus : sd_bus) (r : kdbus_item) : bus_body_part :=
  if r.type = KDBUS_ITEM_PAYLOAD_OFF then
    { memfd := -1, is_zero := r.vec.offset == NO_OFFSET
      data := if ¬ (r.vec.offset == NO_OFFSET) then bus.kdbus_buffer + r.vec.offset else 0
      size := r.vec.size
      sealed := true }
  else { memfd := r.memfd.fd, size := r.memfd.size, sealed := true }

/-- The item is a payload item as the sender writes them: a payload vector
or a payload memfd. -/
def is_sent_payload (d : kdbus_item) : Bool :=
  d.type = KDBUS_ITEM_PAYLOAD_VEC ∨ d.type = KDBUS_ITEM_PAYLOAD_MEMFD

/-- The bytes behind the addresses and descriptors of a transfer: what the
sender has at an address and in a memfd, and what the receiver finds at an
address of its pool and in a memfd, each over a given length. -/
structure transfer_memory where
  sender_bytes : Nat → Nat → List Nat
  sender_memfd : Int → Nat → List Nat
  pool_bytes : Nat → Nat → List Nat
  receiver_memfd : Int → Nat → List Nat

/-- The content of a body part of the message that is sent: zeroes for a
zero-fill part, the bytes of the memfd for a part that travels as a memfd,
the mapped bytes otherwise. -/
def sent_content (mem : transfer_memory) (has_destination : Bool) (p : bus_body_part) :
    List Nat :=
  if p.is_zero then List.replicate p.size 0
  else if p.memfd ≥ 0 ∧ p.sealed ∧ has_destination then mem.sender_memfd p.memfd p.size
  else mem.sender_bytes p.data p.size

/-- The content of a body part of a received message: zeroes for a zero-fill
part, the bytes of the memfd for a memfd part, the bytes of the pool the part
points at otherwise. -/
def received_content (mem : transfer_memory) (p : bus_body_part) : List Nat :=
  if p.is_zero then List.replicate p.size 0
  else if p.memfd ≥ 0 then mem.receiver_memfd p.memfd p.size
  else mem.pool_bytes p.data p.size

/-- Modelled from the spec: what the kernel delivers for a payload item it
was sent (the kernel is not part of the tree).  A payload vector arrives as a
pool reference of the same size: with the reserved "no offset" value when the
vector had a null address (the kernel passes a zero-fill region through), and
otherwise at an offset of the receiver's pool that holds a copy of the bytes.
A payload memfd arrives as a payload memfd of the same size, under a
descriptor of the receiver that shows the same bytes. -/
def kernel_delivers (mem : transfer_memory) (bus : sd_bus) (s r : kdbus_item) : Prop :=
  (s.type = KDBUS_ITEM_PAYLOAD_VEC ∧ r.type = KDBUS_ITEM_PAYLOAD_OFF ∧
    r.vec.size = s.vec.size ∧
    ((s.vec.address = 0 ∧ r.vec.offset = NO_OFFSET) ∨
     (s.vec.address ≠ 0 ∧ r.vec.offset ≠ NO_OFFSET ∧
      mem.pool_bytes (bus.kdbus_buffer + r.vec.offset) s.vec.size
        = mem.sender_bytes s.vec.address s.vec.size))) ∨
  (s.type = KDBUS_ITEM_PAYLOAD_MEMFD ∧ r.type = KDBUS_ITEM_PAYLOAD_MEMFD ∧
    r.memfd.size = s.memfd.size ∧ 0 ≤ r.memfd.fd ∧
    mem.receiver_memfd r.memfd.fd s.memfd.size = mem.sender_memfd s.memfd.fd s.memfd.size)

/-- A body part as sent and as received: same size, same zero-fill flag,
same content. -/
def same_content (mem : transfer_memory) (has_destination : Bool)
    (p p' : bus_body_part) : Prop :=
  p'.size = p.size ∧ p'.is_zero = p.is_zero ∧
    received_content mem p' = sent_content mem has_destination p

/-- The kernel message a transcoding leaves in the message (the empty record
when it leaves none). -/
def transcoded (o : bus_world) (m : sd_bus_message) : kdbus_msg :=
  (bus_message_setup_kmsg o m).2.kdbus.getD {}

/-- The calls into the message model that build a synthetic message all
succeed. -/
def synthesis_succeeds (o : bus_world) : Prop :=
  0 ≤ o.new_signal_r ∧ (∀ m, 0 ≤ o.append_r m) ∧ (∀ m, 0 ≤ o.seal_r m) ∧
    ∀ serial, 0 ≤ o.synthetic_error_r serial

/-- The message is the signal `NameOwnerChanged(name, old_owner, new_owner)`
sent by the control identity from the control object, already sealed. -/
def is_name_owner_changed (msg : sd_bus_message) (name old_owner new_owner : cstr) : Prop :=
  msg.header.type = SD_BUS_MESSAGE_SIGNAL ∧
  msg.path = some "/org/freedesktop/DBus".data ∧
  msg.interface = some "org.freedesktop.DBus".data ∧
  msg.member = some "NameOwnerChanged".data ∧
  msg.sender = some "org.freedesktop.DBus".data ∧
  msg.sealed = true ∧
  msg.args = [{ type := 's', str := name }, { type := 's', str := old_owner },
              { type := 's', str := new_owner }]

/-- The message is an error reply to the call with the given serial, sent by
the control identity, already sealed. -/
def is_error_reply (msg : sd_bus_message) (serial : Nat) (name message : cstr) : Prop :=
  msg.header.type = SD_BUS_MESSAGE_METHOD_ERROR ∧
  msg.reply_serial = serial ∧
  msg.error_name = some name ∧
  msg.error_message = some message ∧
  msg.sealed = true

/-- The message record a successful receive call hands over: the one stored
at the reported offset of the receive pool. -/
def received_message (o : bus_world) (bus : sd_bus) : kdbus_msg :=
  o.msg_at (bus.kdbus_buffer + o.msg_recv.2.2)

/-- The entries the segment cache holds: the first `n_memfd_cache` slots of
the array, oldest first. -/
def cache_entries (b : sd_bus) : List memfd_cache := b.memfd_cache.take b.n_memfd_cache

/-- The cap on the recorded size of an entry, `max_sz` of
`bus_kernel_push_memfd`: the page-aligned per-entry maximum. -/
def memfd_cap (o : bus_world) : Nat := PAGE_ALIGN o o.MEMFD_CACHE_ITEM_SIZE_MAX

/-- One operation on the segment cache. -/
inductive cache_op where
  | push (fd : Int) (address size : Nat)
  | pop
  deriving DecidableEq, Repr

/-- The connection after a sequence of pushes and pops. -/
def cache_run (o : bus_world) : Option sd_bus → List cache_op → Option sd_bus
  | bus, [] => bus
  | bus, cache_op.push fd address size :: ops =>
    cache_run o (bus_kernel_push_memfd o bus fd address size).bus ops
  | bus, cache_op.pop :: ops => cache_run o (bus_kernel_pop_memfd o bus 0 0).bus ops

/-- No system call of the sequence (every call but the two operations on the
mutex is one) is made between a lock and the following unlock of the mutex;
`held` tells whether the mutex is held at the start. -/
def no_syscall_under_lock : Bool → List bus_call → Bool
  | _, [] => true
  | _, bus_call.mutex_lock :: cs => no_syscall_under_lock true cs
  | _, bus_call.mutex_unlock :: cs => no_syscall_under_lock false cs
  | held, _ :: cs => !held && no_syscall_under_lock held cs

/-- The connection `b2` is the connection `b1`, or `b1` with exactly one
message appended at the tail of its delivery queue, a sealed one where
`synthetic` is set. -/
def enqueued_at_tail (synthetic : Bool) (b1 b2 : sd_bus) : Prop :=
  b2 = b1 ∨
  ∃ msg, b2 = { b1 with rqueue := b1.rqueue ++ [msg] } ∧
    b2.rqueue.length = b1.rqueue.length + 1 ∧
    b2.rqueue.take b1.rqueue.length = b1.rqueue ∧
    (synthetic = true → msg.sealed = true)

/-- The descriptors a kernel message carries, in the order of its items: the
descriptors of its attached-fds items and the one of each payload-memfd
item. -/
def kdbus_msg_descriptors (k : kdbus_msg) : List Int :=
  k.items.flatMap (fun d =>
    if d.type = KDBUS_ITEM_FDS then
      d.fds.take ((d.size - offsetof_kdbus_item_data) / sizeof_int)
    else if d.type = KDBUS_ITEM_PAYLOAD_MEMFD then [d.memfd.fd]
    else [])

/-- The descriptors a sequence of calls closes, in order. -/
def closed_descriptors (calls : List bus_call) : List Int :=
  calls.filterMap (fun c =>
    match c with
    | bus_call.close fd => some fd
    | _ => none)

/-- The destination of the message is a well-known name: the message has a
destination and `bus_kernel_parse_unique_name` returns 0 on it. -/
def well_known_destination (m : sd_bus_message) : Bool :=
  match m.destination with
  | some dst => decide ((bus_kernel_parse_unique_name dst 0).1 = 0)
  | none => false

/-- Modelled from the spec: the prefixes `bloom_add_prefixes` (of
`bus-bloom.h`, not part of the tree) inserts for a string, "every proper
prefix of it ending at a [separator] boundary": the characters before each
separator of the string, and the separator alone for a string that starts
with it (the `/` of `/a/b`); the string itself is not among them. -/
def boundary_prefixes (sep : Char) (s : cstr) : List cstr :=
  (((List.range s.length).filter (fun i => decide (s.get? i = some sep))).map
    (fun i => if i = 0 then s.take 1 else s.take i)).filter (fun p => decide (p ≠ s))

/-- Modelled from the spec: the key/value pairs one insertion puts into the
filter: `bloom_add_pair` the pair itself, `bloom_add_prefixes` the key with
every boundary prefix of the value. -/
def bloom_op_pairs : bloom_op → List (cstr × cstr)
  | bloom_op.add_pair a b => [(a, b)]
  | bloom_op.add_prefixes a b sep => (boundary_prefixes sep b).map (fun p => (a, p))

/-- Modelled from the spec: insertion is additive and nothing is removed, so
a filter tests positive for every pair that was inserted into it.  (Pairs
that test positive by collision are not tracked.) -/
def bloom_tests_positive (f : bloom_filter) (a b : cstr) : Prop :=
  (a, b) ∈ f.flatMap bloom_op_pairs

instance (f : bloom_filter) (a b : cstr) : Decidable (bloom_tests_positive f a b) := by
  unfold bloom_tests_positive; infer_instance

/-- The insertions `bus_message_setup_bloom` makes from the metadata of the
message, before it turns to the arguments (bus-kernel.c:137-149). -/
def setup_bloom_metadata (m : sd_bus_message) : bloom_filter :=
  [bloom_op.add_pair "message-type".data (bus_message_type_to_string m.header.type)] ++
  (match m.interface with
    | some i => [bloom_op.add_pair "interface".data i]
    | none => []) ++
  (match m.member with
    | some i => [bloom_op.add_pair "member".data i]
    | none => []) ++
  (match m.path with
    | some p => [bloom_op.add_pair "path".data p,
        bloom_op.add_pair "path-slash-prefix".data p,
        bloom_op.add_prefixes "path-slash-prefix".data p '/']
    | none => [])

/-- The argument is of one of the string-like types the loop of
`bus_message_setup_bloom` goes on reading (bus-kernel.c:165-168). -/
def string_like (a : bus_arg) : Bool :=
  decide (a.type = SD_BUS_TYPE_STRING ∨ a.type = SD_BUS_TYPE_OBJECT_PATH ∨
    a.type = SD_BUS_TYPE_SIGNATURE)

/-- The number of string-like arguments in a row from position `r` on. -/
def leading_strings (args : List bus_arg) (r : Nat) : Nat :=
  ((args.drop r).takeWhile string_like).length

/-- The value of the argument at position `k` (empty past the end). -/
def arg_value (args : List bus_arg) (k : Nat) : cstr :=
  match args.get? k with
  | some a => a.str
  | none => []

/-- The three entries the spec lists for the argument at position `N` with
value `t`: the value under the key `"arg"` followed by `N` in decimal, its
prefixes split on `.` under that key with `"-dot-prefix"`, and its prefixes
split on `/` under that key with `"-slash-prefix"`. -/
def bloom_arg_entries (N : Nat) (t : cstr) : bloom_filter :=
  [bloom_op.add_pair ("arg".data ++ format_llu N) t,
   bloom_op.add_prefixes ("arg".data ++ format_llu N ++ "-dot-prefix".data) t '.',
   bloom_op.add_prefixes ("arg".data ++ format_llu N ++ "-slash-prefix".data) t '/']

/-- The size of the key buffer `buf` of the loop of `bus_message_setup_bloom`
(bus-kernel.c:158): `sizeof("arg")-1 + 2 + sizeof("-slash-prefix")`. -/
def sizeof_bloom_key_buf : Nat := 3 + 2 + 14

/-- The credential bits the receiver marks, within the requested mask, when
it hydrates the message from an item of the given type (bus-kernel.c:753-806);
0 for the items that mark none. -/
def hydrate_creds_bits (type : Nat) : Nat :=
  if type = KDBUS_ITEM_CREDS then
    SD_BUS_CREDS_UID ||| SD_BUS_CREDS_GID ||| SD_BUS_CREDS_PID |||
      SD_BUS_CREDS_PID_STARTTIME ||| SD_BUS_CREDS_TID
  else if type = KDBUS_ITEM_PID_COMM then SD_BUS_CREDS_COMM
  else if type = KDBUS_ITEM_TID_COMM then SD_BUS_CREDS_TID_COMM
  else if type = KDBUS_ITEM_EXE then SD_BUS_CREDS_EXE
  else if type = KDBUS_ITEM_CMDLINE then SD_BUS_CREDS_CMDLINE
  else if type = KDBUS_ITEM_CGROUP then
    SD_BUS_CREDS_CGROUP ||| SD_BUS_CREDS_UNIT ||| SD_BUS_CREDS_USER_UNIT |||
      SD_BUS_CREDS_SLICE ||| SD_BUS_CREDS_SESSION ||| SD_BUS_CREDS_OWNER_UID
  else if type = KDBUS_ITEM_AUDIT then
    SD_BUS_CREDS_AUDIT_SESSION_ID ||| SD_BUS_CREDS_AUDIT_LOGIN_UID
  else if type = KDBUS_ITEM_CAPS then
    SD_BUS_CREDS_EFFECTIVE_CAPS ||| SD_BUS_CREDS_PERMITTED_CAPS |||
      SD_BUS_CREDS_INHERITABLE_CAPS ||| SD_BUS_CREDS_BOUNDING_CAPS
  else if type = KDBUS_ITEM_NAMES then SD_BUS_CREDS_WELL_KNOWN_NAMES
  else 0

/-- The kinds of attached item that carry credentials, by item type; the
process command and the thread command are the two items of one kind. -/
def credential_item_types : List Nat :=
  [KDBUS_ITEM_CREDS, KDBUS_ITEM_PID_COMM, KDBUS_ITEM_TID_COMM, KDBUS_ITEM_EXE,
   KDBUS_ITEM_CMDLINE, KDBUS_ITEM_CGROUP, KDBUS_ITEM_AUDIT, KDBUS_ITEM_CAPS, KDBUS_ITEM_NAMES]

/-- The attach flag by which a connection asks for the kind of item of the
given type. -/
def item_attach_flag (type : Nat) : Nat :=
  if type = KDBUS_ITEM_CREDS then KDBUS_ATTACH_CREDS
  else if type = KDBUS_ITEM_PID_COMM ∨ type = KDBUS_ITEM_TID_COMM then KDBUS_ATTACH_COMM
  else if type = KDBUS_ITEM_EXE then KDBUS_ATTACH_EXE
  else if type = KDBUS_ITEM_CMDLINE then KDBUS_ATTACH_CMDLINE
  else if type = KDBUS_ITEM_CGROUP then KDBUS_ATTACH_CGROUP
  else if type = KDBUS_ITEM_AUDIT then KDBUS_ATTACH_AUDIT
  else if type = KDBUS_ITEM_CAPS then KDBUS_ATTACH_CAPS
  else if type = KDBUS_ITEM_NAMES then KDBUS_ATTACH_NAMES
  else 0

/-- The credential bits of the kind of an item: the bits the receiver marks
for the items of that kind, taken together. -/
def kind_creds_bits (type : Nat) : Nat :=
  if type = KDBUS_ITEM_PID_COMM ∨ type = KDBUS_ITEM_TID_COMM then
    SD_BUS_CREDS_COMM ||| SD_BUS_CREDS_TID_COMM
  else hydrate_creds_bits type

/-! ## Sample inputs -/

/-- A world in which every call succeeds and every header found in the pool
declares 8 bytes of header fields and 12 bytes of body. -/
def sample_world : bus_world :=
  { header_at := fun _ => { endian := 108, type := 1, version := 1, serial := 9,
                            fields_size := 8, body_size := 12 }
    part_map := fun _ => (0, 12288) }

/-- A delivered item list: a destination name, the 24-byte header at pool
offset 64, a 12-byte body at pool offset 88. -/
def sample_message_items : List kdbus_item :=
  [ { type := KDBUS_ITEM_DST_NAME, size := 24, str := "org.foo".data },
    { type := KDBUS_ITEM_PAYLOAD_OFF, size := 32, vec := { address := 64, size := 24 } },
    { type := KDBUS_ITEM_PAYLOAD_OFF, size := 32, vec := { address := 88, size := 12 } } ]

/-- A delivered item list whose header is split: the first pool reference
holds only 8 bytes, the second one a complete header. -/
def sample_split_items : List kdbus_item :=
  [ { type := KDBUS_ITEM_PAYLOAD_OFF, size := 32, vec := { address := 0, size := 8 } },
    { type := KDBUS_ITEM_PAYLOAD_OFF, size := 32, vec := { address := 8, size := 28 } } ]

/-- A delivered item list that is too short: the 24-byte header at pool
offset 64 declares a 12-byte body, but only 8 bytes of body follow. -/
def sample_short_items : List kdbus_item :=
  [ { type := KDBUS_ITEM_PAYLOAD_OFF, size := 32, vec := { address := 64, size := 24 } },
    { type := KDBUS_ITEM_PAYLOAD_OFF, size := 32, vec := { address := 88, size := 8 } } ]

/-- A sealed method call to the unique name `":1.5"` with one mapped 12-byte
body part and no attached descriptors. -/
def sample_call : sd_bus_message :=
  { header := { endian := 108, type := SD_BUS_MESSAGE_METHOD_CALL, version := 1, serial := 9,
                fields_size := 8, body_size := 12 }
    header_ptr := 4096
    sealed := true
    destination := some ":1.5".data
    body_parts := [{ data := 8192, size := 12 }] }

/-- The same call addressed to the unique name whose id is all ones. -/
def sample_sentinel_call : sd_bus_message :=
  { sample_call with destination := some ":1.18446744073709551615".data }

/-- The same call addressed to a name that starts like a unique name but
carries no numeral. -/
def sample_malformed_call : sd_bus_message :=
  { sample_call with destination := some ":1.x".data }

/-- The same call addressed to a well-known name. -/
def sample_named_call : sd_bus_message :=
  { sample_call with destination := some "org.foo".data }

/-- A sealed method call to `":1.5"` whose 16-byte body is a mapped 12-byte
part followed by a 4-byte zero-fill part. -/
def sample_padded_call : sd_bus_message :=
  { header := { endian := 108, type := SD_BUS_MESSAGE_METHOD_CALL, version := 1, serial := 9,
                fields_size := 8, body_size := 16 }
    header_ptr := 4096
    sealed := true
    destination := some ":1.5".data
    body_parts := [{ data := 8192, size := 12 }, { size := 4, is_zero := true }] }

/-- The receiving side of the padded call: every call succeeds and the pool
holds the header of the padded call. -/
def sample_padded_world : bus_world :=
  { header_at := fun _ => sample_padded_call.header
    part_map := fun _ => (0, 12288) }

/-- The padded call as the kernel delivers it: credentials, the header at
pool offset 64, the 12 bytes at pool offset 88, and a pool reference without
offset for the 4 zero bytes. -/
def sample_padded_delivery : kdbus_msg :=
  { src_id := 3, dst_id := 5, payload_type := KDBUS_PAYLOAD_DBUS1
    items :=
      [ { type := KDBUS_ITEM_CREDS, size := 56, creds := { uid := 1000, pid := 42 } },
        { type := KDBUS_ITEM_PAYLOAD_OFF, size := 32, vec := { address := 64, size := 24 } },
        { type := KDBUS_ITEM_PAYLOAD_OFF, size := 32, vec := { address := 88, size := 12 } },
        { type := KDBUS_ITEM_PAYLOAD_OFF, size := 32, vec := { address := NO_OFFSET, size := 4 } } ] }

/-- A memory in which the sender's bytes and their copies in the pool are
all sevens, and every memfd shows nines. -/
def sample_memory : transfer_memory :=
  { sender_bytes := fun _ n => List.replicate n 7
    sender_memfd := fun _ n => List.replicate n 9
    pool_bytes := fun _ n => List.replicate n 7
    receiver_memfd := fun _ n => List.replicate n 9 }

instance (mem : transfer_memory) (bus : sd_bus) (s r : kdbus_item) :
    Decidable (kernel_delivers mem bus s r) := by
  unfold kernel_delivers; infer_instance

/-- A name-add notification: `"org.foo"` is acquired by connection 7. -/
def sample_name_add : kdbus_item :=
  { type := KDBUS_ITEM_NAME_ADD, size := 48
    name_change := { old_id := 0, new_id := 7, name := "org.foo".data } }

/-- An id-remove notification: connection 7 is gone. -/
def sample_id_remove : kdbus_item :=
  { type := KDBUS_ITEM_ID_REMOVE, size := 32, id_change := { id := 7 } }

/-- A reply-timeout notification. -/
def sample_reply_timeout : kdbus_item :=
  { type := KDBUS_ITEM_REPLY_TIMEOUT, size := 16 }

/-- A world in which the send call fails with `ENXIO`, unique name unknown. -/
def sample_unknown_world : bus_world :=
  { sample_world with msg_send := fun _ => (-1, ENXIO) }

/-- A world in which the receive call delivers the sample message. -/
def sample_delivery_world : bus_world :=
  { sample_world with
    msg_at := fun _ => { src_id := 5, dst_id := 7, payload_type := KDBUS_PAYLOAD_DBUS1
                         items := sample_message_items } }

/-- A world in which the receive call delivers a message of a payload type
that is neither application nor kernel-internal. -/
def sample_foreign_world : bus_world :=
  { sample_world with msg_at := fun _ => { payload_type := 1, items := [] } }

/-- A world in which the receive call delivers a kernel-internal message
without a recognized notification item. -/
def sample_idle_world : bus_world :=
  { sample_world with
    msg_at := fun _ => { payload_type := KDBUS_PAYLOAD_KERNEL
                         items := [{ type := KDBUS_ITEM_TIMESTAMP, size := 32 }] } }

/-- A kernel connection whose segment cache has 32 slots, none of them in
use. -/
def sample_kernel_bus : sd_bus :=
  { kdbus_buffer := 65536, is_kernel := true, bus_client := true
    memfd_cache := List.replicate 32 {}, n_memfd_cache := 0 }

/-- The same connection with every slot of the cache in use. -/
def sample_full_bus : sd_bus :=
  { sample_kernel_bus with
    memfd_cache := List.replicate 32 { fd := 4, address := 4096, size := 4096 }
    n_memfd_cache := 32 }

/-- A world in which the kernel reports a connection flag above bit 32. -/
def sample_incompatible_world : bus_world :=
  { sample_world with
    cmd_hello := fun h => (0, 0, { h with conn_flags := 2 ^ 32, id := 7, bloom_size := 64 }) }

/-- A world in which the kernel reports all of the low 32 bits of both flags
fields set and the expected bloom size. -/
def sample_compatible_world : bus_world :=
  { sample_world with
    cmd_hello := fun h =>
      (0, 0, { h with bus_flags := 2 ^ 32 - 1, conn_flags := 2 ^ 32 - 1, id := 7
                      bloom_size := 64 }) }

/-- A delivered message that carries two attached descriptors and, after the
24-byte header at pool offset 64, a body of two memfds of 8 and 4 bytes. -/
def sample_early_memfd : kdbus_msg :=
  { src_id := 5, dst_id := 7, payload_type := KDBUS_PAYLOAD_DBUS1
    items :=
      [ { type := KDBUS_ITEM_FDS, size := 24, fds := [10, 11] },
        { type := KDBUS_ITEM_PAYLOAD_OFF, size := 32, vec := { address := 64, size := 24 } },
        { type := KDBUS_ITEM_PAYLOAD_MEMFD, size := 32, memfd := { fd := 12, size := 8 } },
        { type := KDBUS_ITEM_PAYLOAD_MEMFD, size := 32, memfd := { fd := 13, size := 4 } } ] }

/-- A world in which the receive call delivers that message and the message
model runs out of memory once a message holds one body part. -/
def sample_early_memfd_world : bus_world :=
  { sample_world with
    msg_at := fun _ => sample_early_memfd
    append_part_ok := fun m => decide (m.body_parts.length < 1) }

/-- A name-add notification whose flags field is set. -/
def sample_flagged_name_add : kdbus_item :=
  { type := KDBUS_ITEM_NAME_ADD, size := 48
    name_change := { old_id := 0, new_id := 7, flags := 1, name := "org.foo".data } }

/-- The second loop at payload offset 16 of a message whose body starts at
offset 24. -/
def sample_pass2 : make_pass2 :=
  { m := { header := { endian := 108, type := 1, version := 1, serial := 9,
                       fields_size := 8, body_size := 12 } }
    idx := 16 }

/-- A pool reference of 20 bytes at pool offset 64. -/
def sample_straddling_item : kdbus_item :=
  { type := KDBUS_ITEM_PAYLOAD_OFF, size := 32, vec := { address := 64, size := 20 } }

/-- The sample method call with one attached descriptor. -/
def sample_fd_call : sd_bus_message :=
  { sample_call with fds := [7] }

/-- A sealed method call of interface `org.I`, member `M` and path `/a/b`,
without arguments. -/
def sample_pathed_call : sd_bus_message :=
  { header := { endian := 108, type := SD_BUS_MESSAGE_METHOD_CALL, version := 1, serial := 9 }
    sealed := true
    path := some "/a/b".data, interface := some "org.I".data, member := some "M".data }

/-- The same call with one string argument, its cursor at the start. -/
def sample_string_call : sd_bus_message :=
  { sample_pathed_call with args := [{ type := 's', str := "org.foo".data }] }

/-- The same call with an integer argument ahead of a string argument. -/
def sample_mixed_call : sd_bus_message :=
  { sample_pathed_call with
    args := [{ type := 'i' }, { type := 's', str := "org.foo".data }] }

/-- A world in which the receive call delivers a kernel-internal message with
the sample name-add notification, at pool offset 128. -/
def sample_notify_world : bus_world :=
  { sample_world with
    msg_recv := (0, 0, 128)
    msg_at := fun _ => { payload_type := KDBUS_PAYLOAD_KERNEL, items := [sample_name_add] } }

/-- A digit string without a superfluous leading zero. -/
def canonical_numeral (s : cstr) : Prop := s = ['0'] ∨ s.head? ≠ some '0'

instance (s : cstr) : Decidable (canonical_numeral s) := by
  unfold canonical_numeral; infer_instance

/-! ## Theorems -/

theorem digit_char_isDigit (d : Nat) (h : d < 10) : (digit_char d).isDigit = true := by
  interval_cases d <;> decide

theorem digit_char_toNat (d : Nat) (h : d < 10) : (digit_char d).toNat - 48 = d := by
  interval_cases d <;> decide

theorem isDigit_bounds (c : Char) (h : c.isDigit = true) : 48 ≤ c.toNat ∧ c.toNat ≤ 57 := by
  simp only [Char.isDigit, Bool.and_eq_true, decide_eq_true_eq] at h
  exact ⟨h.1, h.2⟩

theorem digit_char_of_isDigit (c : Char) (h : c.isDigit = true) :
    digit_char (c.toNat - 48) = c := by
  have hb := isDigit_bounds c h
  unfold digit_char
  rw [Nat.add_sub_cancel' hb.1]
  exact Char.ofNat_toNat c

theorem decimal_digits_fuel (f g n : Nat) (hf : n < f) (hg : n < g) :
    decimal_digits f n = decimal_digits g n := by
  induction f generalizing g n with
  | zero => omega
  | succ f ih =>
    cases g with
    | zero => omega
    | succ g =>
      unfold decimal_digits
      by_cases h : n < 10
      · simp [h]
      · simp only [h, if_false]
        rw [ih g (n / 10) (by omega) (by omega)]

theorem format_llu_small (d : Nat) (h : d < 10) : format_llu d = [digit_char d] := by
  simp [format_llu, decimal_digits, h]

theorem format_llu_step (v d : Nat) (hv : 0 < v) (hd : d < 10) :
    format_llu (10 * v + d) = format_llu v ++ [digit_char d] := by
  have h10 : ¬ (10 * v + d < 10) := by omega
  have hq : (10 * v + d) / 10 = v := by omega
  have hr : (10 * v + d) % 10 = d := by omega
  unfold format_llu
  rw [decimal_digits, if_neg h10, hq, hr]
  rw [decimal_digits_fuel (10 * v + d) (v + 1) v (by omega) (by omega)]

theorem decimal_value_snoc (s : cstr) (c : Char) :
    decimal_value (s ++ [c]) = 10 * decimal_value s + (c.toNat - 48) := by
  simp [decimal_value, List.foldl_append]

/-- The rendering of a number is a non-empty digit string denoting it. -/
theorem format_llu_spec (n : Nat) :
    format_llu n ≠ [] ∧ (format_llu n).all Char.isDigit = true ∧
      decimal_value (format_llu n) = n := by
  induction n using Nat.strong_induction_on with
  | _ n ih =>
    by_cases h : n < 10
    · rw [format_llu_small n h]
      refine ⟨by simp, by simp [digit_char_isDigit n h], ?_⟩
      simp [decimal_value, digit_char_toNat n h]
    · have hn : n = 10 * (n / 10) + n % 10 := by omega
      have hlt : n % 10 < 10 := Nat.mod_lt _ (by decide)
      obtain ⟨_, h2, h3⟩ := ih (n / 10) (by omega)
      rw [hn, format_llu_step (n / 10) (n % 10) (by omega) hlt]
      refine ⟨by simp, ?_, ?_⟩
      · simp [List.all_append, h2, digit_char_isDigit _ hlt]
      · rw [decimal_value_snoc, h3, digit_char_toNat _ hlt]

theorem decimal_value_pos (s : cstr) (hne : s ≠ []) (hd : s.all Char.isDigit = true)
    (hh : s.head? ≠ some '0') : 0 < decimal_value s := by
  induction s using List.reverseRecOn with
  | nil => exact absurd rfl hne
  | append_singleton s c ih =>
    rw [decimal_value_snoc]
    rw [List.all_append, Bool.and_eq_true] at hd
    cases s with
    | nil =>
      simp only [List.nil_append, List.head?_cons, ne_eq, Option.some.injEq] at hh
      have hc : c.isDigit = true := by simpa using hd.2
      have hb := isDigit_bounds c hc
      have : c.toNat ≠ 48 := by
        intro h48
        apply hh
        have := Char.ofNat_toNat c
        rw [h48] at this
        exact this.symm
      simp only [decimal_value, List.foldl_nil]
      omega
    | cons a s =>
      have := ih (by simp) hd.1 (by simpa using hh)
      omega

/-- Rendering undoes decoding exactly on the canonical numerals. -/
theorem format_llu_decimal_value (s : cstr) (hne : s ≠ [])
    (hd : s.all Char.isDigit = true) (hc : canonical_numeral s) :
    format_llu (decimal_value s) = s := by
  induction s using List.reverseRecOn with
  | nil => exact absurd rfl hne
  | append_singleton s c ih =>
    rw [List.all_append, Bool.and_eq_true] at hd
    have hcd : c.isDigit = true := by simpa using hd.2
    have hb := isDigit_bounds c hcd
    rw [decimal_value_snoc]
    cases s with
    | nil =>
      simp only [decimal_value, List.foldl_nil, Nat.mul_zero, Nat.zero_add, List.nil_append]
      rw [format_llu_small _ (by omega), digit_char_of_isDigit c hcd]
    | cons a s =>
      have hh : (a :: s).head? ≠ some '0' := by
        rcases hc with h | h
        · simp at h
        · simpa using h
      have hpos := decimal_value_pos (a :: s) (by simp) hd.1 hh
      rw [format_llu_step _ _ hpos (by omega), ih (by simp) hd.1 (Or.inr hh),
        digit_char_of_isDigit c hcd]

theorem format_llu_canonical (n : Nat) : canonical_numeral (format_llu n) := by
  by_cases h0 : n = 0
  · subst h0; left; decide
  · right
    induction n using Nat.strong_induction_on with
    | _ n ih =>
      by_cases h : n < 10
      · rw [format_llu_small n h]
        interval_cases n <;> first | exact absurd rfl h0 | decide
      · have hn : n = 10 * (n / 10) + n % 10 := by omega
        have hlt : n % 10 < 10 := Nat.mod_lt _ (by decide)
        have := ih (n / 10) (by omega) (by omega)
        rw [hn, format_llu_step (n / 10) (n % 10) (by omega) hlt]
        have hne := (format_llu_spec (n / 10)).1
        cases hf : format_llu (n / 10) with
        | nil => exact absurd hf hne
        | cons a t =>
          rw [hf] at this
          simpa using this

theorem startswith_append (p s : cstr) : startswith (p ++ s) p = some s := by
  induction p with
  | nil => cases s <;> rfl
  | cons a p ih => simp [startswith, ih]

theorem startswith_some (s p r : cstr) (h : startswith s p = some r) : s = p ++ r := by
  induction p generalizing s with
  | nil =>
    cases s <;> simp_all [startswith]
  | cons a p ih =>
    cases s with
    | nil => simp [startswith] at h
    | cons c s =>
      simp only [startswith] at h
      split at h
      · rename_i hc
        rw [hc, ih s h]; rfl
      · cases h

theorem safe_atou64_format (n id : Nat) (h : n < U64) :
    safe_atou64 (format_llu n) id = (0, n) := by
  obtain ⟨h1, h2, h3⟩ := format_llu_spec n
  unfold safe_atou64
  rw [if_neg (by simp [h1, h2]), h3, if_neg (by omega)]

theorem safe_atou64_ok (s : cstr) (id : Nat) (h : ¬ (safe_atou64 s id).1 < 0) :
    s ≠ [] ∧ s.all Char.isDigit = true ∧ decimal_value s < U64 ∧
      safe_atou64 s id = (0, decimal_value s) := by
  unfold safe_atou64 at h ⊢
  by_cases h1 : s = [] ∨ ¬ s.all Char.isDigit
  · rw [if_pos h1] at h; exact absurd (by simp [EINVAL]) h
  · rw [if_neg h1] at h ⊢
    by_cases h2 : U64 ≤ decimal_value s
    · rw [if_pos h2] at h; exact absurd (by simp [ERANGE]) h
    · rw [if_neg h2]
      push_neg at h1
      exact ⟨h1.1, by simpa using h1.2, by omega, rfl⟩

theorem parse_unique_name_of_format (n id : Nat) (h : n < U64) :
    bus_kernel_parse_unique_name (format_unique_name n) id = (1, n) := by
  unfold bus_kernel_parse_unique_name format_unique_name
  rw [startswith_append]
  simp [safe_atou64_format n id h]

/-- C3: for every 64-bit id `n`, the string `":1."` followed by `n` in
decimal is accepted by `bus_kernel_parse_unique_name`, which returns 1 and
stores exactly `n`. -/
theorem parse_unique_name_format (n id : Nat) (h : n < U64) :
    bus_kernel_parse_unique_name (format_unique_name n) id = (1, n) := by
  obtain ⟨hne, hdigits, hvalue⟩ := format_llu_spec n
  have hconv : safe_atou64 (format_llu n) id = (0, n) := by
    unfold safe_atou64
    rw [if_neg (by simp [hne, hdigits]), hvalue, if_neg (by omega)]
  unfold bus_kernel_parse_unique_name format_unique_name
  rw [startswith_append]
  simp [hconv]

theorem parse_unique_name_format_witness :
    (18446744073709551615 : Nat) < U64 ∧
      bus_kernel_parse_unique_name (format_unique_name 18446744073709551615) 0
        = (1, 18446744073709551615) :=
  ⟨by decide, parse_unique_name_format 18446744073709551615 0 (by decide)⟩

/-- C4, as stated, fails: `":1.007"` is accepted with id 7, and formatting 7
gives `":1.7"`, not the string that was parsed. -/
theorem format_parse_unique_name_counterexample :
    bus_kernel_parse_unique_name ":1.007".data 0 = (1, 7) ∧
      format_unique_name 7 ≠ ":1.007".data := by
  decide

/-- C4 (amended): every string `s` on which `bus_kernel_parse_unique_name`
returns 1 with id `n` is `":1."` followed by a non-empty string of decimal
digits whose value is `n`, with `n` below `2 ^ 64`; formatting `n` gives a
string that parses back to `n`, and it gives back `s` itself exactly when the
numeral of `s` has no superfluous leading zero. -/
theorem format_parse_unique_name (s : cstr) (id n : Nat)
    (h : bus_kernel_parse_unique_name s id = (1, n)) :
    ∃ ds : cstr, s = ":1.".data ++ ds ∧ ds ≠ [] ∧ ds.all Char.isDigit = true ∧
      decimal_value ds = n ∧ n < U64 ∧
      bus_kernel_parse_unique_name (format_unique_name n) id = (1, n) ∧
      (format_unique_name n = s ↔ canonical_numeral ds) := by
  unfold bus_kernel_parse_unique_name at h
  cases hs : startswith s ":1.".data with
  | none => rw [hs] at h; simp at h
  | some ds =>
    rw [hs] at h
    simp only at h
    by_cases hr : (safe_atou64 ds id).1 < 0
    · rw [if_pos hr] at h
      have h1 := congrArg Prod.fst h
      simp only at h1
      omega
    · rw [if_neg hr] at h
      obtain ⟨h1, h2, h3, h4⟩ := safe_atou64_ok ds id hr
      rw [h4] at h
      have hn : decimal_value ds = n := by simpa using h
      have hsd := startswith_some s _ ds hs
      refine ⟨ds, hsd, h1, h2, hn, hn ▸ h3, parse_unique_name_of_format n id (hn ▸ h3), ?_⟩
      constructor
      · intro hf
        rw [hsd] at hf
        have hf2 : format_llu n = ds := List.append_cancel_left hf
        rw [← hf2]
        exact format_llu_canonical n
      · intro hc
        rw [hsd, format_unique_name, ← hn, format_llu_decimal_value ds h1 h2 hc]

theorem format_parse_unique_name_witness :
    bus_kernel_parse_unique_name ":1.42".data 0 = (1, 42) ∧
    ∃ ds : cstr, ":1.42".data = ":1.".data ++ ds ∧ ds ≠ [] ∧ ds.all Char.isDigit = true ∧
      decimal_value ds = 42 ∧ 42 < U64 ∧
      bus_kernel_parse_unique_name (format_unique_name 42) 0 = (1, 42) ∧
      (format_unique_name 42 = ":1.42".data ↔ canonical_numeral ds) :=
  ⟨by decide, format_parse_unique_name ":1.42".data 0 42 (by decide)⟩

/-! ### Notification translator -/

theorem translate_find_some (f : kdbus_item) (items : List kdbus_item) :
    translate_find (some f) items =
      if items.filter is_kernel_item = [] then (0, some f) else (-EBADMSG, some f) := by
  induction items with
  | nil => rfl
  | cons d ds ih =>
    unfold translate_find
    by_cases hd : is_kernel_item d = true
    · simp [hd, List.filter_cons]
    · simp only [hd, List.filter_cons]
      simpa using ih

theorem translate_find_none (items : List kdbus_item) :
    translate_find none items =
      match items.filter is_kernel_item with
      | [] => (0, none)
      | [d] => (0, some d)
      | d :: _ :: _ => (-EBADMSG, some d) := by
  induction items with
  | nil => rfl
  | cons d ds ih =>
    unfold translate_find
    by_cases hd : is_kernel_item d = true
    · simp only [hd, List.filter_cons, if_true, Option.isSome_none, Bool.false_eq_true, if_false]
      rw [translate_find_some]
      cases hf : ds.filter is_kernel_item with
      | nil => simp
      | cons a t => simp
    · simp only [hd, List.filter_cons]
      simpa using ih

theorem translate_of_kernel_item (d : kdbus_item) (h : is_kernel_item d = true) :
    ∃ fn, translate (d.type - _KDBUS_ITEM_KERNEL_BASE) = some fn ∧
      (fn = translate_name_change ∨ fn = translate_id_change ∨ fn = translate_reply) := by
  simp only [is_kernel_item, ELEMENTSOF_translate, _KDBUS_ITEM_KERNEL_BASE,
    KDBUS_ITEM_REPLY_DEAD, decide_eq_true_eq] at h
  obtain ⟨i, hi⟩ : ∃ i, d.type - _KDBUS_ITEM_KERNEL_BASE = i := ⟨_, rfl⟩
  have hi7 : i < 7 := by
    simp only [_KDBUS_ITEM_KERNEL_BASE] at hi
    omega
  rw [hi]
  interval_cases i
  · exact ⟨translate_name_change, rfl, Or.inl rfl⟩
  · exact ⟨translate_name_change, rfl, Or.inl rfl⟩
  · exact ⟨translate_name_change, rfl, Or.inl rfl⟩
  · exact ⟨translate_id_change, rfl, Or.inr (Or.inl rfl)⟩
  · exact ⟨translate_id_change, rfl, Or.inr (Or.inl rfl)⟩
  · exact ⟨translate_reply, rfl, Or.inr (Or.inr rfl)⟩
  · exact ⟨translate_reply, rfl, Or.inr (Or.inr rfl)⟩

theorem translate_outcome_fail (bus : sd_bus) (r : Int) (h : r < 0) :
    translate_outcome bus (r, bus) :=
  Or.inr ⟨by show r ≠ 1; omega, rfl⟩

theorem translate_outcome_push (bus : sd_bus) (msg : sd_bus_message) :
    translate_outcome bus (1, { bus with rqueue := bus.rqueue ++ [msg] }) :=
  Or.inl ⟨rfl, msg, rfl⟩

theorem push_name_owner_changed_outcome (o : bus_world) (bus : sd_bus)
    (a b c : Option cstr) : translate_outcome bus (push_name_owner_changed o bus a b c) := by
  unfold push_name_owner_changed
  simp only
  generalize sd_bus_message_new_signal o _ _ _ = r1
  by_cases h1 : r1.1 < 0
  · rw [if_pos h1]; exact translate_outcome_fail _ _ h1
  · rw [if_neg h1]
    generalize sd_bus_message_append_sss o _ _ _ _ = r2
    by_cases h2 : r2.1 < 0
    · rw [if_pos h2]; exact translate_outcome_fail _ _ h2
    · rw [if_neg h2]
      generalize bus_seal_synthetic_message o _ = r3
      by_cases h3 : r3.1 < 0
      · rw [if_pos h3]; exact translate_outcome_fail _ _ h3
      · rw [if_neg h3]; exact translate_outcome_push _ _

theorem translate_name_change_outcome (o : bus_world) (bus : sd_bus) (k : kdbus_msg)
    (d : kdbus_item) : translate_outcome bus (translate_name_change o bus k d) := by
  unfold translate_name_change
  by_cases h : d.name_change.flags ≠ 0
  · rw [if_pos h]; exact Or.inr ⟨by simp, rfl⟩
  · rw [if_neg h]; exact push_name_owner_changed_outcome _ _ _ _ _

theorem translate_id_change_outcome (o : bus_world) (bus : sd_bus) (k : kdbus_msg)
    (d : kdbus_item) : translate_outcome bus (translate_id_change o bus k d) := by
  unfold translate_id_change
  exact push_name_owner_changed_outcome _ _ _ _ _

theorem translate_reply_outcome (o : bus_world) (bus : sd_bus) (k : kdbus_msg)
    (d : kdbus_item) : translate_outcome bus (translate_reply o bus k d) := by
  unfold translate_reply
  simp only
  generalize bus_message_new_synthetic_error o _ _ _ = r1
  by_cases h1 : r1.1 < 0
  · rw [if_pos h1]; exact translate_outcome_fail _ _ h1
  · rw [if_neg h1]
    generalize bus_seal_synthetic_message o _ = r3
    by_cases h3 : r3.1 < 0
    · rw [if_pos h3]; exact translate_outcome_fail _ _ h3
    · rw [if_neg h3]; exact translate_outcome_push _ _

/-- C10: `bus_kernel_translate_message` returns -EBADMSG with the connection
unchanged when more than one recognized notification item is present, returns
0 with the connection unchanged when none is present, and when exactly one is
present returns the result of translating that item with its entry of the
dispatch table; that result is 1 exactly when one message was appended to the
delivery queue, and otherwise the connection is unchanged. -/
theorem translate_message_outcome (o : bus_world) (bus : sd_bus) (k : kdbus_msg) :
    (1 < (k.items.filter is_kernel_item).length →
      bus_kernel_translate_message o bus k = (-EBADMSG, bus)) ∧
    ((k.items.filter is_kernel_item).length = 0 →
      bus_kernel_translate_message o bus k = (0, bus)) ∧
    (∀ d, k.items.filter is_kernel_item = [d] →
      ∃ fn, translate (d.type - _KDBUS_ITEM_KERNEL_BASE) = some fn ∧
        bus_kernel_translate_message o bus k = fn o bus k d ∧
        translate_outcome bus (fn o bus k d)) := by
  unfold bus_kernel_translate_message
  simp only [translate_find_none]
  refine ⟨?_, ?_, ?_⟩
  · intro h
    cases hf : k.items.filter is_kernel_item with
    | nil => rw [hf] at h; simp at h
    | cons a t =>
      cases t with
      | nil => rw [hf] at h; simp at h
      | cons b t => simp [EBADMSG]
  · intro h
    rw [List.length_eq_zero] at h
    rw [h]
    simp
  · intro d hd
    have hk : is_kernel_item d = true := by
      have : d ∈ k.items.filter is_kernel_item := by rw [hd]; simp
      exact (List.mem_filter.mp this).2
    obtain ⟨fn, hfn, hcases⟩ := translate_of_kernel_item d hk
    refine ⟨fn, hfn, ?_, ?_⟩
    · rw [hd]
      simp [hfn]
    · rcases hcases with h | h | h <;> subst h
      · exact translate_name_change_outcome _ _ _ _
      · exact translate_id_change_outcome _ _ _ _
      · exact translate_reply_outcome _ _ _ _

/-- A name-add item and a reply-timeout item, on an empty connection. -/
theorem translate_message_outcome_witness :
    bus_kernel_translate_message { header_at := fun _ => {} } {}
        { items := [{ type := KDBUS_ITEM_NAME_ADD }, { type := KDBUS_ITEM_REPLY_TIMEOUT }] }
      = (-EBADMSG, {}) ∧
    bus_kernel_translate_message { header_at := fun _ => {} } {}
        { items := [{ type := KDBUS_ITEM_CREDS }] } = (0, {}) ∧
    (bus_kernel_translate_message { header_at := fun _ => {} } {}
        { items := [{ type := KDBUS_ITEM_CREDS },
                    { type := KDBUS_ITEM_ID_REMOVE, id_change := { id := 7 } }] }).1 = 1 :=
  ⟨(translate_message_outcome _ _ _).1 (by decide),
   (translate_message_outcome _ _ _).2.1 (by decide),
   by decide⟩

/-! ### Kernel receiver: sender and destination -/

theorem make_message_payload_off_destination (o : bus_world) (bus : sd_bus) (st : make_pass2)
    (d : kdbus_item) : (make_message_payload_off o bus st d).2.destination = st.destination := by
  unfold make_message_payload_off
  simp only
  split_ifs <;> rfl

theorem make_message_payload_memfd_destination (o : bus_world) (st : make_pass2)
    (d : kdbus_item) : (make_message_payload_memfd o st d).2.destination = st.destination := by
  unfold make_message_payload_memfd
  simp only
  split_ifs <;> rfl

theorem make_message_item_destination (o : bus_world) (bus : sd_bus) (st : make_pass2)
    (d : kdbus_item) :
    (make_message_item o bus st d).2.destination =
      if d.type = KDBUS_ITEM_DST_NAME then some d.str else st.destination := by
  unfold make_message_item
  by_cases h1 : d.type = KDBUS_ITEM_PAYLOAD_OFF
  · have : d.type ≠ KDBUS_ITEM_DST_NAME := by rw [h1]; decide
    rw [if_pos h1, if_neg this, make_message_payload_off_destination]
  · by_cases h2 : d.type = KDBUS_ITEM_PAYLOAD_MEMFD
    · have : d.type ≠ KDBUS_ITEM_DST_NAME := by rw [h2]; decide
      rw [if_neg h1, if_pos h2, if_neg this, make_message_payload_memfd_destination]
    · by_cases h3 : d.type = KDBUS_ITEM_DST_NAME
      · rw [if_neg h1, if_neg h2, if_pos h3, if_pos h3]
      · rw [if_neg h1, if_neg h2, if_neg h3, if_neg h3]

theorem explicit_destination_cons (d : kdbus_item) (ds : List kdbus_item) :
    explicit_destination (d :: ds) =
      match explicit_destination ds with
      | some x => some x
      | none => if d.type = KDBUS_ITEM_DST_NAME then some d.str else none := by
  unfold explicit_destination
  by_cases hd : d.type = KDBUS_ITEM_DST_NAME
  · simp only [List.filter_cons, hd, decide_True, if_true]
    cases hf : ds.filter (fun d => decide (d.type = KDBUS_ITEM_DST_NAME)) with
    | nil => simp
    | cons a t =>
      rw [List.getLast?_cons_cons, List.getLast?_eq_getLast (a :: t) (by simp)]
      rfl
  · have hf : (d :: ds).filter (fun d => decide (d.type = KDBUS_ITEM_DST_NAME)) =
        ds.filter (fun d => decide (d.type = KDBUS_ITEM_DST_NAME)) :=
      List.filter_cons_of_neg (by simpa using hd)
    rw [hf, if_neg hd]
    generalize (ds.filter (fun d => decide (d.type = KDBUS_ITEM_DST_NAME))).getLast? = x
    cases x <;> rfl

theorem make_message_pass2_destination (o : bus_world) (bus : sd_bus) (items : List kdbus_item)
    (st : make_pass2) (h : 0 ≤ (make_message_pass2 o bus st items).1) :
    (make_message_pass2 o bus st items).2.destination =
      match explicit_destination items with
      | some x => some x
      | none => st.destination := by
  induction items generalizing st with
  | nil => simp [make_message_pass2, explicit_destination]
  | cons d ds ih =>
    unfold make_message_pass2 at h ⊢
    simp only at h ⊢
    by_cases hr : (make_message_item o bus st d).1 < 0
    · rw [if_pos hr] at h; omega
    · rw [if_neg hr] at h ⊢
      rw [ih _ h, explicit_destination_cons, make_message_item_destination]
      cases explicit_destination ds with
      | some x => rfl
      | none =>
        by_cases hd : d.type = KDBUS_ITEM_DST_NAME <;> simp [hd]

theorem make_message_item_status (o : bus_world) (bus : sd_bus) (st : make_pass2)
    (d : kdbus_item) : (make_message_item o bus st d).1 ≤ 0 := by
  unfold make_message_item make_message_payload_off make_message_payload_memfd
  simp only
  split_ifs <;> simp [ENOMEM, EBADMSG]

theorem make_message_pass2_status (o : bus_world) (bus : sd_bus) (items : List kdbus_item)
    (st : make_pass2) : (make_message_pass2 o bus st items).1 ≤ 0 := by
  induction items generalizing st with
  | nil => simp [make_message_pass2]
  | cons d ds ih =>
    unfold make_message_pass2
    simp only
    split_ifs with h
    · omega
    · exact ih _

/-- What a construction that did not fail went through. -/
theorem make_message_construct_ok (o : bus_world) (bus : sd_bus) (k : kdbus_msg)
    (h : 0 ≤ (make_message_construct o bus k).r) :
    ∃ hp : Nat,
      0 ≤ (make_message_pass1 o bus {} k.items).1 ∧
      (make_message_pass1 o bus {} k.items).2.h = some hp ∧
      (make_message_pass1 o bus {} k.items).2.n_bytes
        = (bus_header_message_size (o.header_at hp)).2 ∧
      0 ≤ (bus_message_from_header o hp (make_message_pass1 o bus {} k.items).2.fds
              (make_message_pass1 o bus {} k.items).2.seclabel).1 ∧
      ∃ p2 : make_pass2,
        make_message_pass2 o bus
          { m := (bus_message_from_header o hp (make_message_pass1 o bus {} k.items).2.fds
              (make_message_pass1 o bus {} k.items).2.seclabel).2 } k.items = (0, p2) ∧
        0 ≤ (bus_message_parse_fields o p2.m).1 ∧
        make_message_construct o bus k =
          { r := (bus_message_parse_fields o p2.m).1, m := (bus_message_parse_fields o p2.m).2,
            destination := p2.destination } := by
  unfold make_message_construct at h ⊢
  simp only at h ⊢
  by_cases h1 : (make_message_pass1 o bus {} k.items).1 < 0
  · rw [if_pos h1] at h; simp only at h; omega
  · rw [if_neg h1] at h ⊢
    cases hh : (make_message_pass1 o bus {} k.items).2.h with
    | none => rw [hh] at h; simp [EBADMSG] at h
    | some hp =>
      rw [hh] at h
      simp only at h ⊢
      by_cases h2 : (bus_header_message_size (o.header_at hp)).1 < 0
      · rw [if_pos h2] at h; simp only at h; omega
      · rw [if_neg h2] at h ⊢
        by_cases h3 : (make_message_pass1 o bus {} k.items).2.n_bytes
            ≠ (bus_header_message_size (o.header_at hp)).2
        · rw [if_pos h3] at h; simp [EBADMSG] at h
        · rw [if_neg h3] at h ⊢
          by_cases h4 : (bus_message_from_header o hp (make_message_pass1 o bus {} k.items).2.fds
              (make_message_pass1 o bus {} k.items).2.seclabel).1 < 0
          · rw [if_pos h4] at h; simp only at h; omega
          · rw [if_neg h4] at h ⊢
            by_cases h5 : (make_message_pass2 o bus
                { m := (bus_message_from_header o hp (make_message_pass1 o bus {} k.items).2.fds
                  (make_message_pass1 o bus {} k.items).2.seclabel).2 } k.items).1 < 0
            · rw [if_pos h5] at h; simp only at h; omega
            · rw [if_neg h5] at h ⊢
              by_cases h6 : (bus_message_parse_fields o (make_message_pass2 o bus
                  { m := (bus_message_from_header o hp
                    (make_message_pass1 o bus {} k.items).2.fds
                    (make_message_pass1 o bus {} k.items).2.seclabel).2 } k.items).2.m).1 < 0
              · rw [if_pos h6] at h; simp only at h; omega
              · rw [if_neg h6] at h ⊢
                refine ⟨hp, by omega, rfl, not_not.mp h3, by omega, _, ?_, by omega, rfl⟩
                have hs := make_message_pass2_status o bus k.items
                  { m := (bus_message_from_header o hp
                    (make_message_pass1 o bus {} k.items).2.fds
                    (make_message_pass1 o bus {} k.items).2.seclabel).2 }
                exact Prod.ext (by simp only; omega) rfl

theorem make_message_construct_destination (o : bus_world) (bus : sd_bus) (k : kdbus_msg)
    (h : 0 ≤ (make_message_construct o bus k).r) :
    (make_message_construct o bus k).destination = explicit_destination k.items := by
  obtain ⟨hp, _, _, _, _, p2, h2, _, hc⟩ := make_message_construct_ok o bus k h
  rw [hc]
  have := make_message_pass2_destination o bus k.items _ (by rw [h2])
  rw [h2] at this
  simp only at this ⊢
  rw [this]
  cases explicit_destination k.items <;> rfl

/-- C9: for every message `bus_kernel_make_message` enqueues, the sender is
`"org.freedesktop.DBus"` when the kernel source id is the kernel itself and
otherwise `":1.<source id>"`; the destination is the one the message carries
from its own header fields if it has one, else the explicit destination-name
item if present, else `":1.<destination id>"` unless the destination id is
the by-name or the broadcast sentinel, in which case it is left unset. -/
theorem make_message_sender_destination (o : bus_world) (bus : sd_bus) (k : kdbus_msg)
    (h : (bus_kernel_make_message o bus k).r = 1) :
    ∃ q, (bus_kernel_make_message o bus k).bus = { bus with rqueue := bus.rqueue ++ [q] } ∧
      q.sender = some (if k.src_id = KDBUS_SRC_ID_KERNEL then "org.freedesktop.DBus".data
                       else format_unique_name k.src_id) ∧
      q.destination =
        match (make_message_construct o bus k).m.destination with
        | some own => some own
        | none =>
          match explicit_destination k.items with
          | some name => some name
          | none =>
            if k.dst_id = KDBUS_DST_ID_NAME ∨ k.dst_id = KDBUS_DST_ID_BROADCAST then none
            else some (format_unique_name k.dst_id) := by
  unfold bus_kernel_make_message at h ⊢
  simp only at h ⊢
  by_cases hb : (make_message_construct o bus k).r < 0
  · rw [if_pos hb] at h; simp only at h; omega
  · rw [if_neg hb]
    refine ⟨_, rfl, ?_, ?_⟩
    · unfold make_message_finish
      by_cases hs : k.src_id = KDBUS_SRC_ID_KERNEL
      · simp only [hs, if_true]; split_ifs <;> rfl
      · simp only [hs, if_false]; split_ifs <;> rfl
    · rw [make_message_construct_destination o bus k (by omega)]
      unfold make_message_finish
      cases hown : (make_message_construct o bus k).m.destination with
      | some own => split_ifs <;> simp_all
      | none =>
        cases hexp : explicit_destination k.items with
        | some name => split_ifs <;> simp_all
        | none =>
          by_cases hd : k.dst_id = KDBUS_DST_ID_NAME ∨ k.dst_id = KDBUS_DST_ID_BROADCAST
          · rw [if_pos hd]
            have hd' : ¬ (k.dst_id ≠ KDBUS_DST_ID_NAME ∧ k.dst_id ≠ KDBUS_DST_ID_BROADCAST) := by
              tauto
            split_ifs <;> simp_all
          · rw [if_neg hd]
            have hd' : k.dst_id ≠ KDBUS_DST_ID_NAME ∧ k.dst_id ≠ KDBUS_DST_ID_BROADCAST := by
              tauto
            split_ifs <;> simp_all

theorem make_message_sender_destination_witness :
    (bus_kernel_make_message sample_world {}
      { src_id := 5, dst_id := 7, items := sample_message_items }).r = 1 ∧
    ∃ q, (bus_kernel_make_message sample_world {}
        { src_id := 5, dst_id := 7, items := sample_message_items }).bus
          = { ({} : sd_bus) with rqueue := ({} : sd_bus).rqueue ++ [q] } ∧
      q.sender = some (if (5 : Nat) = KDBUS_SRC_ID_KERNEL then "org.freedesktop.DBus".data
                       else format_unique_name 5) ∧
      q.destination =
        match (make_message_construct sample_world {}
          { src_id := 5, dst_id := 7, items := sample_message_items }).m.destination with
        | some own => some own
        | none =>
          match explicit_destination sample_message_items with
          | some name => some name
          | none =>
            if (7 : Nat) = KDBUS_DST_ID_NAME ∨ (7 : Nat) = KDBUS_DST_ID_BROADCAST then none
            else some (format_unique_name 7) :=
  ⟨by decide,
   make_message_sender_destination sample_world {}
     { src_id := 5, dst_id := 7, items := sample_message_items } (by decide)⟩

/-! ### Kernel receiver: locating the header -/

theorem make_message_scan_located (o : bus_world) (bus : sd_bus)
    (halloc : ∀ n, o.realloc_ok n = true) (st : make_pass1) (d : kdbus_item)
    (hp : Nat) (hst : st.h = some hp) (hnb : st.n_bytes < U64) :
    (make_message_scan o bus st d).1 = 0 ∧
    (make_message_scan o bus st d).2.h = some hp ∧
    (make_message_scan o bus st d).2.n_bytes = (st.n_bytes + payload_size d) % U64 := by
  unfold make_message_scan payload_size
  simp only [hst, halloc]
  by_cases h1 : d.type = KDBUS_ITEM_PAYLOAD_OFF
  · simp [h1]
  · by_cases h2 : d.type = KDBUS_ITEM_PAYLOAD_MEMFD
    · simp only [if_neg h1, if_pos h2]
      simp
    · simp only [if_neg h1, if_neg h2, Nat.add_zero, Nat.mod_eq_of_lt hnb]
      split_ifs <;> simp_all

theorem make_message_pass1_located (o : bus_world) (bus : sd_bus)
    (halloc : ∀ n, o.realloc_ok n = true) (items : List kdbus_item) (st : make_pass1)
    (hp : Nat) (hst : st.h = some hp) (hnb : st.n_bytes < U64) :
    (make_message_pass1 o bus st items).1 = 0 ∧
    (make_message_pass1 o bus st items).2.h = some hp ∧
    (make_message_pass1 o bus st items).2.n_bytes
      = (st.n_bytes + payload_size_sum items) % U64 := by
  induction items generalizing st with
  | nil => simp [make_message_pass1, hst, payload_size_sum, Nat.mod_eq_of_lt hnb]
  | cons d ds ih =>
    obtain ⟨h1, h2, h3⟩ := make_message_scan_located o bus halloc st d hp hst hnb
    unfold make_message_pass1
    simp only [h1, lt_self_iff_false, if_false]
    have hlt : (make_message_scan o bus st d).2.n_bytes < U64 := by
      rw [h3]; exact Nat.mod_lt _ (by decide)
    obtain ⟨i1, i2, i3⟩ := ih _ h2 hlt
    refine ⟨i1, i2, ?_⟩
    rw [i3, h3]
    simp only [payload_size_sum, List.map_cons, List.sum_cons, U64]
    omega

theorem make_message_scan_unlocated (o : bus_world) (bus : sd_bus)
    (halloc : ∀ n, o.realloc_ok n = true) (st : make_pass1) (d : kdbus_item)
    (hst : st.h = none) :
    (is_payload_item d = false →
      (make_message_scan o bus st d).1 = 0 ∧ (make_message_scan o bus st d).2.h = none ∧
      (make_message_scan o bus st d).2.n_bytes = st.n_bytes) ∧
    (contains_header o bus d = true →
      (make_message_scan o bus st d).1 = 0 ∧
      (make_message_scan o bus st d).2.h = some (bus.kdbus_buffer + d.vec.offset) ∧
      (make_message_scan o bus st d).2.n_bytes = (st.n_bytes + payload_size d) % U64) ∧
    (is_payload_item d = true → contains_header o bus d = false →
      (make_message_scan o bus st d).1 = -EBADMSG) := by
  unfold make_message_scan payload_size is_payload_item contains_header
  simp only [hst, halloc]
  by_cases h1 : d.type = KDBUS_ITEM_PAYLOAD_OFF
  · simp only [if_pos h1]
    simp only [h1, true_or, decide_True, Bool.true_eq_false, false_implies, true_and,
      Bool.decide_eq_true, true_implies, not_true_eq_false, Bool.not_eq_true]
    constructor
    · intro hc; simp [hc]
    · intro hc; simp [hc]
  · by_cases h2 : d.type = KDBUS_ITEM_PAYLOAD_MEMFD
    · simp only [if_neg h1, if_pos h2]
      have hne : KDBUS_ITEM_PAYLOAD_MEMFD ≠ KDBUS_ITEM_PAYLOAD_OFF := by decide
      simp [h2, hne]
    · simp only [if_neg h1, if_neg h2]
      simp only [h1, h2, or_self, decide_False, false_and, Bool.false_eq_true, false_implies,
        and_true, true_and, implies_true]
      intro _
      split_ifs <;> simp_all

theorem make_message_pass1_unlocated (o : bus_world) (bus : sd_bus)
    (halloc : ∀ n, o.realloc_ok n = true) (items : List kdbus_item) (st : make_pass1)
    (hst : st.h = none) (hnb : st.n_bytes < U64) :
    match items.find? is_payload_item with
    | none => (make_message_pass1 o bus st items).1 = 0 ∧
        (make_message_pass1 o bus st items).2.h = none
    | some d =>
      (contains_header o bus d = true →
        (make_message_pass1 o bus st items).1 = 0 ∧
        (make_message_pass1 o bus st items).2.h = some (bus.kdbus_buffer + d.vec.offset) ∧
        (make_message_pass1 o bus st items).2.n_bytes
          = (st.n_bytes + payload_size_sum items) % U64) ∧
      (contains_header o bus d = false →
        (make_message_pass1 o bus st items).1 = -EBADMSG) := by
  induction items generalizing st with
  | nil => simp [make_message_pass1, hst]
  | cons d ds ih =>
    obtain ⟨s1, s2, s3⟩ := make_message_scan_unlocated o bus halloc st d hst
    unfold make_message_pass1
    by_cases hp : is_payload_item d = true
    · simp only [List.find?_cons, hp]
      constructor
      · intro hc
        obtain ⟨a1, a2, a3⟩ := s2 hc
        have hlt : (make_message_scan o bus st d).2.n_bytes < U64 := by
          rw [a3]; exact Nat.mod_lt _ (by decide)
        obtain ⟨i1, i2, i3⟩ := make_message_pass1_located o bus halloc ds _ _ a2 hlt
        simp only [a1, lt_self_iff_false, if_false]
        refine ⟨i1, i2, ?_⟩
        rw [i3, a3]
        simp only [payload_size_sum, List.map_cons, List.sum_cons, U64]
        omega
      · intro hc
        have := s3 hp hc
        simp [this, EBADMSG]
    · have hp' : is_payload_item d = false := by simpa using hp
      obtain ⟨a1, a2, a3⟩ := s1 hp'
      simp only [List.find?_cons, hp', a1, lt_self_iff_false, if_false]
      have := ih _ a2 (by rw [a3]; exact hnb)
      have hz : payload_size d = 0 := by
        unfold payload_size
        unfold is_payload_item at hp'
        simp only [decide_eq_false_iff_not, not_or] at hp'
        simp [hp'.1, hp'.2]
      cases hf : ds.find? is_payload_item with
      | none => rw [hf] at this; exact this
      | some e =>
        rw [hf] at this
        simp only at this ⊢
        refine ⟨fun hc => ?_, this.2⟩
        obtain ⟨b1, b2, b3⟩ := this.1 hc
        refine ⟨b1, b2, ?_⟩
        rw [b3, a3]
        simp [payload_size_sum, hz]

theorem make_message_pass1_failed (o : bus_world) (bus : sd_bus) (k : kdbus_msg)
    (h : (make_message_pass1 o bus {} k.items).1 < 0) :
    bus_kernel_make_message o bus k =
      { r := (make_message_pass1 o bus {} k.items).1, bus := bus, unref := none } := by
  unfold bus_kernel_make_message make_message_construct
  simp [h]

theorem make_message_no_header (o : bus_world) (bus : sd_bus) (k : kdbus_msg)
    (h : (make_message_pass1 o bus {} k.items).1 = 0)
    (hh : (make_message_pass1 o bus {} k.items).2.h = none) :
    bus_kernel_make_message o bus k = { r := -EBADMSG, bus := bus, unref := none } := by
  unfold bus_kernel_make_message make_message_construct
  simp [h, hh, EBADMSG]

/-- A list none of whose items is a pool reference with a complete header is
rejected as malformed, nothing being constructed or enqueued. -/
theorem make_message_rejects_without_header (o : bus_world) (bus : sd_bus) (k : kdbus_msg)
    (halloc : ∀ n, o.realloc_ok n = true)
    (hall : ∀ d ∈ k.items, contains_header o bus d = false) :
    bus_kernel_make_message o bus k = { r := -EBADMSG, bus := bus, unref := none } := by
  have key := make_message_pass1_unlocated o bus halloc k.items {} rfl (by decide)
  cases hd : k.items.find? is_payload_item with
  | none =>
    rw [hd] at key
    exact make_message_no_header o bus k key.1 key.2
  | some d =>
    rw [hd] at key
    have h1 := key.2 (hall d (List.mem_of_find?_eq_some hd))
    rw [make_message_pass1_failed o bus k (by rw [h1]; decide), h1]

/-- C6, as stated, fails: in this list the first payload item that contains a
complete header record is the second item, yet `bus_kernel_make_message` does
not take it as header: it fails with -EBADMSG at the first item. -/
theorem make_message_header_counterexample :
    sample_split_items.find? (contains_header sample_world {}) = sample_split_items.get? 1 ∧
    (sample_split_items.get? 1).isSome = true ∧
    bus_kernel_make_message sample_world {} { items := sample_split_items }
      = { r := -EBADMSG, bus := {}, unref := none } := by
  decide

/-- C6 (amended): `bus_kernel_make_message` takes as header the first
payload item of the list, which must be a pool reference containing a
complete, self-describing header record; when the first payload item is not
such an item, when the list has no payload item, and in particular when no
payload item contains a complete header record, it fails with -EBADMSG,
constructs no message and leaves the connection unchanged (the descriptor
array being allocated successfully). -/
theorem make_message_header (o : bus_world) (bus : sd_bus) (k : kdbus_msg)
    (halloc : ∀ n, o.realloc_ok n = true) :
    (∀ d, k.items.find? is_payload_item = some d → contains_header o bus d = true →
      (make_message_pass1 o bus {} k.items).1 = 0 ∧
      (make_message_pass1 o bus {} k.items).2.h = some (bus.kdbus_buffer + d.vec.offset)) ∧
    (∀ d, k.items.find? is_payload_item = some d → contains_header o bus d = false →
      bus_kernel_make_message o bus k = { r := -EBADMSG, bus := bus, unref := none }) ∧
    (k.items.find? is_payload_item = none →
      bus_kernel_make_message o bus k = { r := -EBADMSG, bus := bus, unref := none }) ∧
    ((∀ d ∈ k.items, contains_header o bus d = false) →
      bus_kernel_make_message o bus k = { r := -EBADMSG, bus := bus, unref := none }) := by
  have key := make_message_pass1_unlocated o bus halloc k.items {} rfl (by decide)
  have hA : ∀ d, k.items.find? is_payload_item = some d → contains_header o bus d = false →
      bus_kernel_make_message o bus k = { r := -EBADMSG, bus := bus, unref := none } := by
    intro d hd hc
    rw [hd] at key
    have h1 := key.2 hc
    rw [make_message_pass1_failed o bus k (by rw [h1]; decide), h1]
  have hB : k.items.find? is_payload_item = none →
      bus_kernel_make_message o bus k = { r := -EBADMSG, bus := bus, unref := none } := by
    intro hd
    rw [hd] at key
    exact make_message_no_header o bus k key.1 key.2
  refine ⟨?_, hA, hB, ?_⟩
  · intro d hd hc
    rw [hd] at key
    exact ⟨(key.1 hc).1, (key.1 hc).2.1⟩
  · exact make_message_rejects_without_header o bus k halloc

theorem make_message_header_witness :
    (∀ n, sample_world.realloc_ok n = true) ∧
    (make_message_pass1 sample_world {} {} sample_message_items).2.h = some 64 ∧
    bus_kernel_make_message sample_world {} { items := sample_split_items }
      = { r := -EBADMSG, bus := {}, unref := none } :=
  ⟨fun _ => rfl,
   ((make_message_header sample_world {} { items := sample_message_items }
      (fun _ => rfl)).1
      { type := KDBUS_ITEM_PAYLOAD_OFF, size := 32, vec := { address := 64, size := 24 } }
      (by decide) (by decide)).2,
   (make_message_header sample_world {} { items := sample_split_items }
      (fun _ => rfl)).2.1
      { type := KDBUS_ITEM_PAYLOAD_OFF, size := 32, vec := { address := 0, size := 8 } }
      (by decide) (by decide)⟩

/-! ### Kernel receiver: the declared message size -/

theorem make_message_scan_n_bytes (o : bus_world) (bus : sd_bus) (st : make_pass1)
    (d : kdbus_item) (hnb : st.n_bytes < U64) (h : 0 ≤ (make_message_scan o bus st d).1) :
    (make_message_scan o bus st d).2.n_bytes = (st.n_bytes + payload_size d) % U64 := by
  unfold make_message_scan at h ⊢
  unfold payload_size
  simp only at h ⊢
  by_cases h1 : d.type = KDBUS_ITEM_PAYLOAD_OFF
  · simp only [if_pos h1] at h ⊢
    split_ifs at h ⊢
    · simp [EBADMSG] at h
    · rfl
  · by_cases h2 : d.type = KDBUS_ITEM_PAYLOAD_MEMFD
    · simp only [if_neg h1, if_pos h2] at h ⊢
      split_ifs at h ⊢
      · simp [EBADMSG] at h
      · rfl
    · simp only [if_neg h1, if_neg h2, Nat.add_zero, Nat.mod_eq_of_lt hnb] at h ⊢
      split_ifs at h ⊢ <;> rfl

theorem make_message_pass1_n_bytes (o : bus_world) (bus : sd_bus) (items : List kdbus_item)
    (st : make_pass1) (hnb : st.n_bytes < U64)
    (h : 0 ≤ (make_message_pass1 o bus st items).1) :
    (make_message_pass1 o bus st items).2.n_bytes
      = (st.n_bytes + payload_size_sum items) % U64 := by
  induction items generalizing st with
  | nil => simp [make_message_pass1, payload_size_sum, Nat.mod_eq_of_lt hnb]
  | cons d ds ih =>
    unfold make_message_pass1 at h ⊢
    simp only at h ⊢
    by_cases hr : (make_message_scan o bus st d).1 < 0
    · rw [if_pos hr] at h; omega
    · rw [if_neg hr] at h ⊢
      have h3 := make_message_scan_n_bytes o bus st d hnb (by omega)
      have hlt : (make_message_scan o bus st d).2.n_bytes < U64 := by
        rw [h3]; exact Nat.mod_lt _ (by decide)
      rw [ih _ hlt h, h3]
      simp only [payload_size_sum, List.map_cons, List.sum_cons, U64]
      omega

/-- C7: for every inbound item list in which a header was located (the first
loop ran to its end and left the header pointer set), if the sum of the sizes
of all payload items (pool references and memfds), which fits in 64 bits,
differs from the total message size the header declares, then
`bus_kernel_make_message` returns -EBADMSG, constructs no message, and leaves
the delivery queue and the rest of the connection unchanged. -/
theorem make_message_size_mismatch (o : bus_world) (bus : sd_bus) (k : kdbus_msg) (hp : Nat)
    (h1 : 0 ≤ (make_message_pass1 o bus {} k.items).1)
    (hh : (make_message_pass1 o bus {} k.items).2.h = some hp)
    (hfit : payload_size_sum k.items < U64)
    (hne : payload_size_sum k.items ≠ (bus_header_message_size (o.header_at hp)).2) :
    bus_kernel_make_message o bus k = { r := -EBADMSG, bus := bus, unref := none } := by
  have hn := make_message_pass1_n_bytes o bus k.items {} (by decide) h1
  simp only [Nat.zero_add, Nat.mod_eq_of_lt hfit] at hn
  unfold bus_kernel_make_message make_message_construct
  have h1' : ¬ (make_message_pass1 o bus {} k.items).1 < 0 := by omega
  have hsz : ¬ (bus_header_message_size (o.header_at hp)).1 < 0 := by
    simp [bus_header_message_size]
  simp only [if_neg h1', hh, if_neg hsz, hn, if_pos hne]
  simp [EBADMSG]

theorem make_message_size_mismatch_witness :
    0 ≤ (make_message_pass1 sample_world {} {} sample_short_items).1 ∧
    (make_message_pass1 sample_world {} {} sample_short_items).2.h = some 64 ∧
    payload_size_sum sample_short_items < U64 ∧
    payload_size_sum sample_short_items ≠ (bus_header_message_size (sample_world.header_at 64)).2 ∧
    bus_kernel_make_message sample_world {} { items := sample_short_items }
      = { r := -EBADMSG, bus := {}, unref := none } :=
  ⟨by decide, by decide, by decide, by decide,
   make_message_size_mismatch sample_world {} { items := sample_short_items } 64
     (by decide) (by decide) (by decide) (by decide)⟩

theorem body_parts_size_append (l : List bus_body_part) (p : bus_body_part) :
    body_parts_size (l ++ [p]) = body_parts_size l + p.size := by
  simp [body_parts_size]

theorem make_message_hydrate_header (bus : sd_bus) (m : sd_bus_message) (d : kdbus_item) :
    (make_message_hydrate bus m d).header = m.header ∧
    (make_message_hydrate bus m d).body_parts = m.body_parts ∧
    (make_message_hydrate bus m d).header_ptr = m.header_ptr := by
  unfold make_message_hydrate
  by_cases c0 : d.type = KDBUS_ITEM_CREDS
  · rw [if_pos c0]; exact ⟨rfl, rfl, rfl⟩
  rw [if_neg c0]
  by_cases c1 : d.type = KDBUS_ITEM_TIMESTAMP
  · rw [if_pos c1]; exact ⟨rfl, rfl, rfl⟩
  rw [if_neg c1]
  by_cases c2 : d.type = KDBUS_ITEM_PID_COMM
  · rw [if_pos c2]; exact ⟨rfl, rfl, rfl⟩
  rw [if_neg c2]
  by_cases c3 : d.type = KDBUS_ITEM_TID_COMM
  · rw [if_pos c3]; exact ⟨rfl, rfl, rfl⟩
  rw [if_neg c3]
  by_cases c4 : d.type = KDBUS_ITEM_EXE
  · rw [if_pos c4]; exact ⟨rfl, rfl, rfl⟩
  rw [if_neg c4]
  by_cases c5 : d.type = KDBUS_ITEM_CMDLINE
  · rw [if_pos c5]; exact ⟨rfl, rfl, rfl⟩
  rw [if_neg c5]
  by_cases c6 : d.type = KDBUS_ITEM_CGROUP
  · rw [if_pos c6]; exact ⟨rfl, rfl, rfl⟩
  rw [if_neg c6]
  by_cases c7 : d.type = KDBUS_ITEM_AUDIT
  · rw [if_pos c7]; exact ⟨rfl, rfl, rfl⟩
  rw [if_neg c7]
  by_cases c8 : d.type = KDBUS_ITEM_CAPS
  · rw [if_pos c8]; exact ⟨rfl, rfl, rfl⟩
  rw [if_neg c8]
  by_cases c9 : d.type = KDBUS_ITEM_NAMES
  · rw [if_pos c9]; exact ⟨rfl, rfl, rfl⟩
  rw [if_neg c9]
  exact ⟨rfl, rfl, rfl⟩

/-- One step of the second loop, for a payload that does not wrap around:
the header stays, the running offset advances by the payload size of the
item, and the body grows by exactly the bytes of the item that lie past the
start of the body. -/
theorem make_message_item_parts (o : bus_world) (bus : sd_bus) (st : make_pass2)
    (d : kdbus_item) (hfit : st.idx + payload_size d < U64)
    (h : 0 ≤ (make_message_item o bus st d).1) :
    (make_message_item o bus st d).2.m.header = st.m.header ∧
    (make_message_item o bus st d).2.idx = st.idx + payload_size d ∧
    body_parts_size (make_message_item o bus st d).2.m.body_parts
        + max st.idx (BUS_MESSAGE_BODY_BEGIN st.m)
      = body_parts_size st.m.body_parts
        + max (st.idx + payload_size d) (BUS_MESSAGE_BODY_BEGIN st.m) := by
  unfold make_message_item at h ⊢
  unfold payload_size at hfit ⊢
  by_cases h1 : d.type = KDBUS_ITEM_PAYLOAD_OFF
  · simp only [if_pos h1] at h hfit ⊢
    unfold make_message_payload_off at h ⊢
    simp only [Nat.mod_eq_of_lt hfit] at h ⊢
    split_ifs at h ⊢ <;>
      first
      | (exfalso; simp [ENOMEM] at h; done)
      | (refine ⟨rfl, rfl, ?_⟩; simp only [body_parts_size_append]; omega)
  · by_cases h2 : d.type = KDBUS_ITEM_PAYLOAD_MEMFD
    · simp only [if_neg h1, if_pos h2] at h hfit ⊢
      unfold make_message_payload_memfd at h ⊢
      simp only [Nat.mod_eq_of_lt hfit] at h ⊢
      split_ifs at h ⊢ <;>
        first
        | (exfalso; simp [ENOMEM, EBADMSG] at h; done)
        | (refine ⟨rfl, rfl, ?_⟩; simp only [body_parts_size_append]; omega)
    · simp only [if_neg h1, if_neg h2] at h hfit ⊢
      split_ifs
      · exact ⟨rfl, rfl, rfl⟩
      · obtain ⟨a, b, _⟩ := make_message_hydrate_header bus st.m d
        simp only [Nat.add_zero]
        exact ⟨a, trivial, by rw [b]⟩

theorem make_message_pass2_parts (o : bus_world) (bus : sd_bus) (items : List kdbus_item)
    (st : make_pass2) (hfit : st.idx + payload_size_sum items < U64)
    (h : 0 ≤ (make_message_pass2 o bus st items).1) :
    (make_message_pass2 o bus st items).2.m.header = st.m.header ∧
    (make_message_pass2 o bus st items).2.idx = st.idx + payload_size_sum items ∧
    body_parts_size (make_message_pass2 o bus st items).2.m.body_parts
        + max st.idx (BUS_MESSAGE_BODY_BEGIN st.m)
      = body_parts_size st.m.body_parts
        + max (st.idx + payload_size_sum items) (BUS_MESSAGE_BODY_BEGIN st.m) := by
  induction items generalizing st with
  | nil => simp [make_message_pass2, payload_size_sum]
  | cons d ds ih =>
    have hsum : payload_size_sum (d :: ds) = payload_size d + payload_size_sum ds := by
      simp [payload_size_sum]
    rw [hsum] at hfit ⊢
    unfold make_message_pass2 at h ⊢
    simp only at h ⊢
    by_cases hr : (make_message_item o bus st d).1 < 0
    · rw [if_pos hr] at h; omega
    · rw [if_neg hr] at h ⊢
      obtain ⟨a1, a2, a3⟩ := make_message_item_parts o bus st d (by omega) (by omega)
      obtain ⟨b1, b2, b3⟩ := ih (make_message_item o bus st d).2 (by rw [a2]; omega) h
      have hbb : BUS_MESSAGE_BODY_BEGIN (make_message_item o bus st d).2.m
          = BUS_MESSAGE_BODY_BEGIN st.m := by
        unfold BUS_MESSAGE_BODY_BEGIN; rw [a1]
      rw [hbb, a2] at b3
      refine ⟨by rw [b1, a1], by rw [b2, a2]; omega, ?_⟩
      rw [Nat.add_assoc] at b3
      omega

theorem make_message_finish_parts (bus : sd_bus) (k : kdbus_msg) (m : sd_bus_message)
    (destination : Option cstr) :
    (make_message_finish bus k m destination).header = m.header ∧
    (make_message_finish bus k m destination).body_parts = m.body_parts := by
  unfold make_message_finish
  simp only
  split_ifs <;> exact ⟨rfl, rfl⟩

theorem bus_message_parse_fields_parts (o : bus_world) (m : sd_bus_message) :
    (bus_message_parse_fields o m).2.header = m.header ∧
    (bus_message_parse_fields o m).2.body_parts = m.body_parts := by
  unfold bus_message_parse_fields
  simp only
  split_ifs <;> exact ⟨rfl, rfl⟩

/-- C8: for every inbound item list on which `bus_kernel_make_message`
succeeds (the payload sizes summing to less than `2 ^ 64`), the sum of the
sizes of the body parts of the enqueued message plus the header length (the
body-start offset) equals the total message size declared by the header. -/
theorem make_message_declared_size (o : bus_world) (bus : sd_bus) (k : kdbus_msg)
    (hr : (bus_kernel_make_message o bus k).r = 1)
    (hfit : payload_size_sum k.items < U64) :
    ∃ q, (bus_kernel_make_message o bus k).bus = { bus with rqueue := bus.rqueue ++ [q] } ∧
      body_parts_size q.body_parts + BUS_MESSAGE_BODY_BEGIN q
        = (bus_header_message_size q.header).2 := by
  unfold bus_kernel_make_message at hr ⊢
  simp only at hr ⊢
  by_cases hb : (make_message_construct o bus k).r < 0
  · rw [if_pos hb] at hr; simp only at hr; omega
  · rw [if_neg hb]
    refine ⟨_, rfl, ?_⟩
    obtain ⟨hp, p1ok, p1h, p1n, fhok, p2, hp2, pfok, hc⟩ :=
      make_message_construct_ok o bus k (by omega)
    have hn := make_message_pass1_n_bytes o bus k.items {} (by decide) p1ok
    simp only [Nat.zero_add, Nat.mod_eq_of_lt hfit] at hn
    have hparts := make_message_pass2_parts o bus k.items
      { m := (bus_message_from_header o hp (make_message_pass1 o bus {} k.items).2.fds
        (make_message_pass1 o bus {} k.items).2.seclabel).2 }
      (by simpa using hfit) (by rw [hp2])
    rw [hp2] at hparts
    simp only [Nat.zero_add] at hparts
    obtain ⟨c1, _, c3⟩ := hparts
    have hfh : (bus_message_from_header o hp (make_message_pass1 o bus {} k.items).2.fds
        (make_message_pass1 o bus {} k.items).2.seclabel).2.header = o.header_at hp ∧
        (bus_message_from_header o hp (make_message_pass1 o bus {} k.items).2.fds
        (make_message_pass1 o bus {} k.items).2.seclabel).2.body_parts = [] := by
      unfold bus_message_from_header at fhok ⊢
      simp only at fhok ⊢
      split_ifs at fhok ⊢ with c
      · omega
      · exact ⟨rfl, rfl⟩
    obtain ⟨f1, f2⟩ := make_message_finish_parts bus k (make_message_construct o bus k).m
      (make_message_construct o bus k).destination
    obtain ⟨g1, g2⟩ := bus_message_parse_fields_parts o p2.m
    have hm : (make_message_construct o bus k).m = (bus_message_parse_fields o p2.m).2 := by
      rw [hc]
    have hhead : (make_message_finish bus k (make_message_construct o bus k).m
        (make_message_construct o bus k).destination).header = o.header_at hp := by
      rw [f1, hm, g1, c1, hfh.1]
    have hbody : (make_message_finish bus k (make_message_construct o bus k).m
        (make_message_construct o bus k).destination).body_parts = p2.m.body_parts := by
      rw [f2, hm, g2]
    rw [hbody]
    unfold BUS_MESSAGE_BODY_BEGIN at c3 ⊢
    rw [hhead]
    rw [hfh.1, hfh.2] at c3
    rw [p1n] at hn
    unfold bus_header_message_size at hn ⊢
    simp only [body_parts_size, List.map_nil, List.sum_nil, Nat.zero_add] at c3 ⊢
    simp only at hn
    omega

theorem make_message_declared_size_witness :
    (bus_kernel_make_message sample_world {} { items := sample_message_items }).r = 1 ∧
    payload_size_sum sample_message_items < U64 ∧
    ∃ q, (bus_kernel_make_message sample_world {} { items := sample_message_items }).bus
        = { ({} : sd_bus) with rqueue := ({} : sd_bus).rqueue ++ [q] } ∧
      body_parts_size q.body_parts + BUS_MESSAGE_BODY_BEGIN q
        = (bus_header_message_size q.header).2 :=
  ⟨by decide, by decide,
   make_message_declared_size sample_world {} { items := sample_message_items }
     (by decide) (by decide)⟩

/-! ### Message transcoder: the emitted item list -/

theorem fill_bloom_concat (xs : List kdbus_item) (it : kdbus_item) (bl : bloom_filter) :
    fill_bloom (xs ++ [it]) bl = xs ++ [{ it with bloom := bl }] := by
  induction xs with
  | nil => rfl
  | cons a t ih =>
    cases t with
    | nil => rfl
    | cons b t =>
      simp only [List.cons_append] at ih ⊢
      simp only [fill_bloom, List.cons.injEq, true_and]
      exact ih

theorem bus_body_part_map_same (o : bus_world) (part : bus_body_part)
    (hz : ¬ part.is_zero = true) : same_part part (bus_body_part_map o part).2 := by
  unfold bus_body_part_map same_part
  simp only
  split_ifs <;> exact ⟨rfl, rfl, rfl, rfl, fun h => absurd h hz⟩

theorem setup_kmsg_parts_status (o : bus_world) (hd : Bool) (parts : List bus_body_part)
    (w : item_cursor) : (setup_kmsg_parts o hd w parts).1 ≤ 0 := by
  induction parts generalizing w with
  | nil => simp [setup_kmsg_parts]
  | cons p ps ih =>
    unfold setup_kmsg_parts
    by_cases h1 : p.is_zero = true
    · simp only [if_pos h1]; exact ih _
    · simp only [if_neg h1]
      by_cases h2 : p.memfd ≥ 0 ∧ p.sealed = true ∧ hd = true
      · simp only [if_pos h2]; exact ih _
      · simp only [if_neg h2]
        by_cases h3 : (bus_body_part_map o p).1 < 0
        · simp only [if_pos h3]; omega
        · simp only [if_neg h3]; exact ih _

theorem setup_kmsg_parts_items (o : bus_world) (hd : Bool) (parts : List bus_body_part)
    (w : item_cursor) (h : 0 ≤ (setup_kmsg_parts o hd w parts).1) :
    (setup_kmsg_parts o hd w parts).2.1.items
      = w.items ++ (setup_kmsg_parts o hd w parts).2.2.map (part_item hd) ∧
    List.Forall₂ same_part parts (setup_kmsg_parts o hd w parts).2.2 := by
  induction parts generalizing w with
  | nil => simp [setup_kmsg_parts]
  | cons p ps ih =>
    unfold setup_kmsg_parts at h ⊢
    by_cases h1 : p.is_zero = true
    · simp only [if_pos h1] at h ⊢
      obtain ⟨a, b⟩ := ih _ h
      refine ⟨?_, List.Forall₂.cons ⟨rfl, rfl, rfl, rfl, fun _ => rfl⟩ b⟩
      rw [a]
      simp [append_payload_vec, part_item, h1, payload_vec_item]
    · simp only [if_neg h1] at h ⊢
      by_cases h2 : p.memfd ≥ 0 ∧ p.sealed = true ∧ hd = true
      · simp only [if_pos h2] at h ⊢
        obtain ⟨a, b⟩ := ih _ h
        refine ⟨?_, List.Forall₂.cons ⟨rfl, rfl, rfl, rfl, fun _ => rfl⟩ b⟩
        rw [a]
        simp [append_payload_memfd, part_item, h1, h2, payload_memfd_item]
      · simp only [if_neg h2] at h ⊢
        by_cases h3 : (bus_body_part_map o p).1 < 0
        · simp only [if_pos h3] at h; omega
        · simp only [if_neg h3] at h ⊢
          obtain ⟨a, b⟩ := ih _ h
          have hs := bus_body_part_map_same o p h1
          refine ⟨?_, List.Forall₂.cons hs b⟩
          rw [a]
          obtain ⟨s1, s2, s3, s4, _⟩ := hs
          have h1' : ¬ (bus_body_part_map o p).2.is_zero = true := by rw [s2]; exact h1
          have h2' : ¬ ((bus_body_part_map o p).2.memfd ≥ 0 ∧
              (bus_body_part_map o p).2.sealed = true ∧ hd = true) := by rw [s3, s4]; exact h2
          simp [append_payload_vec, part_item, h1', h2', payload_vec_item]

theorem bus_message_setup_bloom_args_frame (n i : Nat) (m : sd_bus_message)
    (bl : bloom_filter) :
    (bus_message_setup_bloom_args n i m bl).2.1
      = { m with rindex := (bus_message_setup_bloom_args n i m bl).2.1.rindex } := by
  induction n generalizing i m bl with
  | zero => rfl
  | succ n ih =>
    unfold bus_message_setup_bloom_args
    simp only
    by_cases h1 : (sd_bus_message_peek_type m).1 < 0
    · rw [if_pos h1]
    · rw [if_neg h1]
      split_ifs with h2 h3
      · rfl
      · unfold sd_bus_message_read_basic
        split
        · rfl
        · split_ifs <;> rfl
      · rw [ih]
        unfold sd_bus_message_read_basic
        split
        · rfl
        · split_ifs <;> rfl

theorem bus_message_setup_bloom_frame (m : sd_bus_message) :
    (bus_message_setup_bloom m).2.1
      = { m with rindex := (bus_message_setup_bloom m).2.1.rindex } := by
  unfold bus_message_setup_bloom
  simp only
  split_ifs with h
  · rfl
  · rw [bus_message_setup_bloom_args_frame]
    unfold sd_bus_message_rewind
    split_ifs <;> rfl

/-- The shape of the item list a successful transcoding leaves. -/
theorem setup_kmsg_emit_items (o : bus_world) (m : sd_bus_message) (wk : Bool) (unique : Nat)
    (h : (setup_kmsg_emit o m wk unique).1 = 0) :
    ∃ (k : kdbus_msg) (bl : bloom_filter),
      (setup_kmsg_emit o m wk unique).2.kdbus = some k ∧
      k.dst_id = (setup_kmsg_record m wk unique).dst_id ∧
      k.items =
        (if wk then [destination_item (m.destination.getD [])] else []) ++
        payload_vec_item m.header_ptr (BUS_MESSAGE_BODY_BEGIN m) ::
          ((setup_kmsg_emit o m wk unique).2.body_parts.map (part_item m.destination.isSome)) ++
        (if (setup_kmsg_record m wk unique).dst_id = KDBUS_DST_ID_BROADCAST
          then [bloom_item bl] else []) ++
        (if m.fds.length > 0 then [fds_item m.fds] else []) ∧
      List.Forall₂ same_part m.body_parts (setup_kmsg_emit o m wk unique).2.body_parts ∧
      ∃ w0 : item_cursor,
        0 ≤ (setup_kmsg_parts o m.destination.isSome w0 m.body_parts).1 ∧
        (setup_kmsg_emit o m wk unique).2.body_parts
          = (setup_kmsg_parts o m.destination.isSome w0 m.body_parts).2.2 := by
  unfold setup_kmsg_emit at h ⊢
  simp only at h ⊢
  by_cases h1 : ¬ o.memalign_ok (setup_kmsg_sz m wk) = true
  · rw [if_pos h1] at h; simp [ENOMEM] at h
  · rw [if_neg h1] at h ⊢
    generalize hw0 : (append_payload_vec
      (if wk = true then
        append_destination { d := offsetof_kdbus_msg_items, items := [] } (m.destination.getD [])
          (m.destination.getD []).length
      else { d := offsetof_kdbus_msg_items, items := [] })
      m.header_ptr (BUS_MESSAGE_BODY_BEGIN m)) = w0 at h ⊢
    have hw0i : w0.items = (if wk then [destination_item (m.destination.getD [])] else []) ++
        [payload_vec_item m.header_ptr (BUS_MESSAGE_BODY_BEGIN m)] := by
      rw [← hw0]
      cases wk <;> simp [append_payload_vec, append_destination, destination_item,
        payload_vec_item]
    generalize setup_kmsg_record m wk unique = k0 at h ⊢
    by_cases h2 : (setup_kmsg_parts o m.destination.isSome w0 m.body_parts).1 < 0
    · rw [if_pos h2] at h; simp only at h; omega
    · rw [if_neg h2] at h ⊢
      obtain ⟨pi, pf⟩ := setup_kmsg_parts_items o m.destination.isSome m.body_parts w0
        (by omega)
      have hfds : ∀ w : item_cursor, (if m.fds.length > 0 then append_fds w m.fds m.fds.length
          else w).items = w.items ++ (if m.fds.length > 0 then [fds_item m.fds] else []) := by
        intro w
        by_cases hf : m.fds.length > 0
        · simp [hf, append_fds, fds_item]
        · simp [hf]
      by_cases h3 : k0.dst_id = KDBUS_DST_ID_BROADCAST
      · rw [if_pos h3] at h ⊢
        generalize hbl : bus_message_setup_bloom
          { m with body_parts := (setup_kmsg_parts o m.destination.isSome w0 m.body_parts).2.2,
                   free_kdbus := true } = bl at h ⊢
        have hframe := bus_message_setup_bloom_frame
          { m with body_parts := (setup_kmsg_parts o m.destination.isSome w0 m.body_parts).2.2,
                   free_kdbus := true }
        rw [hbl] at hframe
        by_cases h4 : bl.1 < 0
        · rw [if_pos h4] at h; simp only at h; omega
        · rw [if_neg h4] at h ⊢
          refine ⟨_, bl.2.2, rfl, rfl, ?_, ?_, w0, by omega, ?_⟩
          · simp only [hfds, append_bloom, fill_bloom_concat, pi, hw0i, h3, if_true]
            rw [hframe]
            simp [bloom_item]
          · rw [hframe]
            exact pf
          · rw [hframe]
      · rw [if_neg h3] at h ⊢
        refine ⟨_, [], rfl, rfl, ?_, pf, w0, by omega, rfl⟩
        simp only [hfds, pi, hw0i, h3, if_false]
        simp

theorem part_item_type (hd : Bool) (p : bus_body_part) :
    (part_item hd p).type = KDBUS_ITEM_PAYLOAD_VEC ∨
    (part_item hd p).type = KDBUS_ITEM_PAYLOAD_MEMFD := by
  unfold part_item
  split_ifs
  · left; rfl
  · right; rfl
  · left; rfl

theorem filter_part_items (hd : Bool) (ps : List bus_body_part) (t : Nat)
    (h1 : t ≠ KDBUS_ITEM_PAYLOAD_VEC) (h2 : t ≠ KDBUS_ITEM_PAYLOAD_MEMFD) :
    (ps.map (part_item hd)).filter (fun d => d.type = t) = [] := by
  rw [List.filter_eq_nil_iff]
  intro d hd'
  obtain ⟨p, _, rfl⟩ := List.mem_map.mp hd'
  rcases part_item_type hd p with h | h <;> simp [h, Ne.symm h1, Ne.symm h2]

theorem parse_unique_name_status (s : cstr) (id : Nat) :
    (startswith s ":1.".data = none ∧ bus_kernel_parse_unique_name s id = (0, id)) ∨
    (∃ rest, startswith s ":1.".data = some rest ∧ (safe_atou64 rest id).1 < 0 ∧
      bus_kernel_parse_unique_name s id = ((safe_atou64 rest id).1, id)) ∨
    (∃ rest n, startswith s ":1.".data = some rest ∧ bus_kernel_parse_unique_name s id = (1, n)) := by
  unfold bus_kernel_parse_unique_name
  cases hs : startswith s ":1.".data with
  | none => left; exact ⟨rfl, rfl⟩
  | some rest =>
    right
    simp only
    by_cases hr : (safe_atou64 rest id).1 < 0
    · left
      refine ⟨rest, rfl, hr, ?_⟩
      rw [if_pos hr]
      have : (safe_atou64 rest id).2 = id := by
        unfold safe_atou64 at hr ⊢
        split_ifs at hr ⊢ with c1 c2
        · rfl
        · rfl
        · simp at hr
      rw [this]
    · right
      exact ⟨rest, _, rfl, by rw [if_neg hr]⟩

/-- The items an emitted list holds under the tags destination-name and
bloom, and the destination id, for each destination kind. -/
theorem setup_kmsg_emit_counts (o : bus_world) (m : sd_bus_message) (wk : Bool) (unique : Nat)
    (h : (setup_kmsg_emit o m wk unique).1 = 0) :
    ∃ k : kdbus_msg,
      (setup_kmsg_emit o m wk unique).2.kdbus = some k ∧
      k.dst_id = (setup_kmsg_record m wk unique).dst_id ∧
      k.items.filter (fun d => d.type = KDBUS_ITEM_DST_NAME)
        = (if wk then [destination_item (m.destination.getD [])] else []) ∧
      count_items KDBUS_ITEM_BLOOM k.items
        = (if k.dst_id = KDBUS_DST_ID_BROADCAST then 1 else 0) := by
  obtain ⟨k, bl, h1, h2, h3, _, _⟩ := setup_kmsg_emit_items o m wk unique h
  have t1 : (payload_vec_item m.header_ptr (BUS_MESSAGE_BODY_BEGIN m)).type
      = KDBUS_ITEM_PAYLOAD_VEC := rfl
  have t2 : (destination_item (m.destination.getD [])).type = KDBUS_ITEM_DST_NAME := rfl
  have t3 : (bloom_item bl).type = KDBUS_ITEM_BLOOM := rfl
  have t4 : (fds_item m.fds).type = KDBUS_ITEM_FDS := rfl
  have n1 : KDBUS_ITEM_PAYLOAD_VEC ≠ KDBUS_ITEM_DST_NAME := by decide
  have n2 : KDBUS_ITEM_BLOOM ≠ KDBUS_ITEM_DST_NAME := by decide
  have n3 : KDBUS_ITEM_FDS ≠ KDBUS_ITEM_DST_NAME := by decide
  have n4 : KDBUS_ITEM_PAYLOAD_VEC ≠ KDBUS_ITEM_BLOOM := by decide
  have n5 : KDBUS_ITEM_DST_NAME ≠ KDBUS_ITEM_BLOOM := by decide
  have n6 : KDBUS_ITEM_FDS ≠ KDBUS_ITEM_BLOOM := by decide
  have p1 := filter_part_items m.destination.isSome
    (setup_kmsg_emit o m wk unique).2.body_parts KDBUS_ITEM_DST_NAME (by decide) (by decide)
  have p2 := filter_part_items m.destination.isSome
    (setup_kmsg_emit o m wk unique).2.body_parts KDBUS_ITEM_BLOOM (by decide) (by decide)
  refine ⟨k, h1, h2, ?_, ?_⟩
  · rw [h3]
    generalize (setup_kmsg_record m wk unique).dst_id = D
    cases wk <;>
      by_cases hb : D = KDBUS_DST_ID_BROADCAST <;>
      by_cases hf : m.fds.length > 0 <;>
      simp [hb, hf, List.filter_append, List.filter_cons, t1, t2, t3, t4, n1, n2, n3, p1]
  · rw [h2]
    unfold count_items
    rw [h3]
    generalize (setup_kmsg_record m wk unique).dst_id = D
    cases wk <;>
      by_cases hb : D = KDBUS_DST_ID_BROADCAST <;>
      by_cases hf : m.fds.length > 0 <;>
      simp [hb, hf, List.filter_append, List.filter_cons, t1, t2, t3, t4, n4, n5, n6, p2]

/-! ### Message transcoder: destination kind and bloom item -/

/-- On a message that has no kernel record yet, `bus_message_setup_kmsg`
either stops at a destination that starts with `":1."` without being a unique
name, or emits for the destination kind it has determined. -/
theorem setup_kmsg_cases (o : bus_world) (m : sd_bus_message) (hk : m.kdbus = none) :
    (m.destination = none ∧ bus_message_setup_kmsg o m = setup_kmsg_emit o m false 0) ∨
    (∃ dst, m.destination = some dst ∧ startswith dst ":1.".data = none ∧
      bus_message_setup_kmsg o m = setup_kmsg_emit o m true 0) ∨
    (∃ dst rest, m.destination = some dst ∧ startswith dst ":1.".data = some rest ∧
      (safe_atou64 rest 0).1 < 0 ∧
      bus_message_setup_kmsg o m = ((safe_atou64 rest 0).1, m)) ∨
    (∃ dst n, m.destination = some dst ∧ bus_kernel_parse_unique_name dst 0 = (1, n) ∧
      bus_message_setup_kmsg o m = setup_kmsg_emit o m false n) := by
  unfold bus_message_setup_kmsg
  simp only [hk, Option.isSome_none, Bool.false_eq_true, if_false]
  cases hd : m.destination with
  | none => left; exact ⟨rfl, rfl⟩
  | some dst =>
    right
    simp only
    rcases parse_unique_name_status dst 0 with ⟨h1, h2⟩ | ⟨rest, h1, h2, h3⟩ | ⟨rest, n, h1, h2⟩
    · left
      refine ⟨dst, rfl, h1, ?_⟩
      rw [h2]; rfl
    · right; left
      refine ⟨dst, rest, rfl, h1, h2, ?_⟩
      rw [h3, if_pos h2]
    · right; right
      refine ⟨dst, n, rfl, h2, ?_⟩
      rw [h2]; rfl

/-- The bloom item of an emitted list goes with the destination id: a
successful transcoding leaves exactly one bloom item when the destination id
it wrote is the broadcast sentinel and none otherwise; a broadcast-destined
message (no destination) gets the broadcast sentinel, and a well-known
destination never does. -/
theorem setup_kmsg_bloom_by_dst_id (o : bus_world) (m : sd_bus_message) (hk : m.kdbus = none)
    (h : (bus_message_setup_kmsg o m).1 = 0) :
    ∃ k : kdbus_msg, (bus_message_setup_kmsg o m).2.kdbus = some k ∧
      count_items KDBUS_ITEM_BLOOM k.items
        = (if k.dst_id = KDBUS_DST_ID_BROADCAST then 1 else 0) ∧
      (m.destination = none → k.dst_id = KDBUS_DST_ID_BROADCAST) ∧
      (∀ dst, m.destination = some dst → startswith dst ":1.".data = none →
        k.dst_id ≠ KDBUS_DST_ID_BROADCAST) ∧
      (∀ dst n, m.destination = some dst → bus_kernel_parse_unique_name dst 0 = (1, n) →
        k.dst_id = n) := by
  rcases setup_kmsg_cases o m hk with ⟨hd, he⟩ | ⟨dst, hd, hs, he⟩ | ⟨dst, rest, hd, hs, hr, he⟩ |
    ⟨dst, n, hd, hp, he⟩
  · rw [he] at h ⊢
    obtain ⟨k, k1, k2, _, k4⟩ := setup_kmsg_emit_counts o m false 0 h
    refine ⟨k, k1, k4, ?_, ?_, ?_⟩
    · intro _; rw [k2]; simp [setup_kmsg_record, hd]
    · intro dst hd'; rw [hd] at hd'; cases hd'
    · intro dst n hd'; rw [hd] at hd'; cases hd'
  · rw [he] at h ⊢
    obtain ⟨k, k1, k2, _, k4⟩ := setup_kmsg_emit_counts o m true 0 h
    refine ⟨k, k1, k4, ?_, ?_, ?_⟩
    · intro hd'; rw [hd] at hd'; cases hd'
    · intro _ _ _; rw [k2]; simp [setup_kmsg_record, KDBUS_DST_ID_BROADCAST]
    · intro dst' n hd' hp
      rw [hd] at hd'; cases hd'
      rcases parse_unique_name_status dst 0 with ⟨_, h2⟩ | ⟨r, h1, _⟩ | ⟨r, _, h1, _⟩
      · rw [h2] at hp; cases hp
      · rw [hs] at h1; cases h1
      · rw [hs] at h1; cases h1
  · rw [he] at h; simp only at h; omega
  · rw [he] at h ⊢
    obtain ⟨k, k1, k2, _, k4⟩ := setup_kmsg_emit_counts o m false n h
    refine ⟨k, k1, k4, ?_, ?_, ?_⟩
    · intro hd'; rw [hd] at hd'; cases hd'
    · intro dst' hd' hs
      rw [hd] at hd'; cases hd'
      rcases parse_unique_name_status dst 0 with ⟨_, h2⟩ | ⟨r, h1, _⟩ | ⟨r, _, h1, _⟩
      · rw [h2] at hp; cases hp
      · rw [hs] at h1; cases h1
      · rw [hs] at h1; cases h1
    · intro dst' n' hd' hp'
      rw [hd] at hd'; cases hd'
      rw [hp] at hp'; cases hp'
      rw [k2]; simp [setup_kmsg_record, hd]

/-- C1, at the failing input: a sealed method call addressed to the unique
name `":1.18446744073709551615"` is a unicast message, yet the transcoder
succeeds, writes the broadcast sentinel as its destination id and emits one
bloom item. -/
theorem setup_kmsg_sentinel_unicast_bloom :
    sample_sentinel_call.sealed = true ∧
    sample_sentinel_call.destination = some ":1.18446744073709551615".data ∧
    (bus_message_setup_kmsg sample_world sample_sentinel_call).1 = 0 ∧
    (bus_message_setup_kmsg sample_world sample_sentinel_call).2.kdbus.map
        (fun k => (k.dst_id, count_items KDBUS_ITEM_BLOOM k.items))
      = some (KDBUS_DST_ID_BROADCAST, 1) := by
  decide

/-- C5, as stated, fails: a destination that starts with `":1."` but is not
followed by a numeral is not treated as well-known: the transcoder returns
the parse error and builds no kernel message at all. -/
theorem setup_kmsg_destination_kind_counterexample :
    sample_malformed_call.destination = some ":1.x".data ∧
    bus_message_setup_kmsg sample_world sample_malformed_call
      = (-EINVAL, sample_malformed_call) ∧
    sample_malformed_call.kdbus = none := by
  decide

/-- C5 (amended): for every sealed message that has no kernel record yet,
`bus_message_setup_kmsg` determines the destination kind as follows.  A
destination that matches the unique-id grammar gives a kernel destination id
equal to the decoded number and no destination-name item.  A destination that
does not start with `":1."` is treated as well-known, giving destination id 0
and exactly one destination-name item holding the string.  A destination that
starts with `":1."` but is not followed by a valid numeral makes the function
return the error of the conversion, leaving the message as it was.  An absent
destination gives the broadcast sentinel id and no destination-name item. -/
theorem setup_kmsg_destination_kind (o : bus_world) (m : sd_bus_message)
    (_hs : m.sealed = true) (hk : m.kdbus = none) :
    (∀ dst n, m.destination = some dst → bus_kernel_parse_unique_name dst 0 = (1, n) →
      (bus_message_setup_kmsg o m).1 = 0 →
      ∃ k, (bus_message_setup_kmsg o m).2.kdbus = some k ∧ k.dst_id = n ∧
        count_items KDBUS_ITEM_DST_NAME k.items = 0) ∧
    (∀ dst, m.destination = some dst → startswith dst ":1.".data = none →
      (bus_message_setup_kmsg o m).1 = 0 →
      ∃ k, (bus_message_setup_kmsg o m).2.kdbus = some k ∧ k.dst_id = 0 ∧
        k.items.filter (fun d => d.type = KDBUS_ITEM_DST_NAME) = [destination_item dst]) ∧
    (∀ dst rest, m.destination = some dst → startswith dst ":1.".data = some rest →
      (safe_atou64 rest 0).1 < 0 →
      bus_message_setup_kmsg o m = ((safe_atou64 rest 0).1, m)) ∧
    (m.destination = none → (bus_message_setup_kmsg o m).1 = 0 →
      ∃ k, (bus_message_setup_kmsg o m).2.kdbus = some k ∧
        k.dst_id = KDBUS_DST_ID_BROADCAST ∧ count_items KDBUS_ITEM_DST_NAME k.items = 0) := by
  have hcases := setup_kmsg_cases o m hk
  refine ⟨?_, ?_, ?_, ?_⟩
  · intro dst n hd hp h
    rcases hcases with ⟨hd', _⟩ | ⟨dst', hd', hs', _⟩ | ⟨dst', rest, hd', hs', hr, he⟩ |
      ⟨dst', n', hd', hp', he⟩
    · rw [hd] at hd'; cases hd'
    · rw [hd] at hd'; cases hd'
      rcases parse_unique_name_status dst 0 with ⟨_, h2⟩ | ⟨r, h1, _⟩ | ⟨r, _, h1, _⟩
      · rw [h2] at hp; cases hp
      · rw [hs'] at h1; cases h1
      · rw [hs'] at h1; cases h1
    · rw [he] at h; simp only at h; omega
    · rw [hd] at hd'; cases hd'
      rw [hp] at hp'; cases hp'
      rw [he] at h ⊢
      obtain ⟨k, k1, k2, k3, _⟩ := setup_kmsg_emit_counts o m false n h
      refine ⟨k, k1, ?_, ?_⟩
      · rw [k2]; simp [setup_kmsg_record, hd]
      · unfold count_items; rw [k3]; rfl
  · intro dst hd hs' h
    rcases hcases with ⟨hd', _⟩ | ⟨dst', hd', _, he⟩ | ⟨dst', rest, hd', hs'', hr, he⟩ |
      ⟨dst', n', hd', hp', he⟩
    · rw [hd] at hd'; cases hd'
    · rw [hd] at hd'; cases hd'
      rw [he] at h ⊢
      obtain ⟨k, k1, k2, k3, _⟩ := setup_kmsg_emit_counts o m true 0 h
      refine ⟨k, k1, ?_, ?_⟩
      · rw [k2]; simp [setup_kmsg_record]
      · rw [k3, hd]; rfl
    · rw [hd] at hd'; cases hd'
      rw [hs'] at hs''; cases hs''
    · rw [hd] at hd'; cases hd'
      rcases parse_unique_name_status dst 0 with ⟨_, h2⟩ | ⟨r, h1, _⟩ | ⟨r, _, h1, _⟩
      · rw [h2] at hp'; cases hp'
      · rw [hs'] at h1; cases h1
      · rw [hs'] at h1; cases h1
  · intro dst rest hd hs' hr
    rcases hcases with ⟨hd', _⟩ | ⟨dst', hd', hs'', _⟩ | ⟨dst', rest', hd', hs'', _, he⟩ |
      ⟨dst', n', hd', hp', he⟩
    · rw [hd] at hd'; cases hd'
    · rw [hd] at hd'; cases hd'
      rw [hs'] at hs''; cases hs''
    · rw [hd] at hd'; cases hd'
      rw [hs'] at hs''; cases hs''
      exact he
    · rw [hd] at hd'; cases hd'
      unfold bus_kernel_parse_unique_name at hp'
      rw [hs'] at hp'
      simp only [if_pos hr] at hp'
      have := congrArg Prod.fst hp'
      simp only at this
      omega
  · intro hd h
    rcases hcases with ⟨_, he⟩ | ⟨dst', hd', _⟩ | ⟨dst', rest, hd', _⟩ | ⟨dst', n', hd', _⟩
    · rw [he] at h ⊢
      obtain ⟨k, k1, k2, k3, _⟩ := setup_kmsg_emit_counts o m false 0 h
      refine ⟨k, k1, ?_, ?_⟩
      · rw [k2]; simp [setup_kmsg_record, hd]
      · unfold count_items; rw [k3]; rfl
    · rw [hd] at hd'; cases hd'
    · rw [hd] at hd'; cases hd'
    · rw [hd] at hd'; cases hd'

theorem setup_kmsg_destination_kind_witness :
    sample_named_call.sealed = true ∧ sample_named_call.kdbus = none ∧
    (∃ k, (bus_message_setup_kmsg sample_world sample_named_call).2.kdbus = some k ∧
      k.dst_id = 0 ∧
      k.items.filter (fun d => d.type = KDBUS_ITEM_DST_NAME)
        = [destination_item "org.foo".data]) ∧
    (∃ k, (bus_message_setup_kmsg sample_world sample_call).2.kdbus = some k ∧
      k.dst_id = 5 ∧ count_items KDBUS_ITEM_DST_NAME k.items = 0) ∧
    bus_message_setup_kmsg sample_world sample_malformed_call
      = ((safe_atou64 "x".data 0).1, sample_malformed_call) :=
  ⟨by decide, by decide,
   (setup_kmsg_destination_kind sample_world sample_named_call (by decide) (by decide)).2.1
     "org.foo".data (by decide) (by decide) (by decide),
   (setup_kmsg_destination_kind sample_world sample_call (by decide) (by decide)).1
     ":1.5".data 5 (by decide) (by decide) (by decide),
   (setup_kmsg_destination_kind sample_world sample_malformed_call (by decide)
     (by decide)).2.2.1 ":1.x".data "x".data (by decide) (by decide) (by decide)⟩

/-! ### Transcoding, delivery and reception -/

theorem payload_size_of_not_payload (d : kdbus_item) (h : is_payload_item d = false) :
    payload_size d = 0 := by
  unfold payload_size
  unfold is_payload_item at h
  simp only [decide_eq_false_iff_not, not_or] at h
  simp [h.1, h.2]

theorem payload_size_sum_filter (items : List kdbus_item) :
    payload_size_sum items = payload_size_sum (items.filter is_payload_item) := by
  induction items with
  | nil => rfl
  | cons d ds ih =>
    by_cases hp : is_payload_item d = true
    · simp only [List.filter_cons, hp, if_true]
      simp only [payload_size_sum, List.map_cons, List.sum_cons] at ih ⊢
      rw [ih]
    · have hp' : is_payload_item d = false := by simpa using hp
      simp only [List.filter_cons, hp', Bool.false_eq_true, if_false]
      simp only [payload_size_sum, List.map_cons, List.sum_cons] at ih ⊢
      rw [payload_size_of_not_payload d hp', ih]
      simp

theorem make_message_item_skip (o : bus_world) (bus : sd_bus) (st : make_pass2)
    (d : kdbus_item) (h : is_payload_item d = false) :
    (make_message_item o bus st d).1 = 0 ∧
    (make_message_item o bus st d).2.idx = st.idx ∧
    (make_message_item o bus st d).2.m.body_parts = st.m.body_parts ∧
    (make_message_item o bus st d).2.m.header = st.m.header := by
  unfold is_payload_item at h
  simp only [decide_eq_false_iff_not, not_or] at h
  unfold make_message_item
  rw [if_neg h.1, if_neg h.2]
  by_cases h3 : d.type = KDBUS_ITEM_DST_NAME
  · rw [if_pos h3]; exact ⟨rfl, rfl, rfl, rfl⟩
  · rw [if_neg h3]
    obtain ⟨a, b, _⟩ := make_message_hydrate_header bus st.m d
    exact ⟨rfl, rfl, b, a⟩

theorem make_message_item_exact (o : bus_world) (bus : sd_bus) (st : make_pass2)
    (d : kdbus_item) (happend : ∀ x, o.append_part_ok x = true)
    (hidx : BUS_MESSAGE_BODY_BEGIN st.m ≤ st.idx) (hp : is_payload_item d = true)
    (hpos : 0 < payload_size d) (hfit : st.idx + payload_size d < U64) :
    make_message_item o bus st d =
      (0, { st with m := { st.m with body_parts := st.m.body_parts ++ [received_part bus d] }
                    idx := st.idx + payload_size d }) := by
  unfold is_payload_item at hp
  simp only [decide_eq_true_eq] at hp
  unfold make_message_item received_part
  unfold payload_size at hpos hfit ⊢
  by_cases h1 : d.type = KDBUS_ITEM_PAYLOAD_OFF
  · simp only [if_pos h1] at hpos hfit ⊢
    unfold make_message_payload_off
    simp only [Nat.mod_eq_of_lt hfit, happend]
    have c1 : st.idx + d.vec.size > BUS_MESSAGE_BODY_BEGIN st.m := by omega
    simp [c1, hidx]
  · have h2 : d.type = KDBUS_ITEM_PAYLOAD_MEMFD := by tauto
    simp only [if_neg h1, if_pos h2] at hpos hfit ⊢
    unfold make_message_payload_memfd
    simp only [Nat.mod_eq_of_lt hfit, happend]
    have c1 : ¬ st.idx < BUS_MESSAGE_BODY_BEGIN st.m := by omega
    simp [c1]

theorem make_message_pass2_exact (o : bus_world) (bus : sd_bus)
    (happend : ∀ x, o.append_part_ok x = true) (items : List kdbus_item) (st : make_pass2)
    (hidx : BUS_MESSAGE_BODY_BEGIN st.m ≤ st.idx)
    (hpos : ∀ d ∈ items.filter is_payload_item, 0 < payload_size d)
    (hfit : st.idx + payload_size_sum items < U64) :
    (make_message_pass2 o bus st items).1 = 0 ∧
    (make_message_pass2 o bus st items).2.m.body_parts
      = st.m.body_parts ++ (items.filter is_payload_item).map (received_part bus) ∧
    (make_message_pass2 o bus st items).2.m.header = st.m.header := by
  induction items generalizing st with
  | nil => simp [make_message_pass2]
  | cons d ds ih =>
    have hsum : payload_size_sum (d :: ds) = payload_size d + payload_size_sum ds := by
      simp [payload_size_sum]
    rw [hsum] at hfit
    unfold make_message_pass2
    simp only
    by_cases hp : is_payload_item d = true
    · have hd : 0 < payload_size d := hpos d (by simp [List.filter_cons, hp])
      rw [make_message_item_exact o bus st d happend hidx hp hd (by omega)]
      simp only [lt_self_iff_false, if_false]
      have hbb : BUS_MESSAGE_BODY_BEGIN
          { st.m with body_parts := st.m.body_parts ++ [received_part bus d] }
          = BUS_MESSAGE_BODY_BEGIN st.m := rfl
      obtain ⟨a, b, c⟩ := ih
        { st with m := { st.m with body_parts := st.m.body_parts ++ [received_part bus d] }
                  idx := st.idx + payload_size d }
        (by simp only [hbb]; omega)
        (fun e he => hpos e (by simp only [List.filter_cons, hp, if_true]; exact List.mem_cons_of_mem _ he))
        (by simp only; omega)
      refine ⟨a, ?_, c⟩
      rw [b]
      simp [List.filter_cons, hp]
    · have hp' : is_payload_item d = false := by simpa using hp
      obtain ⟨s1, s2, s3, s4⟩ := make_message_item_skip o bus st d hp'
      simp only [s1, lt_self_iff_false, if_false]
      have hbb : BUS_MESSAGE_BODY_BEGIN (make_message_item o bus st d).2.m
          = BUS_MESSAGE_BODY_BEGIN st.m := by
        unfold BUS_MESSAGE_BODY_BEGIN; rw [s4]
      obtain ⟨a, b, c⟩ := ih (make_message_item o bus st d).2
        (by rw [hbb, s2]; exact hidx)
        (fun e he => hpos e (by simp only [List.filter_cons, hp', Bool.false_eq_true, if_false]; exact he))
        (by rw [s2]; omega)
      refine ⟨a, ?_, by rw [c, s4]⟩
      rw [b, s3]
      simp [List.filter_cons, hp']

theorem make_message_pass2_from_start (o : bus_world) (bus : sd_bus)
    (happend : ∀ x, o.append_part_ok x = true) (items : List kdbus_item) (st : make_pass2)
    (r0 : kdbus_item) (rs : List kdbus_item)
    (hidx : st.idx = 0)
    (hfilter : items.filter is_payload_item = r0 :: rs)
    (hr0 : r0.type = KDBUS_ITEM_PAYLOAD_OFF)
    (hr0s : r0.vec.size = BUS_MESSAGE_BODY_BEGIN st.m)
    (hpos : ∀ d ∈ rs, 0 < payload_size d)
    (hfit : payload_size_sum items < U64) :
    (make_message_pass2 o bus st items).1 = 0 ∧
    (make_message_pass2 o bus st items).2.m.body_parts
      = st.m.body_parts ++ rs.map (received_part bus) ∧
    (make_message_pass2 o bus st items).2.m.header = st.m.header := by
  induction items generalizing st with
  | nil => simp at hfilter
  | cons d ds ih =>
    have hsum : payload_size_sum (d :: ds) = payload_size d + payload_size_sum ds := by
      simp [payload_size_sum]
    rw [hsum] at hfit
    unfold make_message_pass2
    simp only
    by_cases hp : is_payload_item d = true
    · simp only [List.filter_cons, hp, if_true, List.cons.injEq] at hfilter
      obtain ⟨rfl, hrs⟩ := hfilter
      have hps : payload_size d = d.vec.size := by simp [payload_size, hr0]
      have hstep : make_message_item o bus st d = (0, { st with idx := d.vec.size }) := by
        unfold make_message_item
        rw [if_pos hr0]
        unfold make_message_payload_off
        have hlt : (st.idx + d.vec.size) % U64 = d.vec.size := by
          rw [hidx, Nat.zero_add]; exact Nat.mod_eq_of_lt (by omega)
        have c : ¬ d.vec.size > BUS_MESSAGE_BODY_BEGIN st.m := by omega
        simp only [hlt, if_neg c]
      rw [hstep]
      simp only [lt_self_iff_false, if_false]
      have := make_message_pass2_exact o bus happend ds { st with idx := d.vec.size }
        (by simp only; omega) (by rw [hrs]; exact hpos) (by simp only; omega)
      rw [hrs] at this
      exact this
    · have hp' : is_payload_item d = false := by simpa using hp
      simp only [List.filter_cons, hp', Bool.false_eq_true, if_false] at hfilter
      obtain ⟨s1, s2, s3, s4⟩ := make_message_item_skip o bus st d hp'
      simp only [s1, lt_self_iff_false, if_false]
      have hbb : BUS_MESSAGE_BODY_BEGIN (make_message_item o bus st d).2.m
          = BUS_MESSAGE_BODY_BEGIN st.m := by
        unfold BUS_MESSAGE_BODY_BEGIN; rw [s4]
      obtain ⟨a, b, c⟩ := ih (make_message_item o bus st d).2 (by rw [s2]; exact hidx) hfilter
        (by rw [hbb]; exact hr0s) (by omega)
      exact ⟨a, by rw [b, s3], by rw [c, s4]⟩

theorem bus_body_part_map_data (o : bus_world)
    (hmap : ∀ p, 0 ≤ (o.part_map p).1 → (o.part_map p).2 ≠ 0) (part : bus_body_part)
    (h : ¬ (bus_body_part_map o part).1 < 0) : (bus_body_part_map o part).2.data ≠ 0 := by
  unfold bus_body_part_map at h ⊢
  by_cases h1 : part.data ≠ 0
  · simp only [if_pos h1]; exact h1
  · simp only [if_neg h1] at h ⊢
    by_cases h2 : (o.part_map part).1 < 0
    · simp only [if_pos h2] at h; exact absurd h2 h
    · simp only [if_neg h2]
      exact hmap part (by omega)

/-- Every part the transcoder sends as a payload vector with data has been
mapped: its data address is not null. -/
theorem setup_kmsg_parts_mapped (o : bus_world)
    (hmap : ∀ p, 0 ≤ (o.part_map p).1 → (o.part_map p).2 ≠ 0) (hd : Bool)
    (parts : List bus_body_part) (w : item_cursor)
    (h : 0 ≤ (setup_kmsg_parts o hd w parts).1) :
    ∀ p ∈ (setup_kmsg_parts o hd w parts).2.2,
      p.is_zero = false → ¬ (p.memfd ≥ 0 ∧ p.sealed = true ∧ hd = true) → p.data ≠ 0 := by
  induction parts generalizing w with
  | nil => simp [setup_kmsg_parts]
  | cons p ps ih =>
    unfold setup_kmsg_parts at h ⊢
    by_cases h1 : p.is_zero = true
    · simp only [if_pos h1] at h ⊢
      intro q hq hz hm
      rcases List.mem_cons.mp hq with rfl | hq
      · rw [h1] at hz; cases hz
      · exact ih _ h q hq hz hm
    · simp only [if_neg h1] at h ⊢
      by_cases h2 : p.memfd ≥ 0 ∧ p.sealed = true ∧ hd = true
      · simp only [if_pos h2] at h ⊢
        intro q hq hz hm
        rcases List.mem_cons.mp hq with rfl | hq
        · exact absurd h2 hm
        · exact ih _ h q hq hz hm
      · simp only [if_neg h2] at h ⊢
        by_cases h3 : (bus_body_part_map o p).1 < 0
        · simp only [if_pos h3] at h; omega
        · simp only [if_neg h3] at h ⊢
          intro q hq hz hm
          rcases List.mem_cons.mp hq with rfl | hq
          · exact bus_body_part_map_data o hmap p h3
          · exact ih _ h q hq hz hm

theorem part_item_sent (hd : Bool) (p : bus_body_part) :
    is_sent_payload (part_item hd p) = true := by
  unfold is_sent_payload
  rcases part_item_type hd p with h | h <;> simp [h]

theorem filter_sent_part_items (hd : Bool) (ps : List bus_body_part) :
    (ps.map (part_item hd)).filter is_sent_payload = ps.map (part_item hd) := by
  rw [List.filter_eq_self]
  intro d hd'
  obtain ⟨p, _, rfl⟩ := List.mem_map.mp hd'
  exact part_item_sent hd p

/-- What a successful transcoding emits, payload items first: the payload
items are the header vector followed by one item per body part in order; no
item of the list is a pool reference; the parts are the message's own parts,
mapped. -/
theorem setup_kmsg_sent_payload (o : bus_world) (m : sd_bus_message) (hk : m.kdbus = none)
    (h : (bus_message_setup_kmsg o m).1 = 0) :
    ∃ k : kdbus_msg, (bus_message_setup_kmsg o m).2.kdbus = some k ∧
      k.items.filter is_sent_payload
        = payload_vec_item m.header_ptr (BUS_MESSAGE_BODY_BEGIN m) ::
          (bus_message_setup_kmsg o m).2.body_parts.map (part_item m.destination.isSome) ∧
      (∀ d ∈ k.items, d.type ≠ KDBUS_ITEM_PAYLOAD_OFF) ∧
      List.Forall₂ same_part m.body_parts (bus_message_setup_kmsg o m).2.body_parts ∧
      ∃ w0 : item_cursor,
        0 ≤ (setup_kmsg_parts o m.destination.isSome w0 m.body_parts).1 ∧
        (bus_message_setup_kmsg o m).2.body_parts
          = (setup_kmsg_parts o m.destination.isSome w0 m.body_parts).2.2 := by
  have key : ∀ wk unique, bus_message_setup_kmsg o m = setup_kmsg_emit o m wk unique →
      ∃ k : kdbus_msg, (bus_message_setup_kmsg o m).2.kdbus = some k ∧
      k.items.filter is_sent_payload
        = payload_vec_item m.header_ptr (BUS_MESSAGE_BODY_BEGIN m) ::
          (bus_message_setup_kmsg o m).2.body_parts.map (part_item m.destination.isSome) ∧
      (∀ d ∈ k.items, d.type ≠ KDBUS_ITEM_PAYLOAD_OFF) ∧
      List.Forall₂ same_part m.body_parts (bus_message_setup_kmsg o m).2.body_parts ∧
      ∃ w0 : item_cursor,
        0 ≤ (setup_kmsg_parts o m.destination.isSome w0 m.body_parts).1 ∧
        (bus_message_setup_kmsg o m).2.body_parts
          = (setup_kmsg_parts o m.destination.isSome w0 m.body_parts).2.2 := by
    intro wk unique he
    rw [he] at h ⊢
    obtain ⟨k, bl, h1, _, h3, h4, h5⟩ := setup_kmsg_emit_items o m wk unique h
    have t1 : (payload_vec_item m.header_ptr (BUS_MESSAGE_BODY_BEGIN m)).type
        = KDBUS_ITEM_PAYLOAD_VEC := rfl
    have t2 : (destination_item (m.destination.getD [])).type = KDBUS_ITEM_DST_NAME := rfl
    have t3 : (bloom_item bl).type = KDBUS_ITEM_BLOOM := rfl
    have t4 : (fds_item m.fds).type = KDBUS_ITEM_FDS := rfl
    refine ⟨k, h1, ?_, ?_, h4, h5⟩
    · rw [h3]
      generalize (setup_kmsg_record m wk unique).dst_id = D
      have p1 := filter_sent_part_items m.destination.isSome
        (setup_kmsg_emit o m wk unique).2.body_parts
      cases wk <;> by_cases hb : D = KDBUS_DST_ID_BROADCAST <;>
        by_cases hf : m.fds.length > 0 <;>
        simp [hb, hf, List.filter_append, List.filter_cons, p1, is_sent_payload, t1, t2, t3, t4,
          KDBUS_ITEM_DST_NAME, KDBUS_ITEM_PAYLOAD_VEC, KDBUS_ITEM_PAYLOAD_MEMFD, KDBUS_ITEM_BLOOM,
          KDBUS_ITEM_FDS]
    · intro d hd
      rw [h3] at hd
      simp only [List.mem_append, List.mem_cons, List.mem_map] at hd
      rcases hd with ((hd | hd | ⟨p, _, rfl⟩) | hd) | hd
      · split_ifs at hd
        · simp only [List.mem_singleton] at hd; rw [hd, t2]; decide
        · simp at hd
      · rw [hd, t1]; decide
      · rcases part_item_type m.destination.isSome p with ht | ht <;> rw [ht] <;> decide
      · split_ifs at hd
        · simp only [List.mem_singleton] at hd; rw [hd, t3]; decide
        · simp at hd
      · split_ifs at hd
        · simp only [List.mem_singleton] at hd; rw [hd, t4]; decide
        · simp at hd
  rcases setup_kmsg_cases o m hk with ⟨_, he⟩ | ⟨dst, _, _, he⟩ | ⟨dst, rest, _, _, hr, he⟩ |
    ⟨dst, n, _, _, he⟩
  · exact key _ _ he
  · exact key _ _ he
  · rw [he] at h; simp only at h; omega
  · exact key _ _ he

theorem find?_eq_head?_filter (p : kdbus_item → Bool) (l : List kdbus_item) :
    l.find? p = (l.filter p).head? := by
  induction l with
  | nil => rfl
  | cons a l ih =>
    by_cases h : p a = true
    · rw [List.find?_cons_of_pos _ h, List.filter_cons_of_pos h]; rfl
    · rw [List.find?_cons_of_neg _ h, List.filter_cons_of_neg h]; exact ih

theorem ALIGN8_ge (l : Nat) : l ≤ ALIGN8 l := by
  unfold ALIGN8; omega

/-- What the receiver makes of the delivery of one body part. -/
theorem delivered_part (mem : transfer_memory) (bus : sd_bus) (hd : Bool)
    (p : bus_body_part) (r : kdbus_item)
    (hdel : kernel_delivers mem bus (part_item hd p) r)
    (hmapped : p.is_zero = false → ¬ (p.memfd ≥ 0 ∧ p.sealed = true ∧ hd = true) → p.data ≠ 0) :
    is_payload_item r = true ∧ payload_size r = p.size ∧
    same_content mem hd p (received_part bus r) := by
  unfold kernel_delivers part_item at hdel
  unfold same_content received_content sent_content received_part payload_size is_payload_item
  by_cases hz : p.is_zero = true
  · simp only [hz, if_true] at hdel ⊢
    rcases hdel with ⟨_, h2, h3, h4⟩ | ⟨h1, _⟩
    · rcases h4 with ⟨_, h5⟩ | ⟨h5, _⟩
      · simp only [payload_vec_item] at h3
        simp [h2, h3, h5]
      · exact absurd rfl h5
    · exact absurd h1 (by simp [payload_vec_item, KDBUS_ITEM_PAYLOAD_VEC,
        KDBUS_ITEM_PAYLOAD_MEMFD])
  · have hz' : p.is_zero = false := by simpa using hz
    simp only [hz', Bool.false_eq_true, if_false] at hdel ⊢
    by_cases hm : p.memfd ≥ 0 ∧ p.sealed = true ∧ hd = true
    · simp only [if_pos hm] at hdel ⊢
      rcases hdel with ⟨h1, _⟩ | ⟨_, h2, h3, h4, h5⟩
      · exact absurd h1 (by simp [payload_memfd_item, KDBUS_ITEM_PAYLOAD_VEC,
          KDBUS_ITEM_PAYLOAD_MEMFD])
      · simp only [payload_memfd_item] at h3 h5
        have hne : KDBUS_ITEM_PAYLOAD_MEMFD ≠ KDBUS_ITEM_PAYLOAD_OFF := by decide
        simp [h2, hne, h3, h4, h5]
    · simp only [if_neg hm] at hdel ⊢
      have hdata := hmapped hz' hm
      rcases hdel with ⟨_, h2, h3, h4⟩ | ⟨h1, _⟩
      · rcases h4 with ⟨h5, _⟩ | ⟨_, h5, h6⟩
        · exact absurd h5 hdata
        · simp only [payload_vec_item] at h3 h6
          simp [h2, h3, h5, h6]
      · exact absurd h1 (by simp [payload_vec_item, KDBUS_ITEM_PAYLOAD_VEC,
          KDBUS_ITEM_PAYLOAD_MEMFD])

theorem delivered_parts (mem : transfer_memory) (bus : sd_bus) (hd : Bool)
    (ps : List bus_body_part) (rs : List kdbus_item)
    (hdel : List.Forall₂ (fun p r => kernel_delivers mem bus (part_item hd p) r) ps rs)
    (hmapped : ∀ p ∈ ps, p.is_zero = false → ¬ (p.memfd ≥ 0 ∧ p.sealed = true ∧ hd = true) →
      p.data ≠ 0) :
    (∀ d ∈ rs, is_payload_item d = true) ∧
    rs.map payload_size = ps.map (fun p => p.size) ∧
    List.Forall₂ (same_content mem hd) ps (rs.map (received_part bus)) := by
  induction hdel with
  | nil => simp
  | @cons p r ps rs h _ ih =>
    obtain ⟨a1, a2, a3⟩ := delivered_part mem bus hd p r h (hmapped p (by simp))
    obtain ⟨b1, b2, b3⟩ := ih (fun q hq => hmapped q (List.mem_cons_of_mem _ hq))
    refine ⟨?_, ?_, ?_⟩
    · intro d hd'
      rcases List.mem_cons.mp hd' with rfl | hd'
      · exact a1
      · exact b1 d hd'
    · simp [a2, b2]
    · simp only [List.map_cons]
      exact List.Forall₂.cons a3 b3

theorem same_part_sizes (ps qs : List bus_body_part) (h : List.Forall₂ same_part ps qs) :
    qs.map (fun p => p.size) = ps.map (fun p => p.size) := by
  induction h with
  | nil => rfl
  | cons h _ ih => simp [h.1, ih]

/-- A construction whose steps all succeed yields the parsed message. -/
theorem make_message_construct_success (o : bus_world) (bus : sd_bus) (k : kdbus_msg)
    (hp : Nat) (p2 : make_pass2)
    (h1 : (make_message_pass1 o bus {} k.items).1 = 0)
    (h2 : (make_message_pass1 o bus {} k.items).2.h = some hp)
    (h3 : (make_message_pass1 o bus {} k.items).2.n_bytes
      = (bus_header_message_size (o.header_at hp)).2)
    (h4 : 0 ≤ o.from_header_r (o.header_at hp))
    (h5 : make_message_pass2 o bus
      { m := { header := o.header_at hp, header_ptr := hp, sealed := true,
               fds := (make_message_pass1 o bus {} k.items).2.fds,
               label := (make_message_pass1 o bus {} k.items).2.seclabel } } k.items = (0, p2))
    (h6 : 0 ≤ (o.parse_fields p2.m).1) :
    0 ≤ (make_message_construct o bus k).r ∧
    (make_message_construct o bus k).m.body_parts = p2.m.body_parts := by
  have hfh : bus_message_from_header o hp (make_message_pass1 o bus {} k.items).2.fds
      (make_message_pass1 o bus {} k.items).2.seclabel
      = (o.from_header_r (o.header_at hp),
         { header := o.header_at hp, header_ptr := hp, sealed := true,
           fds := (make_message_pass1 o bus {} k.items).2.fds,
           label := (make_message_pass1 o bus {} k.items).2.seclabel }) := by
    unfold bus_message_from_header
    simp only
    rw [if_neg (by omega)]
  have hpf : (bus_message_parse_fields o p2.m).1 = (o.parse_fields p2.m).1 := by
    unfold bus_message_parse_fields
    simp only
    split_ifs <;> rfl
  unfold make_message_construct
  simp only [h1, lt_self_iff_false, if_false, h2, h3, hfh, h5]
  have hsz : ¬ (bus_header_message_size (o.header_at hp)).1 < 0 := by
    simp [bus_header_message_size]
  have hfr : ¬ o.from_header_r (o.header_at hp) < 0 := by omega
  have hpr : ¬ (bus_message_parse_fields o p2.m).1 < 0 := by rw [hpf]; omega
  simp only [if_neg hsz, ne_eq, not_true_eq_false, if_false, if_neg hfr, if_neg hpr]
  exact ⟨by rw [hpf]; exact h6, (bus_message_parse_fields_parts o p2.m).2⟩

/-- C2, as stated, fails: the item list `bus_message_setup_kmsg` produces for
a method call with one 12-byte body part, handed as it is to
`bus_kernel_make_message`, is rejected with -EBADMSG and nothing is enqueued:
the receiver reads payload from pool references, the sender writes payload
vectors. -/
theorem transcode_receive_identical_counterexample :
    (bus_message_setup_kmsg sample_world sample_call).1 = 0 ∧
    (transcoded sample_world sample_call).items.map (fun d => d.type)
      = [KDBUS_ITEM_PAYLOAD_VEC, KDBUS_ITEM_PAYLOAD_VEC] ∧
    bus_kernel_make_message sample_world {} (transcoded sample_world sample_call)
      = { r := -EBADMSG, bus := {}, unref := none } := by
  decide

/-- C2 (amended): for every sealed message with N body parts of sizes
s1..sN (each positive, summing to the body size of the header; zero-fill parts
included) that `bus_message_setup_kmsg` transcodes: the emitted item list
handed byte-identical to `bus_kernel_make_message` is rejected with -EBADMSG;
handed over as the kernel delivers it (each payload vector as a pool
reference of the same size holding a copy of the bytes, or carrying the "no
offset" value for a null address; each payload memfd as a payload memfd
showing the same bytes; the header vector holding the header),
`bus_kernel_make_message` succeeds and reconstructs exactly N body parts with
the same sizes and the same content in the original order; a zero-fill part
of length L is emitted as a payload vector with a null address, without any
backing storage, and comes back as a single zero-fill part of length L. -/
theorem transcode_receive_roundtrip (o : bus_world) (mem : transfer_memory)
    (m : sd_bus_message) (bus : sd_bus) (k' : kdbus_msg)
    (_hs : m.sealed = true) (hk : m.kdbus = none)
    (hpos : ∀ p ∈ m.body_parts, 0 < p.size)
    (hbody : m.header.body_size = body_parts_size m.body_parts)
    (hfs : m.header.fields_size < 2 ^ 32) (hbs : m.header.body_size < 2 ^ 32)
    (hmap : ∀ p, 0 ≤ (o.part_map p).1 → (o.part_map p).2 ≠ 0)
    (hok : (bus_message_setup_kmsg o m).1 = 0)
    (hrealloc : ∀ n, o.realloc_ok n = true)
    (hfrom : 0 ≤ o.from_header_r m.header)
    (happend : ∀ x, o.append_part_ok x = true)
    (hparse : ∀ x, 0 ≤ (o.parse_fields x).1)
    (hdel : List.Forall₂ (kernel_delivers mem bus)
      ((transcoded o m).items.filter is_sent_payload) (k'.items.filter is_payload_item))
    (hhdr : ∀ r, (k'.items.filter is_payload_item).head? = some r →
      o.header_at (bus.kdbus_buffer + r.vec.offset) = m.header) :
    bus_kernel_make_message o bus (transcoded o m)
      = { r := -EBADMSG, bus := bus, unref := none } ∧
    (bus_kernel_make_message o bus k').r = 1 ∧
    ∃ q, (bus_kernel_make_message o bus k').bus = { bus with rqueue := bus.rqueue ++ [q] } ∧
      List.Forall₂ same_part m.body_parts (bus_message_setup_kmsg o m).2.body_parts ∧
      List.Forall₂ (same_content mem m.destination.isSome)
        (bus_message_setup_kmsg o m).2.body_parts q.body_parts ∧
      (∀ p ∈ (bus_message_setup_kmsg o m).2.body_parts, p.is_zero = true →
        payload_vec_item 0 p.size ∈ (transcoded o m).items) := by
  obtain ⟨k, hkm, hsent, hnooff, hsame, w0, hw0, hparts⟩ := setup_kmsg_sent_payload o m hk hok
  have htr : transcoded o m = k := by unfold transcoded; rw [hkm]; rfl
  rw [htr] at hdel ⊢
  -- the emitted list itself is rejected
  have hrej : bus_kernel_make_message o bus k = { r := -EBADMSG, bus := bus, unref := none } := by
    apply make_message_rejects_without_header o bus k hrealloc
    intro d hd
    unfold contains_header
    simp [hnooff d hd]
  -- the delivered payload items
  rw [hsent, List.forall₂_cons_left_iff] at hdel
  obtain ⟨r0, rs, hr0, hrs, hF⟩ := hdel
  rw [List.forall₂_map_left_iff] at hrs
  have hmapped := setup_kmsg_parts_mapped o hmap m.destination.isSome m.body_parts w0 hw0
  rw [← hparts] at hmapped
  obtain ⟨d1, d2, d3⟩ := delivered_parts mem bus m.destination.isSome _ rs hrs hmapped
  have hsizes := same_part_sizes _ _ hsame
  -- the header item
  have hr0' : r0.type = KDBUS_ITEM_PAYLOAD_OFF ∧ r0.vec.size = BUS_MESSAGE_BODY_BEGIN m := by
    rcases hr0 with ⟨_, h2, h3, _⟩ | ⟨h1, _⟩
    · exact ⟨h2, h3⟩
    · exact absurd h1 (by simp [payload_vec_item, KDBUS_ITEM_PAYLOAD_VEC,
        KDBUS_ITEM_PAYLOAD_MEMFD])
  have hh0 := hhdr r0 (by rw [hF]; rfl)
  -- sizes
  have hsum_rs : payload_size_sum rs = m.header.body_size := by
    unfold payload_size_sum
    rw [d2, hsizes, hbody]
    rfl
  have hsum : payload_size_sum k'.items = BUS_MESSAGE_BODY_BEGIN m + m.header.body_size := by
    rw [payload_size_sum_filter, hF]
    simp only [payload_size_sum, List.map_cons, List.sum_cons] at hsum_rs ⊢
    rw [hsum_rs]
    simp [payload_size, hr0'.1, hr0'.2]
  have hbb : BUS_MESSAGE_BODY_BEGIN m < 2 ^ 33 := by
    unfold BUS_MESSAGE_BODY_BEGIN ALIGN8 sizeof_bus_header; omega
  have hfit : payload_size_sum k'.items < U64 := by
    rw [hsum]; unfold U64; omega
  -- first loop
  have hcont : contains_header o bus r0 = true := by
    unfold contains_header bus_header_is_complete
    rw [hh0, hr0'.2]
    have := ALIGN8_ge m.header.fields_size
    simp only [hr0'.1, true_and, decide_eq_true_eq, Bool.decide_eq_true]
    unfold BUS_MESSAGE_BODY_BEGIN sizeof_bus_header
    omega
  have hp1 := make_message_pass1_unlocated o bus hrealloc k'.items {} rfl (by decide)
  rw [find?_eq_head?_filter, hF] at hp1
  simp only [List.head?_cons] at hp1
  obtain ⟨p1a, p1b, p1c⟩ := hp1.1 hcont
  simp only [Nat.zero_add, Nat.mod_eq_of_lt hfit] at p1c
  have htotal : (bus_header_message_size (o.header_at (bus.kdbus_buffer + r0.vec.offset))).2
      = BUS_MESSAGE_BODY_BEGIN m + m.header.body_size := by
    rw [hh0]; rfl
  -- second loop
  have hposrs : ∀ d ∈ rs, 0 < payload_size d := by
    intro d hd
    have : payload_size d ∈ rs.map payload_size := List.mem_map_of_mem _ hd
    rw [d2, hsizes] at this
    obtain ⟨p, hp, hpe⟩ := List.mem_map.mp this
    rw [← hpe]
    exact hpos p hp
  obtain ⟨p2a, p2b, _⟩ := make_message_pass2_from_start o bus happend k'.items
    { m := { header := o.header_at (bus.kdbus_buffer + r0.vec.offset),
             header_ptr := bus.kdbus_buffer + r0.vec.offset, sealed := true,
             fds := (make_message_pass1 o bus {} k'.items).2.fds,
             label := (make_message_pass1 o bus {} k'.items).2.seclabel } }
    r0 rs rfl hF hr0'.1 (by rw [hr0'.2]; unfold BUS_MESSAGE_BODY_BEGIN; rw [hh0]) hposrs hfit
  obtain ⟨c1, c2⟩ := make_message_construct_success o bus k' _ _ p1a p1b
    (by rw [p1c, hsum, htotal]) (by rw [hh0]; exact hfrom)
    (Prod.ext p2a rfl) (hparse _)
  -- the enqueued message
  have hnb : ¬ (make_message_construct o bus k').r < 0 := by omega
  refine ⟨hrej, ?_, ?_⟩
  · unfold bus_kernel_make_message
    simp only [if_neg hnb]
  · refine ⟨make_message_finish bus k' (make_message_construct o bus k').m
      (make_message_construct o bus k').destination, ?_, hsame, ?_, ?_⟩
    · unfold bus_kernel_make_message
      simp only [if_neg hnb]
    · rw [(make_message_finish_parts bus k' _ _).2, c2, p2b]
      exact d3
    · intro p hp hz
      have : part_item m.destination.isSome p ∈ k.items.filter is_sent_payload := by
        rw [hsent]
        exact List.mem_cons_of_mem _ (List.mem_map_of_mem _ hp)
      have hmem := (List.mem_filter.mp this).1
      unfold part_item at hmem
      rw [if_pos hz] at hmem
      exact hmem

theorem transcode_receive_roundtrip_witness :
    (bus_message_setup_kmsg sample_padded_world sample_padded_call).1 = 0 ∧
    List.Forall₂ (kernel_delivers sample_memory {})
      ((transcoded sample_padded_world sample_padded_call).items.filter is_sent_payload)
      (sample_padded_delivery.items.filter is_payload_item) ∧
    (bus_kernel_make_message sample_padded_world {} sample_padded_delivery).r = 1 ∧
    ∃ q, (bus_kernel_make_message sample_padded_world {} sample_padded_delivery).bus
        = { ({} : sd_bus) with rqueue := ({} : sd_bus).rqueue ++ [q] } ∧
      List.Forall₂ same_part sample_padded_call.body_parts
        (bus_message_setup_kmsg sample_padded_world sample_padded_call).2.body_parts ∧
      List.Forall₂ (same_content sample_memory sample_padded_call.destination.isSome)
        (bus_message_setup_kmsg sample_padded_world sample_padded_call).2.body_parts
        q.body_parts ∧
      (∀ p ∈ (bus_message_setup_kmsg sample_padded_world sample_padded_call).2.body_parts,
        p.is_zero = true →
        payload_vec_item 0 p.size ∈ (transcoded sample_padded_world sample_padded_call).items) :=
  ⟨by decide, by decide,
   (transcode_receive_roundtrip sample_padded_world sample_memory sample_padded_call {}
      sample_padded_delivery (by decide) (by decide) (by decide) (by decide) (by decide)
      (by decide) (fun _ _ => (by decide : (12288 : Nat) ≠ 0)) (by decide) (fun _ => rfl)
      (by decide) (fun _ => rfl) (fun _ => (by decide : (0 : Int) ≤ 0)) (by decide)
      (fun _ _ => rfl)).2⟩

/-! ### Notification translator: the synthesized messages -/

theorem new_signal_success (o : bus_world) (path interface member : cstr)
    (h : 0 ≤ o.new_signal_r) :
    sd_bus_message_new_signal o path interface member =
      (0, { header := { type := SD_BUS_MESSAGE_SIGNAL, flags := BUS_MESSAGE_NO_REPLY_EXPECTED,
                        version := 1 },
            path := some path, interface := some interface, member := some member }) := by
  unfold sd_bus_message_new_signal
  rw [if_neg (not_lt.mpr h)]

theorem append_sss_success (o : bus_world) (m : sd_bus_message) (a b c : Option cstr)
    (h : 0 ≤ o.append_r m) :
    sd_bus_message_append_sss o m a b c =
      (o.append_r m, { m with args := m.args ++
        [{ type := 's', str := a.getD [] }, { type := 's', str := b.getD [] },
         { type := 's', str := c.getD [] }] }) := by
  unfold sd_bus_message_append_sss
  show (if o.append_r m < 0 then _ else _) = _
  rw [if_neg (not_lt.mpr h)]

theorem seal_synthetic_success (o : bus_world) (m : sd_bus_message) (h : 0 ≤ o.seal_r m) :
    bus_seal_synthetic_message o m =
      (o.seal_r m, { m with sealed := true
                            header := { m.header with serial := 0xFFFFFFFF } }) := by
  unfold bus_seal_synthetic_message
  show (if o.seal_r m < 0 then _ else _) = _
  rw [if_neg (not_lt.mpr h)]

theorem push_name_owner_changed_success (o : bus_world) (bus : sd_bus)
    (name old_owner new_owner : Option cstr) (h : synthesis_succeeds o) :
    ∃ msg, push_name_owner_changed o bus name old_owner new_owner
        = (1, { bus with rqueue := bus.rqueue ++ [msg] }) ∧
      is_name_owner_changed msg (name.getD []) (old_owner.getD []) (new_owner.getD []) := by
  obtain ⟨h1, h2, h3, _⟩ := h
  unfold push_name_owner_changed
  rw [new_signal_success o _ _ _ h1]
  dsimp only
  rw [if_neg (lt_irrefl _), append_sss_success o _ _ _ _ (h2 _)]
  dsimp only
  rw [if_neg (not_lt.mpr (h2 _)), seal_synthetic_success o _ (h3 _)]
  dsimp only
  rw [if_neg (not_lt.mpr (h3 _))]
  exact ⟨_, rfl, rfl, rfl, rfl, rfl, rfl, rfl, rfl⟩

theorem translate_dispatch (o : bus_world) (bus : sd_bus) (k : kdbus_msg) (d : kdbus_item)
    (fn : translate_fn) (hd : k.items.filter is_kernel_item = [d])
    (hfn : translate (d.type - _KDBUS_ITEM_KERNEL_BASE) = some fn) :
    bus_kernel_translate_message o bus k = fn o bus k d := by
  unfold bus_kernel_translate_message
  simp only [translate_find_none]
  rw [hd]
  simp [hfn]

/-- C11: when the message model's calls succeed, the translator turns the one
lifecycle notification item of a kernel message into exactly one queued
signal `NameOwnerChanged` from `"org.freedesktop.DBus"`: with arguments
(name, "", ":1.<new id>") for a name-add, (name, ":1.<old id>", "") for a
name-remove and (name, ":1.<old id>", ":1.<new id>") for a name-change (name
items with zero flags), and (":1.n", "", ":1.n") for an id-add and
(":1.n", ":1.n", "") for an id-remove of id n. -/
theorem translate_lifecycle_signal (o : bus_world) (bus : sd_bus) (k : kdbus_msg)
    (d : kdbus_item) (hw : synthesis_succeeds o)
    (hd : k.items.filter is_kernel_item = [d]) :
    (d.type = KDBUS_ITEM_NAME_ADD → d.name_change.flags = 0 →
      ∃ msg, bus_kernel_translate_message o bus k
          = (1, { bus with rqueue := bus.rqueue ++ [msg] }) ∧
        is_name_owner_changed msg d.name_change.name []
          (format_unique_name d.name_change.new_id)) ∧
    (d.type = KDBUS_ITEM_NAME_REMOVE → d.name_change.flags = 0 →
      ∃ msg, bus_kernel_translate_message o bus k
          = (1, { bus with rqueue := bus.rqueue ++ [msg] }) ∧
        is_name_owner_changed msg d.name_change.name
          (format_unique_name d.name_change.old_id) []) ∧
    (d.type = KDBUS_ITEM_NAME_CHANGE → d.name_change.flags = 0 →
      ∃ msg, bus_kernel_translate_message o bus k
          = (1, { bus with rqueue := bus.rqueue ++ [msg] }) ∧
        is_name_owner_changed msg d.name_change.name
          (format_unique_name d.name_change.old_id)
          (format_unique_name d.name_change.new_id)) ∧
    (d.type = KDBUS_ITEM_ID_ADD →
      ∃ msg, bus_kernel_translate_message o bus k
          = (1, { bus with rqueue := bus.rqueue ++ [msg] }) ∧
        is_name_owner_changed msg (format_unique_name d.id_change.id) []
          (format_unique_name d.id_change.id)) ∧
    (d.type = KDBUS_ITEM_ID_REMOVE →
      ∃ msg, bus_kernel_translate_message o bus k
          = (1, { bus with rqueue := bus.rqueue ++ [msg] }) ∧
        is_name_owner_changed msg (format_unique_name d.id_change.id)
          (format_unique_name d.id_change.id) []) := by
  refine ⟨?_, ?_, ?_, ?_, ?_⟩
  · intro ht hf
    rw [translate_dispatch o bus k d translate_name_change hd (by rw [ht]; rfl)]
    unfold translate_name_change
    rw [if_neg (by simp [hf]), if_pos ht,
      if_neg (by rw [ht]; decide)]
    exact push_name_owner_changed_success o bus _ _ _ hw
  · intro ht hf
    rw [translate_dispatch o bus k d translate_name_change hd (by rw [ht]; rfl)]
    unfold translate_name_change
    rw [if_neg (by simp [hf]), if_neg (by rw [ht]; decide), if_pos ht]
    exact push_name_owner_changed_success o bus _ _ _ hw
  · intro ht hf
    rw [translate_dispatch o bus k d translate_name_change hd (by rw [ht]; rfl)]
    unfold translate_name_change
    rw [if_neg (by simp [hf]), if_neg (by rw [ht]; decide), if_neg (by rw [ht]; decide)]
    exact push_name_owner_changed_success o bus _ _ _ hw
  · intro ht
    rw [translate_dispatch o bus k d translate_id_change hd (by rw [ht]; rfl)]
    unfold translate_id_change
    simp only [if_pos ht]
    exact push_name_owner_changed_success o bus _ _ _ hw
  · intro ht
    rw [translate_dispatch o bus k d translate_id_change hd (by rw [ht]; rfl)]
    unfold translate_id_change
    have hne : ¬ d.type = KDBUS_ITEM_ID_ADD := by rw [ht]; decide
    simp only [if_neg hne]
    exact push_name_owner_changed_success o bus _ _ _ hw

theorem sample_world_synthesis : synthesis_succeeds sample_world :=
  ⟨le_refl 0, fun _ => le_refl 0, fun _ => le_refl 0, fun _ => le_refl 0⟩

/-- A name-add with new owner 7 and an id-remove for 7, on an empty
connection. -/
theorem translate_lifecycle_signal_witness :
    synthesis_succeeds sample_world ∧
    (∃ msg, bus_kernel_translate_message sample_world {} { items := [sample_name_add] }
        = (1, { ({} : sd_bus) with rqueue := ({} : sd_bus).rqueue ++ [msg] }) ∧
      is_name_owner_changed msg "org.foo".data "".data ":1.7".data) ∧
    (∃ msg, bus_kernel_translate_message sample_world {} { items := [sample_id_remove] }
        = (1, { ({} : sd_bus) with rqueue := ({} : sd_bus).rqueue ++ [msg] }) ∧
      is_name_owner_changed msg ":1.7".data ":1.7".data "".data) :=
  ⟨sample_world_synthesis,
   (translate_lifecycle_signal sample_world {} { items := [sample_name_add] } sample_name_add
      sample_world_synthesis (by decide)).1 (by decide) (by decide),
   (translate_lifecycle_signal sample_world {} { items := [sample_id_remove] } sample_id_remove
      sample_world_synthesis (by decide)).2.2.2.2 (by decide)⟩

theorem synthetic_error_success (o : bus_world) (serial : Nat) (name message : cstr)
    (h : 0 ≤ o.synthetic_error_r serial) :
    bus_message_new_synthetic_error o serial name message =
      (o.synthetic_error_r serial,
        { header := { type := SD_BUS_MESSAGE_METHOD_ERROR,
                      flags := BUS_MESSAGE_NO_REPLY_EXPECTED, version := 1 },
          reply_serial := serial, error_name := some name, error_message := some message,
          args := [{ type := 's', str := message }] }) := by
  unfold bus_message_new_synthetic_error
  show (if o.synthetic_error_r serial < 0 then _ else _) = _
  rw [if_neg (not_lt.mpr h)]

/-- C12: when the message model's calls succeed, `translate_reply` turns the
reply-failure item (reply-timeout or reply-dead, the two items dispatched to
it) of a kernel message with reply cookie c into exactly one queued, sealed
error reply: its reply serial is c, its error name
is `org.freedesktop.DBus.Error.NoReply`, its sender is
`"org.freedesktop.DBus"`, and its text is "Method call timed out" for a
timeout and the different text "Method call peer died" for a dead peer. -/
theorem translate_reply_error (o : bus_world) (bus : sd_bus) (k : kdbus_msg) (d : kdbus_item)
    (hw : synthesis_succeeds o) :
    (∃ msg, translate_reply o bus k d = (1, { bus with rqueue := bus.rqueue ++ [msg] }) ∧
      msg.sender = some "org.freedesktop.DBus".data ∧
      (d.type = KDBUS_ITEM_REPLY_TIMEOUT →
        is_error_reply msg k.cookie_reply "org.freedesktop.DBus.Error.NoReply".data
          "Method call timed out".data) ∧
      (d.type = KDBUS_ITEM_REPLY_DEAD →
        is_error_reply msg k.cookie_reply "org.freedesktop.DBus.Error.NoReply".data
          "Method call peer died".data)) ∧
    "Method call timed out".data ≠ "Method call peer died".data := by
  obtain ⟨_, _, h3, h4⟩ := hw
  refine ⟨?_, by decide⟩
  unfold translate_reply
  rw [synthetic_error_success o _ _ _ (h4 _)]
  dsimp only
  rw [if_neg (not_lt.mpr (h4 _)), seal_synthetic_success o _ (h3 _)]
  dsimp only
  rw [if_neg (not_lt.mpr (h3 _))]
  refine ⟨_, rfl, rfl, ?_, ?_⟩
  · intro h
    rw [if_pos h]
    exact ⟨rfl, rfl, rfl, rfl, rfl⟩
  · intro h
    rw [if_neg (by rw [h]; decide)]
    exact ⟨rfl, rfl, rfl, rfl, rfl⟩

/-- A reply-timeout for the call with cookie 9, on an empty connection. -/
theorem translate_reply_error_witness :
    synthesis_succeeds sample_world ∧
    ∃ msg, translate_reply sample_world {} { cookie_reply := 9 } sample_reply_timeout
        = (1, { ({} : sd_bus) with rqueue := ({} : sd_bus).rqueue ++ [msg] }) ∧
      msg.sender = some "org.freedesktop.DBus".data ∧
      is_error_reply msg 9 "org.freedesktop.DBus.Error.NoReply".data
        "Method call timed out".data :=
  ⟨sample_world_synthesis,
   match (translate_reply_error sample_world {} { cookie_reply := 9 } sample_reply_timeout
      sample_world_synthesis).1 with
   | ⟨msg, h1, h2, h3, _⟩ => ⟨msg, h1, h2, h3 (by decide)⟩⟩

/-! ### Sending: the failure branch -/

theorem bus_message_setup_bloom_header (m : sd_bus_message) :
    (bus_message_setup_bloom m).2.1.header = m.header := by
  rw [bus_message_setup_bloom_frame]

theorem setup_kmsg_emit_header (o : bus_world) (m : sd_bus_message) (wk : Bool) (unique : Nat) :
    (setup_kmsg_emit o m wk unique).2.header = m.header := by
  unfold setup_kmsg_emit
  simp only
  split_ifs <;> first | rfl | exact bus_message_setup_bloom_header _

theorem setup_kmsg_header (o : bus_world) (m : sd_bus_message) :
    (bus_message_setup_kmsg o m).2.header = m.header := by
  unfold bus_message_setup_kmsg
  split_ifs
  · rfl
  · cases hd : m.destination with
    | none => exact setup_kmsg_emit_header _ _ _ _
    | some dst =>
      simp only
      split_ifs
      · rfl
      · exact setup_kmsg_emit_header _ _ _ _

theorem write_message_reply_success (o : bus_world) (bus : sd_bus) (m : sd_bus_message)
    (calls : List bus_call) (name message : cstr) (hw : synthesis_succeeds o) :
    ∃ msg, write_message_reply o bus m calls name message
        = { r := 0, bus := { bus with rqueue := bus.rqueue ++ [msg] }, m := m, calls := calls } ∧
      is_error_reply msg m.header.serial name message := by
  obtain ⟨_, _, h3, h4⟩ := hw
  unfold write_message_reply
  rw [synthetic_error_success o _ _ _ (h4 _)]
  dsimp only
  rw [if_neg (not_lt.mpr (h4 _)), seal_synthetic_success o _ (h3 _)]
  dsimp only
  rw [if_neg (not_lt.mpr (h3 _))]
  exact ⟨_, rfl, rfl, rfl, rfl, rfl, rfl⟩

theorem write_message_reply_calls (o : bus_world) (bus : sd_bus) (m : sd_bus_message)
    (calls : List bus_call) (name message : cstr) :
    (write_message_reply o bus m calls name message).calls = calls := by
  unfold write_message_reply
  dsimp only
  split_ifs <;> rfl

theorem write_message_failed_calls (o : bus_world) (bus : sd_bus) (m : sd_bus_message)
    (calls : List bus_call) (errno : Int) :
    (write_message_failed o bus m calls errno).calls = calls := by
  unfold write_message_failed
  split_ifs <;> first | rfl | exact write_message_reply_calls _ _ _ _ _ _

theorem write_message_of_send_failure (o : bus_world) (bus : sd_bus) (m : sd_bus_message)
    (r e : Int) (hroom : 0 ≤ o.make_room_r bus)
    (hsetup : 0 ≤ (bus_message_setup_kmsg o m).1)
    (hio : o.msg_send (bus_message_setup_kmsg o m).2.kdbus = (r, e)) (hr : r < 0) :
    bus_kernel_write_message o bus m =
      write_message_failed o bus (bus_message_setup_kmsg o m).2
        [bus_call.cmd_msg_send (bus_message_setup_kmsg o m).2.kdbus] e := by
  unfold bus_kernel_write_message
  dsimp only
  rw [if_neg (not_lt.mpr hroom), if_neg (not_lt.mpr hsetup), hio]
  dsimp only
  rw [if_pos hr]

/-- C13: when the send call of `bus_kernel_write_message` for a message m
fails with error code e, then: for e try-again or interrupted the function
returns 0 and leaves the delivery queue unchanged; for e one of unique name
unknown (ENXIO), well-known name unknown (ESRCH) and activation not requested
(EADDRNOTAVAIL) it leaves the queue unchanged and returns 0 when m is not a
method call, and when m is a method call (and the message model's calls
succeed) it returns 0 and the queue gains exactly one sealed ServiceUnknown
error reply addressed to the serial of m; for any other e it returns -e with
the queue unchanged.  In every case the send call is the only call made: it
is not issued a second time. -/
theorem write_message_send_failure (o : bus_world) (bus : sd_bus) (m : sd_bus_message)
    (r e : Int) (hroom : 0 ≤ o.make_room_r bus)
    (hsetup : 0 ≤ (bus_message_setup_kmsg o m).1)
    (hio : o.msg_send (bus_message_setup_kmsg o m).2.kdbus = (r, e)) (hr : r < 0) :
    (e = EAGAIN ∨ e = EINTR →
      (bus_kernel_write_message o bus m).r = 0 ∧ (bus_kernel_write_message o bus m).bus = bus) ∧
    (e = ENXIO ∨ e = ESRCH ∨ e = EADDRNOTAVAIL →
      (m.header.type = SD_BUS_MESSAGE_METHOD_CALL → synthesis_succeeds o →
        (bus_kernel_write_message o bus m).r = 0 ∧
        ∃ msg text, (bus_kernel_write_message o bus m).bus
            = { bus with rqueue := bus.rqueue ++ [msg] } ∧
          is_error_reply msg m.header.serial
            "org.freedesktop.DBus.Error.ServiceUnknown".data text) ∧
      (m.header.type ≠ SD_BUS_MESSAGE_METHOD_CALL →
        (bus_kernel_write_message o bus m).r = 0 ∧
        (bus_kernel_write_message o bus m).bus = bus)) ∧
    (e ≠ EAGAIN → e ≠ EINTR → e ≠ ENXIO → e ≠ ESRCH → e ≠ EADDRNOTAVAIL →
      (bus_kernel_write_message o bus m).r = -e ∧ (bus_kernel_write_message o bus m).bus = bus) ∧
    (bus_kernel_write_message o bus m).calls
      = [bus_call.cmd_msg_send (bus_message_setup_kmsg o m).2.kdbus] := by
  rw [write_message_of_send_failure o bus m r e hroom hsetup hio hr]
  have hh := setup_kmsg_header o m
  refine ⟨?_, ?_, ?_, write_message_failed_calls _ _ _ _ _⟩
  · intro h
    unfold write_message_failed
    rw [if_pos h]
    exact ⟨rfl, rfl⟩
  · intro h
    have h1 : ¬ (e = EAGAIN ∨ e = EINTR) := by
      rcases h with h | h | h <;> rw [h] <;> decide
    refine ⟨?_, ?_⟩
    · intro hc hw
      have hc2 : (bus_message_setup_kmsg o m).2.header.type = SD_BUS_MESSAGE_METHOD_CALL := by
        rw [hh]; exact hc
      unfold write_message_failed
      rw [if_neg h1]
      by_cases h2 : e = ENXIO ∨ e = ESRCH
      · rw [if_pos h2, if_pos hc2]
        obtain ⟨msg, e1, e2⟩ := write_message_reply_success o bus (bus_message_setup_kmsg o m).2
          [bus_call.cmd_msg_send (bus_message_setup_kmsg o m).2.kdbus]
          SD_BUS_ERROR_SERVICE_UNKNOWN
          ("Destination ".data ++ format_s (bus_message_setup_kmsg o m).2.destination ++
            " not known".data) hw
        rw [e1]
        rw [hh] at e2
        exact ⟨rfl, msg, _, rfl, e2⟩
      · have h3 : e = EADDRNOTAVAIL := by
          rcases h with h | h | h
          · exact absurd (Or.inl h) h2
          · exact absurd (Or.inr h) h2
          · exact h
        rw [if_neg h2, if_pos h3, if_pos hc2]
        obtain ⟨msg, e1, e2⟩ := write_message_reply_success o bus (bus_message_setup_kmsg o m).2
          [bus_call.cmd_msg_send (bus_message_setup_kmsg o m).2.kdbus]
          SD_BUS_ERROR_SERVICE_UNKNOWN
          ("Activation of ".data ++ format_s (bus_message_setup_kmsg o m).2.destination ++
            " not requested".data) hw
        rw [e1]
        rw [hh] at e2
        exact ⟨rfl, msg, _, rfl, e2⟩
    · intro hc
      have hc2 : ¬ (bus_message_setup_kmsg o m).2.header.type = SD_BUS_MESSAGE_METHOD_CALL := by
        rw [hh]; exact hc
      unfold write_message_failed
      rw [if_neg h1]
      by_cases h2 : e = ENXIO ∨ e = ESRCH
      · rw [if_pos h2, if_neg hc2]
        exact ⟨rfl, rfl⟩
      · have h3 : e = EADDRNOTAVAIL := by
          rcases h with h | h | h
          · exact absurd (Or.inl h) h2
          · exact absurd (Or.inr h) h2
          · exact h
        rw [if_neg h2, if_pos h3, if_neg hc2]
        exact ⟨rfl, rfl⟩
  · intro a1 a2 a3 a4 a5
    unfold write_message_failed
    rw [if_neg (by rintro (h | h) <;> contradiction),
      if_neg (by rintro (h | h) <;> contradiction), if_neg a5]
    exact ⟨rfl, rfl⟩

theorem sample_unknown_world_synthesis : synthesis_succeeds sample_unknown_world :=
  ⟨le_refl 0, fun _ => le_refl 0, fun _ => le_refl 0, fun _ => le_refl 0⟩

/-- The sample method call with serial 9, refused with `ENXIO`, on an empty
connection. -/
theorem write_message_send_failure_witness :
    0 ≤ sample_unknown_world.make_room_r {} ∧
    0 ≤ (bus_message_setup_kmsg sample_unknown_world sample_call).1 ∧
    sample_unknown_world.msg_send (bus_message_setup_kmsg sample_unknown_world sample_call).2.kdbus
      = (-1, ENXIO) ∧
    (bus_kernel_write_message sample_unknown_world {} sample_call).r = 0 ∧
    (∃ msg text, (bus_kernel_write_message sample_unknown_world {} sample_call).bus
        = { ({} : sd_bus) with rqueue := ({} : sd_bus).rqueue ++ [msg] } ∧
      is_error_reply msg 9 "org.freedesktop.DBus.Error.ServiceUnknown".data text) ∧
    (bus_kernel_write_message sample_unknown_world {} sample_call).calls
      = [bus_call.cmd_msg_send
          (bus_message_setup_kmsg sample_unknown_world sample_call).2.kdbus] :=
  ⟨by decide, by decide, rfl,
   (((write_message_send_failure sample_unknown_world {} sample_call (-1) ENXIO
      (by decide) (by decide) rfl (by decide)).2.1 (Or.inl rfl)).1 (by decide)
      sample_unknown_world_synthesis).1,
   (((write_message_send_failure sample_unknown_world {} sample_call (-1) ENXIO
      (by decide) (by decide) rfl (by decide)).2.1 (Or.inl rfl)).1 (by decide)
      sample_unknown_world_synthesis).2,
   (write_message_send_failure sample_unknown_world {} sample_call (-1) ENXIO
      (by decide) (by decide) rfl (by decide)).2.2.2⟩

/-! ### Receiving: the status of a read -/

theorem translate_message_translate_outcome (o : bus_world) (bus : sd_bus) (k : kdbus_msg) :
    translate_outcome bus (bus_kernel_translate_message o bus k) := by
  cases hf : k.items.filter is_kernel_item with
  | nil =>
    have e : bus_kernel_translate_message o bus k = (0, bus) := by
      unfold bus_kernel_translate_message
      simp only [translate_find_none]
      rw [hf]
      simp
    rw [e]
    exact Or.inr ⟨by show (0 : Int) ≠ 1; decide, rfl⟩
  | cons d t =>
    cases t with
    | cons b t =>
      have e : bus_kernel_translate_message o bus k = (-EBADMSG, bus) := by
        unfold bus_kernel_translate_message
        simp only [translate_find_none]
        rw [hf]
        simp [EBADMSG]
      rw [e]
      exact translate_outcome_fail _ _ (by decide)
    | nil =>
      have hk : is_kernel_item d = true := by
        have : d ∈ k.items.filter is_kernel_item := by rw [hf]; simp
        exact (List.mem_filter.mp this).2
      obtain ⟨fn, hfn, hcases⟩ := translate_of_kernel_item d hk
      rw [translate_dispatch o bus k d fn hf hfn]
      rcases hcases with h | h | h <;> subst h
      · exact translate_name_change_outcome _ _ _ _
      · exact translate_id_change_outcome _ _ _ _
      · exact translate_reply_outcome _ _ _ _

theorem make_message_translate_outcome (o : bus_world) (bus : sd_bus) (k : kdbus_msg) :
    translate_outcome bus
      ((bus_kernel_make_message o bus k).r, (bus_kernel_make_message o bus k).bus) := by
  unfold bus_kernel_make_message
  dsimp only
  by_cases h : (make_message_construct o bus k).r < 0
  · rw [if_pos h]
    exact translate_outcome_fail _ _ h
  · rw [if_neg h]
    exact translate_outcome_push _ _

theorem read_message_dispatch_outcome (o : bus_world) (bus : sd_bus) (k : kdbus_msg) :
    translate_outcome bus
      ((read_message_dispatch o bus k).r, (read_message_dispatch o bus k).bus) := by
  unfold read_message_dispatch
  by_cases h1 : k.payload_type = KDBUS_PAYLOAD_DBUS1
  · rw [if_pos h1]
    exact make_message_translate_outcome _ _ _
  · rw [if_neg h1]
    by_cases h2 : k.payload_type = KDBUS_PAYLOAD_KERNEL
    · rw [if_pos h2]
      dsimp only
      rw [Prod.mk.eta]
      exact translate_message_translate_outcome _ _ _
    · rw [if_neg h2]
      exact Or.inr ⟨by show (0 : Int) ≠ 1; decide, rfl⟩

theorem read_message_received (o : bus_world) (bus : sd_bus)
    (hroom : 0 ≤ o.make_room_r bus) (hrecv : 0 ≤ o.msg_recv.1) :
    (bus_kernel_read_message o bus).r =
      (if (read_message_dispatch o bus (received_message o bus)).r < 0
        then (read_message_dispatch o bus (received_message o bus)).r else 1) ∧
    (bus_kernel_read_message o bus).bus
      = (read_message_dispatch o bus (received_message o bus)).bus ∧
    (bus_kernel_read_message o bus).calls =
      [bus_call.cmd_msg_recv] ++
      (match (read_message_dispatch o bus (received_message o bus)).unref with
        | some m => sd_bus_message_unref m
        | none => []) ++
      (if (read_message_dispatch o bus (received_message o bus)).r ≤ 0 then
        close_kdbus_msg (read_message_dispatch o bus (received_message o bus)).bus
          (bus.kdbus_buffer + o.msg_recv.2.2) (received_message o bus)
       else []) := by
  unfold bus_kernel_read_message received_message
  dsimp only
  rw [if_neg (not_lt.mpr hroom), if_neg (not_lt.mpr hrecv)]
  refine ⟨rfl, rfl, ?_⟩
  dsimp only
  split_ifs <;> simp

/-- C14, as the claim states it, fails: `bus_kernel_read_message` returns 1
when the sample message is delivered and queued, and it returns the same 1,
with nothing queued, when the delivered message has a foreign payload type
or is a kernel-internal message without a recognized notification item. -/
theorem read_message_nothing_produced_counterexample :
    (bus_kernel_read_message sample_delivery_world {}).r = 1 ∧
    (bus_kernel_read_message sample_delivery_world {}).bus.rqueue.length = 1 ∧
    (bus_kernel_read_message sample_foreign_world {}).r = 1 ∧
    (bus_kernel_read_message sample_foreign_world {}).bus.rqueue = [] ∧
    (bus_kernel_read_message sample_idle_world {}).r = 1 ∧
    (bus_kernel_read_message sample_idle_world {}).bus.rqueue = [] := by
  decide

/-- C14, amended: for every successfully received kernel message,
`bus_kernel_read_message` returns the negative status of the translation
when that fails and 1 otherwise, never 0; in particular it returns 1, with
the delivery queue unchanged, when the received message produces nothing (a
payload type that is neither application nor kernel-internal, or a
kernel-internal payload without a recognized notification item).  The
status of the translation itself is 1 exactly when one new message was
appended to the queue; otherwise the queue is unchanged. -/
theorem read_message_status (o : bus_world) (bus : sd_bus)
    (hroom : 0 ≤ o.make_room_r bus) (hrecv : 0 ≤ o.msg_recv.1) :
    ((bus_kernel_read_message o bus).r = 1 ∨ (bus_kernel_read_message o bus).r < 0) ∧
    (bus_kernel_read_message o bus).r =
      (if (read_message_dispatch o bus (received_message o bus)).r < 0
        then (read_message_dispatch o bus (received_message o bus)).r else 1) ∧
    ((received_message o bus).payload_type ≠ KDBUS_PAYLOAD_DBUS1 →
      (received_message o bus).payload_type ≠ KDBUS_PAYLOAD_KERNEL →
      (bus_kernel_read_message o bus).r = 1 ∧ (bus_kernel_read_message o bus).bus = bus) ∧
    ((received_message o bus).payload_type = KDBUS_PAYLOAD_KERNEL →
      (received_message o bus).items.filter is_kernel_item = [] →
      (bus_kernel_read_message o bus).r = 1 ∧ (bus_kernel_read_message o bus).bus = bus) ∧
    (((read_message_dispatch o bus (received_message o bus)).r = 1 ∧
        ∃ msg, (bus_kernel_read_message o bus).bus
          = { bus with rqueue := bus.rqueue ++ [msg] }) ∨
      ((read_message_dispatch o bus (received_message o bus)).r ≠ 1 ∧
        (bus_kernel_read_message o bus).bus = bus)) := by
  obtain ⟨hr, hb, _⟩ := read_message_received o bus hroom hrecv
  rw [hr, hb]
  refine ⟨?_, rfl, ?_, ?_, read_message_dispatch_outcome o bus _⟩
  · by_cases h : (read_message_dispatch o bus (received_message o bus)).r < 0
    · rw [if_pos h]; exact Or.inr h
    · rw [if_neg h]; exact Or.inl rfl
  · intro h1 h2
    unfold read_message_dispatch
    rw [if_neg h1, if_neg h2]
    exact ⟨rfl, rfl⟩
  · intro h1 h2
    have h0 : ¬ (received_message o bus).payload_type = KDBUS_PAYLOAD_DBUS1 := by
      rw [h1]; decide
    unfold read_message_dispatch
    rw [if_neg h0, if_pos h1]
    unfold bus_kernel_translate_message
    simp only [translate_find_none]
    rw [h2]
    exact ⟨rfl, rfl⟩

/-- The three sample deliveries on an empty connection. -/
theorem read_message_status_witness :
    0 ≤ sample_foreign_world.make_room_r {} ∧ 0 ≤ sample_foreign_world.msg_recv.1 ∧
    (received_message sample_foreign_world {}).payload_type ≠ KDBUS_PAYLOAD_DBUS1 ∧
    (received_message sample_foreign_world {}).payload_type ≠ KDBUS_PAYLOAD_KERNEL ∧
    (bus_kernel_read_message sample_foreign_world {}).r = 1 ∧
    (bus_kernel_read_message sample_foreign_world {}).bus = {} :=
  ⟨by decide, by decide, by decide, by decide,
   (read_message_status sample_foreign_world {} (by decide) (by decide)).2.2.1
     (by decide) (by decide)⟩

/-! ### Segment cache -/

theorem take_set_succ {α : Type} (l : List α) (n : Nat) (x : α) (h : n < l.length) :
    (l.set n x).take (n + 1) = l.take n ++ [x] := by
  induction l generalizing n with
  | nil => simp at h
  | cons a t ih =>
    cases n with
    | zero => simp
    | succ n =>
      simp only [List.length_cons, Nat.succ_lt_succ_iff] at h
      simp [ih n h]

theorem take_set_self {α : Type} (l : List α) (n : Nat) (x : α) :
    (l.set n x).take n = l.take n := by
  induction l generalizing n with
  | nil => simp
  | cons a t ih =>
    cases n with
    | zero => simp
    | succ n => simp [ih n]

theorem take_pred_append {α : Type} (l : List α) (n : Nat) (d : α)
    (h0 : 0 < n) (h : n ≤ l.length) :
    l.take n = l.take (n - 1) ++ [l.getD (n - 1) d] := by
  obtain ⟨k, rfl⟩ : ∃ k, n = k + 1 := ⟨n - 1, by omega⟩
  have hk : k < l.length := by omega
  rw [List.take_succ, Nat.add_sub_cancel]
  simp [List.getD, List.getElem?_eq_getElem hk]

theorem push_memfd_full (o : bus_world) (b : sd_bus) (fd : Int) (address size : Nat)
    (hk : b.is_kernel = true) (hf : b.memfd_cache.length ≤ b.n_memfd_cache) :
    bus_kernel_push_memfd o (some b) fd address size =
      { bus := some b
        calls := [bus_call.mutex_lock, bus_call.mutex_unlock] ++
          close_and_munmap o fd address size } := by
  unfold bus_kernel_push_memfd
  dsimp only
  rw [if_neg (by simp [hk]), if_pos hf]

theorem push_memfd_store (o : bus_world) (b : sd_bus) (fd : Int) (address size : Nat)
    (hk : b.is_kernel = true) (hf : b.n_memfd_cache < b.memfd_cache.length) :
    bus_kernel_push_memfd o (some b) fd address size =
      { bus := some { b with
          n_memfd_cache := b.n_memfd_cache + 1
          memfd_cache := b.memfd_cache.set b.n_memfd_cache
            { fd := fd, address := address, size := min size (memfd_cap o) } }
        calls :=
          if size > memfd_cap o then
            [bus_call.mutex_lock, bus_call.cmd_memfd_size_set fd (memfd_cap o),
             bus_call.munmap (address + memfd_cap o) (PAGE_ALIGN o (size - memfd_cap o)),
             bus_call.mutex_unlock]
          else [bus_call.mutex_lock, bus_call.mutex_unlock] } := by
  unfold bus_kernel_push_memfd memfd_cap
  dsimp only
  rw [if_neg (by simp [hk]), if_neg (by omega)]
  by_cases hs : size > PAGE_ALIGN o o.MEMFD_CACHE_ITEM_SIZE_MAX
  · rw [if_pos hs, if_pos hs, Nat.min_eq_right (by omega)]
  · rw [if_neg hs, if_neg hs, Nat.min_eq_left (by omega)]

theorem pop_memfd_of_nonempty (o : bus_world) (b : sd_bus) (address size : Nat)
    (hk : b.is_kernel = true) (h0 : 0 < b.n_memfd_cache) :
    bus_kernel_pop_memfd o (some b) address size =
      { r := (b.memfd_cache.getD (b.n_memfd_cache - 1) {}).fd
        bus := some { b with n_memfd_cache := b.n_memfd_cache - 1 }
        address := (b.memfd_cache.getD (b.n_memfd_cache - 1) {}).address
        size := (b.memfd_cache.getD (b.n_memfd_cache - 1) {}).size
        calls := [bus_call.mutex_lock, bus_call.mutex_unlock] } := by
  unfold bus_kernel_pop_memfd
  dsimp only
  rw [if_neg (by simp [hk]), if_neg (by omega)]

theorem pop_memfd_empty (o : bus_world) (b : sd_bus) (address size : Nat)
    (hk : b.is_kernel = true) (h0 : b.n_memfd_cache = 0) :
    bus_kernel_pop_memfd o (some b) address size =
      if o.memfd_new.1 < 0 then
        { r := -o.memfd_new.2.1, bus := some b, address := address, size := size
          calls := [bus_call.mutex_lock, bus_call.mutex_unlock, bus_call.cmd_memfd_new] }
      else
        { r := o.memfd_new.2.2, bus := some b, address := 0, size := 0
          calls := [bus_call.mutex_lock, bus_call.mutex_unlock, bus_call.cmd_memfd_new] } := by
  unfold bus_kernel_pop_memfd
  dsimp only
  rw [if_neg (by simp [hk]), if_pos (by omega)]

theorem cache_run_bounded (o : bus_world) (ops : List cache_op) (b : sd_bus)
    (hk : b.is_kernel = true) (hn : b.n_memfd_cache ≤ b.memfd_cache.length) :
    ∃ b2, cache_run o (some b) ops = some b2 ∧
      b2.n_memfd_cache ≤ b2.memfd_cache.length ∧
      b2.memfd_cache.length = b.memfd_cache.length := by
  induction ops generalizing b with
  | nil => exact ⟨b, rfl, hn, rfl⟩
  | cons op ops ih =>
    cases op with
    | push fd address size =>
      unfold cache_run
      by_cases hf : b.n_memfd_cache < b.memfd_cache.length
      · rw [push_memfd_store o b fd address size hk hf]
        obtain ⟨b2, e, h1, h2⟩ := ih _ (show ({ b with
            n_memfd_cache := b.n_memfd_cache + 1
            memfd_cache := b.memfd_cache.set b.n_memfd_cache
              { fd := fd, address := address, size := min size (memfd_cap o) } } : sd_bus).is_kernel
            = true from hk)
          (by simp only [List.length_set]; omega)
        exact ⟨b2, e, h1, by rw [h2]; simp⟩
      · rw [push_memfd_full o b fd address size hk (by omega)]
        exact ih b hk hn
    | pop =>
      unfold cache_run
      by_cases h0 : 0 < b.n_memfd_cache
      · rw [pop_memfd_of_nonempty o b 0 0 hk h0]
        obtain ⟨b2, e, h1, h2⟩ := ih _ (show ({ b with
            n_memfd_cache := b.n_memfd_cache - 1 } : sd_bus).is_kernel = true from hk)
          (by show b.n_memfd_cache - 1 ≤ b.memfd_cache.length; omega)
        exact ⟨b2, e, h1, h2⟩
      · rw [pop_memfd_empty o b 0 0 hk (by omega)]
        have e : (if o.memfd_new.1 < 0 then
            ({ r := -o.memfd_new.2.1, bus := some b, address := 0, size := 0
               calls := [bus_call.mutex_lock, bus_call.mutex_unlock, bus_call.cmd_memfd_new] }
              : pop_result)
          else
            { r := o.memfd_new.2.2, bus := some b, address := 0, size := 0
              calls := [bus_call.mutex_lock, bus_call.mutex_unlock,
                        bus_call.cmd_memfd_new] }).bus = some b := by
          split_ifs <;> rfl
        rw [e]
        exact ih b hk hn

/-- C15: `bus_kernel_push_memfd(bus, fd, address, size)` on a kernel
connection: when the cache already holds its full capacity, the connection
is unchanged and, outside the lock, the mapping (present when size > 0) is
unmapped and fd is closed; otherwise exactly one entry is added, holding fd
and address with the recorded size min(size, cap), cap being the page-aligned
per-entry maximum, and when size > cap the kernel object is resized to cap
and the trailing region starting at address + cap is unmapped, exactly once,
while a size within the cap makes no system call.  Hence after any sequence
of pushes and pops the entry count does not exceed the capacity. -/
theorem push_memfd_bounded (o : bus_world) (b : sd_bus) (fd : Int) (address size : Nat)
    (hk : b.is_kernel = true) :
    (b.memfd_cache.length ≤ b.n_memfd_cache →
      bus_kernel_push_memfd o (some b) fd address size =
        { bus := some b
          calls := [bus_call.mutex_lock, bus_call.mutex_unlock] ++
            (if size > 0 then [bus_call.munmap address (PAGE_ALIGN o size)] else []) ++
            [bus_call.close fd] }) ∧
    (b.n_memfd_cache < b.memfd_cache.length →
      ∃ b2, (bus_kernel_push_memfd o (some b) fd address size).bus = some b2 ∧
        b2.n_memfd_cache = b.n_memfd_cache + 1 ∧
        b2.memfd_cache.length = b.memfd_cache.length ∧
        cache_entries b2 = cache_entries b ++
          [{ fd := fd, address := address, size := min size (memfd_cap o) }] ∧
        (size > memfd_cap o →
          (bus_kernel_push_memfd o (some b) fd address size).calls =
            [bus_call.mutex_lock, bus_call.cmd_memfd_size_set fd (memfd_cap o),
             bus_call.munmap (address + memfd_cap o) (PAGE_ALIGN o (size - memfd_cap o)),
             bus_call.mutex_unlock]) ∧
        (size ≤ memfd_cap o →
          (bus_kernel_push_memfd o (some b) fd address size).calls =
            [bus_call.mutex_lock, bus_call.mutex_unlock])) ∧
    (b.n_memfd_cache ≤ b.memfd_cache.length →
      ∀ ops, ∃ b2, cache_run o (some b) ops = some b2 ∧
        b2.n_memfd_cache ≤ b2.memfd_cache.length ∧
        b2.memfd_cache.length = b.memfd_cache.length) := by
  refine ⟨?_, ?_, ?_⟩
  · intro hf
    rw [push_memfd_full o b fd address size hk hf]
    unfold close_and_munmap
    simp
  · intro hf
    rw [push_memfd_store o b fd address size hk hf]
    refine ⟨_, rfl, rfl, by simp, ?_, ?_, ?_⟩
    · exact take_set_succ _ _ _ hf
    · intro hs
      exact if_pos hs
    · intro hs
      exact if_neg (by omega)
  · intro hn ops
    exact cache_run_bounded o ops b hk hn

/-- A 256 KiB segment pushed on the empty sample cache, with the cap at
128 KiB. -/
theorem push_memfd_bounded_witness :
    sample_kernel_bus.is_kernel = true ∧
    (∃ b2, (bus_kernel_push_memfd sample_world (some sample_kernel_bus) 5 8192 262144).bus
        = some b2 ∧
      b2.n_memfd_cache = sample_kernel_bus.n_memfd_cache + 1 ∧
      b2.memfd_cache.length = sample_kernel_bus.memfd_cache.length ∧
      cache_entries b2 = cache_entries sample_kernel_bus ++
        [{ fd := 5, address := 8192, size := min 262144 (memfd_cap sample_world) }] ∧
      (262144 > memfd_cap sample_world →
        (bus_kernel_push_memfd sample_world (some sample_kernel_bus) 5 8192 262144).calls =
          [bus_call.mutex_lock, bus_call.cmd_memfd_size_set 5 (memfd_cap sample_world),
           bus_call.munmap (8192 + memfd_cap sample_world)
             (PAGE_ALIGN sample_world (262144 - memfd_cap sample_world)),
           bus_call.mutex_unlock]) ∧
      (262144 ≤ memfd_cap sample_world →
        (bus_kernel_push_memfd sample_world (some sample_kernel_bus) 5 8192 262144).calls =
          [bus_call.mutex_lock, bus_call.mutex_unlock])) ∧
    memfd_cap sample_world = 131072 :=
  ⟨rfl,
   (push_memfd_bounded sample_world sample_kernel_bus 5 8192 262144 rfl).2.1 (by decide),
   by decide⟩

/-- C16: `bus_kernel_pop_memfd` on a kernel connection: on a non-empty cache
it removes the entry stored last and returns exactly that entry's descriptor,
mapping address and recorded size, the entry count going down by one; on an
empty cache it leaves the connection unchanged, asks the kernel for a fresh
descriptor and, the kernel providing one, returns it with a null mapping and
size 0.  A pop right after a push that stored (fd, address, size ≤ cap)
returns (fd, address, size) and leaves the entries and the entry count of the
cache as they were before the push. -/
theorem pop_memfd_entry (o : bus_world) (b : sd_bus) (address size : Nat)
    (hk : b.is_kernel = true) :
    (0 < b.n_memfd_cache → b.n_memfd_cache ≤ b.memfd_cache.length →
      ∃ c b2, cache_entries b = cache_entries b2 ++ [c] ∧
        b2.n_memfd_cache + 1 = b.n_memfd_cache ∧
        bus_kernel_pop_memfd o (some b) address size =
          { r := c.fd, bus := some b2, address := c.address, size := c.size
            calls := [bus_call.mutex_lock, bus_call.mutex_unlock] }) ∧
    (b.n_memfd_cache = 0 →
      (bus_kernel_pop_memfd o (some b) address size).bus = some b ∧
      (bus_kernel_pop_memfd o (some b) address size).calls =
        [bus_call.mutex_lock, bus_call.mutex_unlock, bus_call.cmd_memfd_new] ∧
      (0 ≤ o.memfd_new.1 →
        (bus_kernel_pop_memfd o (some b) address size).r = o.memfd_new.2.2 ∧
        (bus_kernel_pop_memfd o (some b) address size).address = 0 ∧
        (bus_kernel_pop_memfd o (some b) address size).size = 0)) ∧
    (∀ fd a s, b.n_memfd_cache < b.memfd_cache.length → s ≤ memfd_cap o →
      ∃ b2, bus_kernel_pop_memfd o (bus_kernel_push_memfd o (some b) fd a s).bus address size =
          { r := fd, bus := some b2, address := a, size := s
            calls := [bus_call.mutex_lock, bus_call.mutex_unlock] } ∧
        cache_entries b2 = cache_entries b ∧
        b2.n_memfd_cache = b.n_memfd_cache ∧
        b2 = { b with memfd_cache := b.memfd_cache.set b.n_memfd_cache
                        { fd := fd, address := a, size := s } }) := by
  refine ⟨?_, ?_, ?_⟩
  · intro h0 hn
    rw [pop_memfd_of_nonempty o b address size hk h0]
    refine ⟨b.memfd_cache.getD (b.n_memfd_cache - 1) {},
      { b with n_memfd_cache := b.n_memfd_cache - 1 }, ?_, ?_, rfl⟩
    · exact take_pred_append _ _ _ h0 hn
    · show b.n_memfd_cache - 1 + 1 = b.n_memfd_cache
      omega
  · intro h0
    rw [pop_memfd_empty o b address size hk h0]
    refine ⟨?_, ?_, ?_⟩
    · split_ifs <;> rfl
    · split_ifs <;> rfl
    · intro h
      rw [if_neg (not_lt.mpr h)]
      exact ⟨rfl, rfl, rfl⟩
  · intro fd a s hf hs
    rw [push_memfd_store o b fd a s hk hf]
    dsimp only
    rw [pop_memfd_of_nonempty o ({ b with
        n_memfd_cache := b.n_memfd_cache + 1
        memfd_cache := b.memfd_cache.set b.n_memfd_cache
          { fd := fd, address := a, size := min s (memfd_cap o) } } : sd_bus) address size hk
      (by show 0 < b.n_memfd_cache + 1; omega)]
    dsimp only
    rw [Nat.add_sub_cancel, Nat.min_eq_left hs]
    have hg : (b.memfd_cache.set b.n_memfd_cache
        ({ fd := fd, address := a, size := s } : memfd_cache)).getD b.n_memfd_cache {}
          = { fd := fd, address := a, size := s } := by
      simp [List.getD, List.getElem?_set, hf]
    rw [hg]
    refine ⟨_, rfl, ?_, rfl, rfl⟩
    show (b.memfd_cache.set b.n_memfd_cache _).take b.n_memfd_cache
      = b.memfd_cache.take b.n_memfd_cache
    exact take_set_self _ _ _

/-- A pop on the full sample cache. -/
theorem pop_memfd_entry_witness :
    sample_full_bus.is_kernel = true ∧
    (∃ c b2, cache_entries sample_full_bus = cache_entries b2 ++ [c] ∧
      b2.n_memfd_cache + 1 = sample_full_bus.n_memfd_cache ∧
      bus_kernel_pop_memfd sample_world (some sample_full_bus) 0 0 =
        { r := c.fd, bus := some b2, address := c.address, size := c.size
          calls := [bus_call.mutex_lock, bus_call.mutex_unlock] }) ∧
    (bus_kernel_pop_memfd sample_world (some sample_full_bus) 0 0).r = 4 :=
  ⟨rfl,
   (pop_memfd_entry sample_world sample_full_bus 0 0 rfl).1 (by decide) (by decide),
   by decide⟩

/-! ### Segment cache: the lock -/

theorem pop_memfd_lock (o : bus_world) (bus : Option sd_bus) (address size : Nat) :
    no_syscall_under_lock false (bus_kernel_pop_memfd o bus address size).calls = true := by
  unfold bus_kernel_pop_memfd
  cases bus with
  | none => rfl
  | some b =>
    dsimp only
    split_ifs <;> rfl

theorem push_memfd_lock (o : bus_world) (bus : Option sd_bus) (fd : Int) (address size : Nat)
    (h : ∀ b, bus = some b → b.is_kernel = true → b.n_memfd_cache < b.memfd_cache.length →
      size ≤ memfd_cap o) :
    no_syscall_under_lock false (bus_kernel_push_memfd o bus fd address size).calls = true := by
  have hc : no_syscall_under_lock false (close_and_munmap o fd address size) = true := by
    unfold close_and_munmap
    split_ifs <;> rfl
  cases bus with
  | none => exact hc
  | some b =>
    by_cases hk : b.is_kernel = true
    · by_cases hf : b.n_memfd_cache < b.memfd_cache.length
      · rw [push_memfd_store o b fd address size hk hf]
        dsimp only
        rw [if_neg (by have := h b rfl hk hf; omega)]
        rfl
      · rw [push_memfd_full o b fd address size hk (by omega)]
        exact hc
    · unfold bus_kernel_push_memfd
      dsimp only
      rw [if_pos (by simpa using hk)]
      exact hc

/-- C17: pushing a 256 KiB segment on the empty sample cache resizes the
kernel object and unmaps the trailing region between taking and releasing the
mutex of the cache. -/
theorem push_memfd_oversized_under_lock :
    (bus_kernel_push_memfd sample_world (some sample_kernel_bus) 5 8192 262144).calls =
      [bus_call.mutex_lock, bus_call.cmd_memfd_size_set 5 131072,
       bus_call.munmap 139264 131072, bus_call.mutex_unlock] ∧
    no_syscall_under_lock false
      (bus_kernel_push_memfd sample_world (some sample_kernel_bus) 5 8192 262144).calls
        = false := by
  decide

/-! ### Connection setup: the handshake -/

theorem high_bits_iff (n : Nat) : n > 0xFFFFFFFF ↔ n >>> 32 ≠ 0 := by
  rw [Nat.shiftRight_eq_div_pow]
  constructor
  · intro h
    have : 1 ≤ n / 2 ^ 32 := (Nat.one_le_div_iff (by norm_num)).mpr (by norm_num; omega)
    omega
  · intro h
    by_contra hc
    exact h (Nat.div_eq_of_lt (by norm_num; omega))

theorem take_fd_finish_rejects (o : bus_world) (b : sd_bus) (hello : kdbus_cmd_hello)
    (calls : List bus_call) (hr : ∀ b2, o.start_running_r b2 ≠ -ENOTSUP) :
    ((take_fd_finish o b hello calls).r = -ENOTSUP ↔
      (hello.bus_flags >>> 32 ≠ 0 ∨ hello.conn_flags >>> 32 ≠ 0 ∨
        hello.bloom_size ≠ BLOOM_SIZE)) ∧
    ((take_fd_finish o b hello calls).r = -ENOTSUP → (take_fd_finish o b hello calls).b = b) := by
  rw [← high_bits_iff, ← high_bits_iff]
  unfold take_fd_finish
  by_cases h1 : hello.bus_flags > 0xFFFFFFFF ∨ hello.conn_flags > 0xFFFFFFFF
  · rw [if_pos h1]
    refine ⟨⟨fun _ => ?_, fun _ => rfl⟩, fun _ => rfl⟩
    rcases h1 with h | h
    · exact Or.inl h
    · exact Or.inr (Or.inl h)
  · rw [if_neg h1]
    by_cases h2 : hello.bloom_size ≠ BLOOM_SIZE
    · rw [if_pos h2]
      exact ⟨⟨fun _ => Or.inr (Or.inr h2), fun _ => rfl⟩, fun _ => rfl⟩
    · rw [if_neg h2]
      have hno : ¬ (hello.bus_flags > 0xFFFFFFFF ∨ hello.conn_flags > 0xFFFFFFFF ∨
          hello.bloom_size ≠ BLOOM_SIZE) := by
        rintro (h | h | h)
        · exact h1 (Or.inl h)
        · exact h1 (Or.inr h)
        · exact h2 h
      by_cases h3 : ¬ o.asprintf_ok = true
      · rw [if_pos h3]
        refine ⟨⟨fun h => ?_, fun h => absurd h hno⟩, fun h => ?_⟩
        · exact absurd h (show (-ENOMEM : Int) ≠ -ENOTSUP by decide)
        · exact absurd h (show (-ENOMEM : Int) ≠ -ENOTSUP by decide)
      · rw [if_neg h3]
        dsimp only [bus_start_running]
        refine ⟨⟨fun h => ?_, fun h => absurd h hno⟩, fun h => ?_⟩
        · exact absurd h (hr _)
        · exact absurd h (hr _)

theorem take_fd_finish_accepts (o : bus_world) (b : sd_bus) (hello : kdbus_cmd_hello)
    (calls : List bus_call) (h1 : hello.bus_flags < 2 ^ 32) (h2 : hello.conn_flags < 2 ^ 32)
    (h3 : hello.bloom_size = BLOOM_SIZE) (h4 : o.asprintf_ok = true) :
    (take_fd_finish o b hello calls).b.is_kernel = true ∧
    (take_fd_finish o b hello calls).b.unique_id = hello.id ∧
    (take_fd_finish o b hello calls).b.unique_name = some (format_unique_name hello.id) ∧
    (take_fd_finish o b hello calls).b.server_id = hello.id128 := by
  unfold take_fd_finish
  rw [if_neg (by norm_num at h1 h2; omega), if_neg (by simp [h3]), if_neg (by simp [h4])]
  exact ⟨rfl, rfl, rfl, rfl⟩

theorem take_fd_of_handshake (o : bus_world) (b : sd_bus) (hs : b.is_server = false)
    (hh : 0 ≤ (o.cmd_hello (take_fd_hello b)).1)
    (hm : b.kdbus_buffer = 0 → o.mmap_pool.1 ≠ MAP_FAILED) :
    ∃ b2 calls, bus_kernel_take_fd o b
        = take_fd_finish o b2 (o.cmd_hello (take_fd_hello b)).2.2 calls ∧
      b2.unique_id = b.unique_id ∧ b2.unique_name = b.unique_name ∧
      b2.server_id = b.server_id ∧ b2.is_kernel = b.is_kernel := by
  unfold bus_kernel_take_fd
  dsimp only
  rw [if_neg (by simp [hs]), if_neg (not_lt.mpr hh)]
  by_cases h0 : b.kdbus_buffer = 0
  · rw [if_pos h0, if_neg (hm h0)]
    exact ⟨_, _, rfl, rfl, rfl, rfl, rfl⟩
  · rw [if_neg h0]
    exact ⟨_, _, rfl, rfl, rfl, rfl, rfl⟩

/-- C18: on a client connection whose hello call and pool mapping succeed
(and whose start does not itself report not-supported),
`bus_kernel_take_fd` returns the not-supported error exactly when the
reported bus flags or connection flags have a bit above the low 32 set or
the reported bloom size differs from `BLOOM_SIZE`; hence every combination of
the low 32 flag bits is accepted, and the identity is then derived from the
reply; and on rejection the unique id, the unique name, the id of the bus and
the is-kernel marker of the connection are as they were before the call. -/
theorem take_fd_handshake (o : bus_world) (b : sd_bus) (hs : b.is_server = false)
    (hh : 0 ≤ (o.cmd_hello (take_fd_hello b)).1)
    (hm : b.kdbus_buffer = 0 → o.mmap_pool.1 ≠ MAP_FAILED)
    (hr : ∀ b2, o.start_running_r b2 ≠ -ENOTSUP) :
    ((bus_kernel_take_fd o b).r = -ENOTSUP ↔
      ((o.cmd_hello (take_fd_hello b)).2.2.bus_flags >>> 32 ≠ 0 ∨
        (o.cmd_hello (take_fd_hello b)).2.2.conn_flags >>> 32 ≠ 0 ∨
        (o.cmd_hello (take_fd_hello b)).2.2.bloom_size ≠ BLOOM_SIZE)) ∧
    ((o.cmd_hello (take_fd_hello b)).2.2.bus_flags < 2 ^ 32 →
      (o.cmd_hello (take_fd_hello b)).2.2.conn_flags < 2 ^ 32 →
      (o.cmd_hello (take_fd_hello b)).2.2.bloom_size = BLOOM_SIZE →
      (bus_kernel_take_fd o b).r ≠ -ENOTSUP ∧
      (o.asprintf_ok = true →
        (bus_kernel_take_fd o b).b.is_kernel = true ∧
        (bus_kernel_take_fd o b).b.unique_id = (o.cmd_hello (take_fd_hello b)).2.2.id ∧
        (bus_kernel_take_fd o b).b.unique_name
          = some (format_unique_name (o.cmd_hello (take_fd_hello b)).2.2.id))) ∧
    ((bus_kernel_take_fd o b).r = -ENOTSUP →
      (bus_kernel_take_fd o b).b.unique_id = b.unique_id ∧
      (bus_kernel_take_fd o b).b.unique_name = b.unique_name ∧
      (bus_kernel_take_fd o b).b.server_id = b.server_id ∧
      (bus_kernel_take_fd o b).b.is_kernel = b.is_kernel) := by
  obtain ⟨b2, calls, e, e1, e2, e3, e4⟩ := take_fd_of_handshake o b hs hh hm
  obtain ⟨r1, r2⟩ := take_fd_finish_rejects o b2 (o.cmd_hello (take_fd_hello b)).2.2 calls hr
  rw [e]
  refine ⟨r1, ?_, ?_⟩
  · intro h1 h2 h3
    refine ⟨?_, ?_⟩
    · intro h
      rcases r1.mp h with g | g | g
      · exact g (by rw [Nat.shiftRight_eq_div_pow]; exact Nat.div_eq_of_lt h1)
      · exact g (by rw [Nat.shiftRight_eq_div_pow]; exact Nat.div_eq_of_lt h2)
      · exact g h3
    · intro h4
      obtain ⟨a1, a2, a3, _⟩ :=
        take_fd_finish_accepts o b2 (o.cmd_hello (take_fd_hello b)).2.2 calls h1 h2 h3 h4
      exact ⟨a1, a2, a3⟩
  · intro h
    rw [r2 h]
    exact ⟨e1, e2, e3, e4⟩

/-- A fresh client connection in a world whose kernel reports a connection
flag above bit 32. -/
theorem take_fd_handshake_witness :
    ({} : sd_bus).is_server = false ∧
    0 ≤ (sample_incompatible_world.cmd_hello (take_fd_hello {})).1 ∧
    (bus_kernel_take_fd sample_incompatible_world {}).r = -ENOTSUP ∧
    (bus_kernel_take_fd sample_incompatible_world {}).b.unique_id = ({} : sd_bus).unique_id ∧
    (bus_kernel_take_fd sample_incompatible_world {}).b.unique_name
      = ({} : sd_bus).unique_name ∧
    (bus_kernel_take_fd sample_incompatible_world {}).b.server_id = ({} : sd_bus).server_id ∧
    (bus_kernel_take_fd sample_incompatible_world {}).b.is_kernel = ({} : sd_bus).is_kernel :=
  ⟨rfl, by decide, by decide,
   (take_fd_handshake sample_incompatible_world {} rfl (by decide) (fun _ => by decide)
      (fun _ => show (1 : Int) ≠ -ENOTSUP by decide)).2.2 (by decide)⟩

/-! ### The delivery queue -/

theorem enqueued_push (syn : Bool) (bus : sd_bus) (msg : sd_bus_message)
    (h : syn = true → msg.sealed = true) :
    enqueued_at_tail syn bus { bus with rqueue := bus.rqueue ++ [msg] } :=
  Or.inr ⟨msg, rfl, by simp, by simp, h⟩

theorem seal_synthetic_sealed (o : bus_world) (m : sd_bus_message)
    (h : ¬ (bus_seal_synthetic_message o m).1 < 0) :
    (bus_seal_synthetic_message o m).2.sealed = true := by
  unfold bus_seal_synthetic_message at h ⊢
  dsimp only at h ⊢
  by_cases c : o.seal_r m < 0
  · rw [if_pos c] at h
    exact absurd c h
  · rw [if_neg c]

theorem push_name_owner_changed_enqueued (o : bus_world) (bus : sd_bus)
    (a b c : Option cstr) :
    enqueued_at_tail true bus (push_name_owner_changed o bus a b c).2 := by
  unfold push_name_owner_changed
  simp only
  generalize sd_bus_message_new_signal o _ _ _ = r1
  by_cases h1 : r1.1 < 0
  · rw [if_pos h1]; exact Or.inl rfl
  · rw [if_neg h1]
    generalize sd_bus_message_append_sss o _ _ _ _ = r2
    by_cases h2 : r2.1 < 0
    · rw [if_pos h2]; exact Or.inl rfl
    · rw [if_neg h2]
      generalize ({ r2.2 with sender := some "org.freedesktop.DBus".data } : sd_bus_message) = mm
      by_cases h3 : (bus_seal_synthetic_message o mm).1 < 0
      · rw [if_pos h3]; exact Or.inl rfl
      · rw [if_neg h3]
        exact enqueued_push _ _ _ (fun _ => seal_synthetic_sealed o mm h3)

theorem translate_reply_enqueued (o : bus_world) (bus : sd_bus) (k : kdbus_msg)
    (d : kdbus_item) : enqueued_at_tail true bus (translate_reply o bus k d).2 := by
  unfold translate_reply
  simp only
  generalize bus_message_new_synthetic_error o _ _ _ = r1
  by_cases h1 : r1.1 < 0
  · rw [if_pos h1]; exact Or.inl rfl
  · rw [if_neg h1]
    generalize ({ r1.2 with sender := some "org.freedesktop.DBus".data } : sd_bus_message) = mm
    by_cases h3 : (bus_seal_synthetic_message o mm).1 < 0
    · rw [if_pos h3]; exact Or.inl rfl
    · rw [if_neg h3]
      exact enqueued_push _ _ _ (fun _ => seal_synthetic_sealed o mm h3)

theorem write_message_reply_enqueued (o : bus_world) (bus : sd_bus) (m : sd_bus_message)
    (calls : List bus_call) (name message : cstr) :
    enqueued_at_tail true bus (write_message_reply o bus m calls name message).bus := by
  unfold write_message_reply
  simp only
  generalize bus_message_new_synthetic_error o _ _ _ = r1
  by_cases h1 : r1.1 < 0
  · rw [if_pos h1]; exact Or.inl rfl
  · rw [if_neg h1]
    by_cases h3 : (bus_seal_synthetic_message o r1.2).1 < 0
    · rw [if_pos h3]; exact Or.inl rfl
    · rw [if_neg h3]
      exact enqueued_push _ _ _ (fun _ => seal_synthetic_sealed o r1.2 h3)

theorem write_message_enqueued (o : bus_world) (bus : sd_bus) (m : sd_bus_message) :
    enqueued_at_tail true bus (bus_kernel_write_message o bus m).bus := by
  unfold bus_kernel_write_message
  dsimp only
  split_ifs
  · exact Or.inl rfl
  · exact Or.inl rfl
  · unfold write_message_failed
    split_ifs <;> first | exact Or.inl rfl | exact write_message_reply_enqueued _ _ _ _ _ _
  · exact Or.inl rfl

theorem make_message_enqueued (o : bus_world) (bus : sd_bus) (k : kdbus_msg) :
    enqueued_at_tail false bus (bus_kernel_make_message o bus k).bus := by
  unfold bus_kernel_make_message
  dsimp only
  split_ifs
  · exact Or.inl rfl
  · exact enqueued_push _ _ _ (fun h => absurd h (by decide))

/-- C19: each function of this layer that enqueues (the receiver of a
message, the synthesis of a NameOwnerChanged signal, the synthesis of a
reply-failure error, the send with its error reply) leaves the connection
either as it was or with exactly one message appended at the tail of the
delivery queue: the queue is one longer and its earlier entries are the
old queue, in order; and a synthetic message is sealed when it is appended. -/
theorem enqueue_at_tail (o : bus_world) (bus : sd_bus) (k : kdbus_msg) (d : kdbus_item)
    (m : sd_bus_message) (name old_owner new_owner : Option cstr) :
    enqueued_at_tail false bus (bus_kernel_make_message o bus k).bus ∧
    enqueued_at_tail true bus (push_name_owner_changed o bus name old_owner new_owner).2 ∧
    enqueued_at_tail true bus (translate_reply o bus k d).2 ∧
    enqueued_at_tail true bus (bus_kernel_write_message o bus m).bus :=
  ⟨make_message_enqueued o bus k, push_name_owner_changed_enqueued o bus _ _ _,
   translate_reply_enqueued o bus k d, write_message_enqueued o bus m⟩

/-! ### Receiving: descriptors on the failure path -/

theorem from_header_free_fds (o : bus_world) (h : Nat) (fds : List Int)
    (seclabel : Option cstr) :
    (bus_message_from_header o h fds seclabel).2.free_fds = false := by
  unfold bus_message_from_header
  dsimp only
  split_ifs <;> rfl

theorem parse_fields_free_fds (o : bus_world) (m : sd_bus_message) :
    (bus_message_parse_fields o m).2.free_fds = m.free_fds ∧
    (bus_message_parse_fields o m).2.fds = m.fds := by
  unfold bus_message_parse_fields
  dsimp only
  split_ifs <;> exact ⟨rfl, rfl⟩

theorem make_message_hydrate_free_fds (bus : sd_bus) (m : sd_bus_message) (d : kdbus_item) :
    (make_message_hydrate bus m d).free_fds = m.free_fds := by
  unfold make_message_hydrate
  by_cases c0 : d.type = KDBUS_ITEM_CREDS
  · rw [if_pos c0]
  rw [if_neg c0]
  by_cases c1 : d.type = KDBUS_ITEM_TIMESTAMP
  · rw [if_pos c1]
  rw [if_neg c1]
  by_cases c2 : d.type = KDBUS_ITEM_PID_COMM
  · rw [if_pos c2]
  rw [if_neg c2]
  by_cases c3 : d.type = KDBUS_ITEM_TID_COMM
  · rw [if_pos c3]
  rw [if_neg c3]
  by_cases c4 : d.type = KDBUS_ITEM_EXE
  · rw [if_pos c4]
  rw [if_neg c4]
  by_cases c5 : d.type = KDBUS_ITEM_CMDLINE
  · rw [if_pos c5]
  rw [if_neg c5]
  by_cases c6 : d.type = KDBUS_ITEM_CGROUP
  · rw [if_pos c6]
  rw [if_neg c6]
  by_cases c7 : d.type = KDBUS_ITEM_AUDIT
  · rw [if_pos c7]
  rw [if_neg c7]
  by_cases c8 : d.type = KDBUS_ITEM_CAPS
  · rw [if_pos c8]
  rw [if_neg c8]
  by_cases c9 : d.type = KDBUS_ITEM_NAMES
  · rw [if_pos c9]
  rw [if_neg c9]

theorem make_message_item_free_fds (o : bus_world) (bus : sd_bus) (st : make_pass2)
    (d : kdbus_item) : (make_message_item o bus st d).2.m.free_fds = st.m.free_fds := by
  unfold make_message_item
  by_cases h1 : d.type = KDBUS_ITEM_PAYLOAD_OFF
  · rw [if_pos h1]
    unfold make_message_payload_off
    dsimp only
    split_ifs <;> rfl
  · rw [if_neg h1]
    by_cases h2 : d.type = KDBUS_ITEM_PAYLOAD_MEMFD
    · rw [if_pos h2]
      unfold make_message_payload_memfd
      dsimp only
      split_ifs <;> rfl
    · rw [if_neg h2]
      by_cases h3 : d.type = KDBUS_ITEM_DST_NAME
      · rw [if_pos h3]
      · rw [if_neg h3]
        exact make_message_hydrate_free_fds _ _ _

theorem make_message_pass2_free_fds (o : bus_world) (bus : sd_bus) (items : List kdbus_item)
    (st : make_pass2) : (make_message_pass2 o bus st items).2.m.free_fds = st.m.free_fds := by
  induction items generalizing st with
  | nil => rfl
  | cons d ds ih =>
    unfold make_message_pass2
    dsimp only
    by_cases h : (make_message_item o bus st d).1 < 0
    · rw [if_pos h]
      exact make_message_item_free_fds _ _ _ _
    · rw [if_neg h, ih]
      exact make_message_item_free_fds _ _ _ _

theorem make_message_detach_parts (m : sd_bus_message) :
    ∀ part ∈ (make_message_detach m).body_parts, part.memfd < 0 := by
  intro part hp
  unfold make_message_detach at hp
  simp only [List.mem_map] at hp
  obtain ⟨p, _, rfl⟩ := hp
  by_cases h : p.memfd ≥ 0
  · rw [if_pos h]
    show (-1 : Int) < 0
    decide
  · rw [if_neg h]
    omega

theorem unref_of_detached (m : sd_bus_message) (hf : m.free_fds = false)
    (hp : ∀ part ∈ m.body_parts, part.memfd < 0) : sd_bus_message_unref m = [] := by
  unfold sd_bus_message_unref
  rw [hf]
  simp only [Bool.false_eq_true, if_false, List.nil_append, List.flatMap_eq_nil_iff]
  intro part hmem
  rw [if_neg (by have := hp part hmem; omega)]

theorem make_message_construct_unref (o : bus_world) (bus : sd_bus) (k : kdbus_msg)
    (m : sd_bus_message) (h : (make_message_construct o bus k).unref = some m) :
    (make_message_construct o bus k).r < 0 ∧
    ∃ built : sd_bus_message, m = make_message_detach built ∧ built.free_fds = false := by
  unfold make_message_construct at h ⊢
  simp only at h ⊢
  by_cases h1 : (make_message_pass1 o bus {} k.items).1 < 0
  · rw [if_pos h1] at h; simp at h
  · rw [if_neg h1] at h ⊢
    cases hh : (make_message_pass1 o bus {} k.items).2.h with
    | none => rw [hh] at h; simp at h
    | some hp =>
      rw [hh] at h
      simp only at h ⊢
      by_cases h2 : (bus_header_message_size (o.header_at hp)).1 < 0
      · rw [if_pos h2] at h; simp at h
      · rw [if_neg h2] at h ⊢
        by_cases h3 : (make_message_pass1 o bus {} k.items).2.n_bytes
            ≠ (bus_header_message_size (o.header_at hp)).2
        · rw [if_pos h3] at h; simp at h
        · rw [if_neg h3] at h ⊢
          by_cases h4 : (bus_message_from_header o hp (make_message_pass1 o bus {} k.items).2.fds
              (make_message_pass1 o bus {} k.items).2.seclabel).1 < 0
          · rw [if_pos h4] at h; simp at h
          · rw [if_neg h4] at h ⊢
            have hfree : (make_message_pass2 o bus
                { m := (bus_message_from_header o hp (make_message_pass1 o bus {} k.items).2.fds
                  (make_message_pass1 o bus {} k.items).2.seclabel).2 } k.items).2.m.free_fds
                  = false := by
              rw [make_message_pass2_free_fds]
              exact from_header_free_fds _ _ _ _
            by_cases h5 : (make_message_pass2 o bus
                { m := (bus_message_from_header o hp (make_message_pass1 o bus {} k.items).2.fds
                  (make_message_pass1 o bus {} k.items).2.seclabel).2 } k.items).1 < 0
            · rw [if_pos h5] at h ⊢
              simp only [Option.some.injEq] at h
              exact ⟨h5, _, h.symm, hfree⟩
            · rw [if_neg h5] at h ⊢
              by_cases h6 : (bus_message_parse_fields o (make_message_pass2 o bus
                  { m := (bus_message_from_header o hp
                    (make_message_pass1 o bus {} k.items).2.fds
                    (make_message_pass1 o bus {} k.items).2.seclabel).2 } k.items).2.m).1 < 0
              · rw [if_pos h6] at h ⊢
                simp only [Option.some.injEq] at h
                refine ⟨h6, _, h.symm, ?_⟩
                rw [(parse_fields_free_fds _ _).1]
                exact hfree
              · rw [if_neg h6] at h; simp at h

theorem make_message_unref (o : bus_world) (bus : sd_bus) (k : kdbus_msg)
    (m : sd_bus_message) (h : (bus_kernel_make_message o bus k).unref = some m) :
    (bus_kernel_make_message o bus k).r < 0 ∧ (bus_kernel_make_message o bus k).bus = bus ∧
    ∃ built : sd_bus_message, m = make_message_detach built ∧ built.free_fds = false := by
  unfold bus_kernel_make_message at h ⊢
  dsimp only at h ⊢
  by_cases c : (make_message_construct o bus k).r < 0
  · rw [if_pos c] at h ⊢
    exact ⟨c, rfl, (make_message_construct_unref o bus k m h).2⟩
  · rw [if_neg c] at h
    simp at h

theorem closed_descriptors_append (a b : List bus_call) :
    closed_descriptors (a ++ b) = closed_descriptors a ++ closed_descriptors b := by
  unfold closed_descriptors
  exact List.filterMap_append _ _ _

theorem closed_descriptors_close_many (fds : List Int) (n : Nat) :
    closed_descriptors (close_many fds n) = fds.take n := by
  unfold closed_descriptors close_many
  generalize fds.take n = l
  induction l with
  | nil => rfl
  | cons a t ih => simp [List.filterMap_cons, ih]

theorem closed_descriptors_close_kdbus_msg (bus : sd_bus) (kp : Nat) (k : kdbus_msg) :
    closed_descriptors (close_kdbus_msg bus kp k) = kdbus_msg_descriptors k := by
  unfold close_kdbus_msg kdbus_msg_descriptors
  generalize k.items = items
  have h0 : ∀ l, closed_descriptors (bus_call.cmd_free (kp - bus.kdbus_buffer) :: l)
      = closed_descriptors l := by
    intro l
    unfold closed_descriptors
    rfl
  rw [h0]
  induction items with
  | nil => rfl
  | cons d ds ih =>
    rw [List.flatMap_cons, List.flatMap_cons, closed_descriptors_append, ih]
    congr 1
    by_cases h1 : d.type = KDBUS_ITEM_FDS
    · rw [if_pos h1, if_pos h1]
      exact closed_descriptors_close_many _ _
    · rw [if_neg h1, if_neg h1]
      by_cases h2 : d.type = KDBUS_ITEM_PAYLOAD_MEMFD
      · rw [if_pos h2, if_pos h2]
        rfl
      · rw [if_neg h2, if_neg h2]
        rfl

/-- C20: when `bus_kernel_make_message` fails on a received message after
the message object was constructed, the partially built message it discards
holds no memfd any more (every part that held one was reset to -1), so that
discarding it closes nothing, and `bus_kernel_read_message` returns the
failure having closed exactly the descriptors the kernel message carries
(those of its attached-fds items and of its payload-memfd items), each
occurrence once, all of them by `close_kdbus_msg`. -/
theorem read_message_failure_closes_once (o : bus_world) (bus : sd_bus) (m : sd_bus_message)
    (hroom : 0 ≤ o.make_room_r bus) (hrecv : 0 ≤ o.msg_recv.1)
    (hp : (received_message o bus).payload_type = KDBUS_PAYLOAD_DBUS1)
    (hu : (bus_kernel_make_message o bus (received_message o bus)).unref = some m) :
    (∃ built : sd_bus_message, m = make_message_detach built) ∧
    (∀ part ∈ m.body_parts, part.memfd < 0) ∧
    sd_bus_message_unref m = [] ∧
    (bus_kernel_read_message o bus).r < 0 ∧
    (bus_kernel_read_message o bus).calls
      = bus_call.cmd_msg_recv ::
          close_kdbus_msg bus (bus.kdbus_buffer + o.msg_recv.2.2) (received_message o bus) ∧
    closed_descriptors (bus_kernel_read_message o bus).calls
      = kdbus_msg_descriptors (received_message o bus) := by
  obtain ⟨hr, hb, built, hm, hfree⟩ := make_message_unref o bus _ m hu
  have hparts : ∀ part ∈ m.body_parts, part.memfd < 0 := by
    rw [hm]; exact make_message_detach_parts built
  have hfree2 : m.free_fds = false := by rw [hm]; exact hfree
  have hunref := unref_of_detached m hfree2 hparts
  have hd : read_message_dispatch o bus (received_message o bus)
      = bus_kernel_make_message o bus (received_message o bus) := by
    unfold read_message_dispatch
    rw [if_pos hp]
  obtain ⟨e1, _, e3⟩ := read_message_received o bus hroom hrecv
  rw [hd] at e1 e3
  rw [if_pos hr] at e1
  rw [hu, if_pos (le_of_lt hr), hb] at e3
  dsimp only at e3
  rw [hunref] at e3
  have hcalls : (bus_kernel_read_message o bus).calls
      = bus_call.cmd_msg_recv ::
          close_kdbus_msg bus (bus.kdbus_buffer + o.msg_recv.2.2) (received_message o bus) := by
    rw [e3]; rfl
  refine ⟨⟨built, hm⟩, hparts, hunref, by rw [e1]; exact hr, hcalls, ?_⟩
  rw [hcalls]
  have h0 : ∀ l, closed_descriptors (bus_call.cmd_msg_recv :: l) = closed_descriptors l := by
    intro l
    unfold closed_descriptors
    rfl
  rw [h0]
  exact closed_descriptors_close_kdbus_msg _ _ _

/-- The sample message with two attached descriptors and two memfds, whose
second memfd cannot be attached for lack of memory. -/
theorem read_message_failure_closes_once_witness :
    0 ≤ sample_early_memfd_world.make_room_r {} ∧
    0 ≤ sample_early_memfd_world.msg_recv.1 ∧
    (received_message sample_early_memfd_world {}).payload_type = KDBUS_PAYLOAD_DBUS1 ∧
    ((bus_kernel_make_message sample_early_memfd_world {}
      (received_message sample_early_memfd_world {})).unref.map
        (fun m => m.body_parts.map (fun part => part.memfd))) = some [-1] ∧
    (bus_kernel_read_message sample_early_memfd_world {}).r = -ENOMEM ∧
    closed_descriptors (bus_kernel_read_message sample_early_memfd_world {}).calls
      = [10, 11, 12, 13] :=
  ⟨by decide, by decide, by decide, by decide, by decide,
   (read_message_failure_closes_once sample_early_memfd_world {}
      ((bus_kernel_make_message sample_early_memfd_world {}
        (received_message sample_early_memfd_world {})).unref.getD {})
      (by decide) (by decide) (by decide) (by decide)).2.2.2.2.2⟩

/-! ### Notification translator: name items with flags -/

/-- C29: for a name-add, name-remove or name-change item whose flags field is
non-zero, `translate_name_change` returns 0 and leaves the connection, and
with it the delivery queue, unchanged; so does `bus_kernel_translate_message`
on a kernel message whose one recognized item it is. -/
theorem translate_name_change_flagged (o : bus_world) (bus : sd_bus) (k : kdbus_msg)
    (d : kdbus_item)
    (ht : d.type = KDBUS_ITEM_NAME_ADD ∨ d.type = KDBUS_ITEM_NAME_REMOVE ∨
      d.type = KDBUS_ITEM_NAME_CHANGE)
    (hf : d.name_change.flags ≠ 0) :
    translate_name_change o bus k d = (0, bus) ∧
    (k.items.filter is_kernel_item = [d] → bus_kernel_translate_message o bus k = (0, bus)) := by
  have h1 : translate_name_change o bus k d = (0, bus) := by
    unfold translate_name_change
    rw [if_pos hf]
  refine ⟨h1, fun hd => ?_⟩
  rw [translate_dispatch o bus k d translate_name_change hd
    (by rcases ht with h | h | h <;> rw [h] <;> rfl)]
  exact h1

/-- The flagged name-add item, alone in a kernel message, on an empty
connection. -/
theorem translate_name_change_flagged_witness :
    sample_flagged_name_add.type = KDBUS_ITEM_NAME_ADD ∧
    sample_flagged_name_add.name_change.flags ≠ 0 ∧
    translate_name_change sample_world {} { items := [sample_flagged_name_add] }
      sample_flagged_name_add = (0, {}) ∧
    bus_kernel_translate_message sample_world {} { items := [sample_flagged_name_add] }
      = (0, {}) :=
  ⟨rfl, by decide,
   (translate_name_change_flagged sample_world {} { items := [sample_flagged_name_add] }
      sample_flagged_name_add (Or.inl rfl) (by decide)).1,
   (translate_name_change_flagged sample_world {} { items := [sample_flagged_name_add] }
      sample_flagged_name_add (Or.inl rfl) (by decide)).2 (by decide)⟩

/-! ### Kernel receiver: the part of a pool reference -/

/-- C26: the second loop of `bus_kernel_make_message` on a pool-reference
item of size s and offset o met at payload offset idx (idx + s not wrapping),
with the body starting at bb: if idx + s ≤ bb no body part is appended;
otherwise exactly one part is appended (the message model providing one; else
the loop is left with -ENOMEM): of size s and, unless zero-fill, at pool
offset o when idx ≥ bb, and of size s - (bb - idx) at pool offset
o + (bb - idx) when idx < bb, so that the part starts at or after bb; the part
is a zero-fill part, without a pool reference, exactly when o is the all-ones
"no offset" value.  In each case the payload offset advances by s. -/
theorem make_message_vector_part (o : bus_world) (bus : sd_bus) (st : make_pass2)
    (d : kdbus_item) (ht : d.type = KDBUS_ITEM_PAYLOAD_OFF)
    (hfit : st.idx + d.vec.size < U64) :
    (st.idx + d.vec.size ≤ BUS_MESSAGE_BODY_BEGIN st.m →
      make_message_item o bus st d = (0, { st with idx := st.idx + d.vec.size })) ∧
    (BUS_MESSAGE_BODY_BEGIN st.m < st.idx + d.vec.size → o.append_part_ok st.m = false →
      make_message_item o bus st d = (-ENOMEM, st)) ∧
    (BUS_MESSAGE_BODY_BEGIN st.m < st.idx + d.vec.size → o.append_part_ok st.m = true →
      ∃ part : bus_body_part,
        make_message_item o bus st d =
          (0, { st with m := { st.m with body_parts := st.m.body_parts ++ [part] }
                        idx := st.idx + d.vec.size }) ∧
        part.memfd = -1 ∧ part.sealed = true ∧
        (part.is_zero = true ↔ d.vec.offset = NO_OFFSET) ∧
        (d.vec.offset = NO_OFFSET → part.data = 0) ∧
        (BUS_MESSAGE_BODY_BEGIN st.m ≤ st.idx →
          part.size = d.vec.size ∧
          (d.vec.offset ≠ NO_OFFSET → part.data = bus.kdbus_buffer + d.vec.offset)) ∧
        (st.idx < BUS_MESSAGE_BODY_BEGIN st.m →
          part.size = d.vec.size - (BUS_MESSAGE_BODY_BEGIN st.m - st.idx) ∧
          (d.vec.offset ≠ NO_OFFSET →
            part.data = bus.kdbus_buffer + d.vec.offset +
              (BUS_MESSAGE_BODY_BEGIN st.m - st.idx))) ∧
        max st.idx (BUS_MESSAGE_BODY_BEGIN st.m) + part.size = st.idx + d.vec.size) := by
  unfold make_message_item
  rw [if_pos ht]
  unfold make_message_payload_off
  simp only [Nat.mod_eq_of_lt hfit]
  refine ⟨?_, ?_, ?_⟩
  · intro h
    rw [if_neg (by omega)]
  · intro h ha
    rw [if_pos (by omega), if_pos (by simp [ha])]
  · intro h ha
    rw [if_pos (by omega), if_neg (by simp [ha])]
    by_cases hi : st.idx ≥ BUS_MESSAGE_BODY_BEGIN st.m
    · rw [if_pos hi]
      refine ⟨_, rfl, rfl, rfl, by simp, ?_, ?_, ?_, ?_⟩
      · intro hz; simp [hz]
      · intro _; exact ⟨rfl, fun hz => by simp [hz]⟩
      · intro hlt; omega
      · show max st.idx (BUS_MESSAGE_BODY_BEGIN st.m) + d.vec.size = _
        omega
    · rw [if_neg hi]
      refine ⟨_, rfl, rfl, rfl, by simp, ?_, ?_, ?_, ?_⟩
      · intro hz; simp [hz]
      · intro hge; omega
      · intro _; exact ⟨rfl, fun hz => by simp [hz]⟩
      · show max st.idx (BUS_MESSAGE_BODY_BEGIN st.m) +
          (d.vec.size - (BUS_MESSAGE_BODY_BEGIN st.m - st.idx)) = _
        omega

/-- A 20-byte pool reference at pool offset 64 met at payload offset 16, the
body starting at 24, in a pool mapped at address 4096: the part has the last
12 bytes, from pool offset 72. -/
theorem make_message_vector_part_witness :
    sample_straddling_item.type = KDBUS_ITEM_PAYLOAD_OFF ∧
    sample_pass2.idx + sample_straddling_item.vec.size < U64 ∧
    BUS_MESSAGE_BODY_BEGIN sample_pass2.m = 24 ∧
    ∃ part : bus_body_part,
      make_message_item sample_world { kdbus_buffer := 4096 } sample_pass2
          sample_straddling_item =
        (0, { sample_pass2 with
              m := { sample_pass2.m with body_parts := sample_pass2.m.body_parts ++ [part] }
              idx := sample_pass2.idx + sample_straddling_item.vec.size }) ∧
      part.size = 12 ∧ part.data = 4096 + 72 ∧ part.is_zero = false :=
  ⟨rfl, by decide, by decide,
   match (make_message_vector_part sample_world { kdbus_buffer := 4096 } sample_pass2
      sample_straddling_item rfl (by decide)).2.2 (by decide) rfl with
   | ⟨part, h1, _, _, h4, _, _, h7, _⟩ =>
     ⟨part, h1, (h7 (by decide)).1, (h7 (by decide)).2 (by decide),
      by
        cases hz : part.is_zero with
        | false => rfl
        | true => exact absurd (h4.mp hz) (by decide)⟩⟩

/-! ### Item writer: the cursor -/

theorem ALIGN8_dvd (x : Nat) : 8 ∣ ALIGN8 x := by
  unfold ALIGN8
  exact Dvd.intro_left _ rfl

theorem ALIGN8_bounds (x : Nat) : x ≤ ALIGN8 x ∧ ALIGN8 x < x + 8 := by
  unfold ALIGN8
  omega

theorem ALIGN8_add (x s : Nat) : ALIGN8 (ALIGN8 x + s) = ALIGN8 x + ALIGN8 s := by
  unfold ALIGN8
  omega

/-- C27, as the claim states it, fails: appending one attached descriptor at
cursor 56 leaves the cursor at 76, which is not a multiple of 8, and the
sample call with one attached descriptor is transcoded into a message of
recorded size 140, which is not a multiple of 8 either. -/
theorem item_writer_cursor_counterexample :
    (append_fds { d := 56, items := [] } [7] 1).d = 76 ∧
    ¬ 8 ∣ (append_fds { d := 56, items := [] } [7] 1).d ∧
    (bus_message_setup_kmsg sample_world sample_fd_call).1 = 0 ∧
    (transcoded sample_world sample_fd_call).size = 140 ∧
    ¬ 8 ∣ (transcoded sample_world sample_fd_call).size := by
  decide

/-- C27, amended: every append of the item writer (payload-vector,
payload-memfd, destination-name of any length, bloom-data, attached-fds of
any count) first rounds the cursor up to the next multiple of 8, writes
exactly one item there, after the items written before, and leaves the cursor
advanced by the exact size of that item, not rounded: 32 for a payload-vector
and a payload-memfd, 16 + length + 1 for a destination name, 16 + length for
bloom data, 16 + 4 n for n attached descriptors. -/
theorem item_writer_cursor (w : item_cursor) (p sz length n_fds : Nat) (memfd : Int)
    (s : cstr) (fds : List Int) :
    8 ∣ ALIGN8 w.d ∧ w.d ≤ ALIGN8 w.d ∧ ALIGN8 w.d < w.d + 8 ∧
    (∃ it : kdbus_item, append_payload_vec w p sz
        = { d := ALIGN8 w.d + it.size, items := w.items ++ [it] } ∧
      it.type = KDBUS_ITEM_PAYLOAD_VEC ∧ it.size = 32 ∧ it.vec = { address := p, size := sz }) ∧
    (∃ it : kdbus_item, append_payload_memfd w memfd sz
        = { d := ALIGN8 w.d + it.size, items := w.items ++ [it] } ∧
      it.type = KDBUS_ITEM_PAYLOAD_MEMFD ∧ it.size = 32 ∧
      it.memfd = { fd := memfd, size := sz }) ∧
    (∃ it : kdbus_item, append_destination w s length
        = { d := ALIGN8 w.d + it.size, items := w.items ++ [it] } ∧
      it.type = KDBUS_ITEM_DST_NAME ∧ it.size = 16 + length + 1 ∧ it.str = s) ∧
    (∃ it : kdbus_item, append_bloom w length
        = { d := ALIGN8 w.d + it.size, items := w.items ++ [it] } ∧
      it.type = KDBUS_ITEM_BLOOM ∧ it.size = 16 + length) ∧
    (∃ it : kdbus_item, append_fds w fds n_fds
        = { d := ALIGN8 w.d + it.size, items := w.items ++ [it] } ∧
      it.type = KDBUS_ITEM_FDS ∧ it.size = 16 + 4 * n_fds ∧ it.fds = fds.take n_fds) :=
  ⟨ALIGN8_dvd w.d, (ALIGN8_bounds w.d).1, (ALIGN8_bounds w.d).2,
   ⟨_, rfl, rfl, rfl, rfl⟩, ⟨_, rfl, rfl, rfl, rfl⟩, ⟨_, rfl, rfl, rfl, rfl⟩,
   ⟨_, rfl, rfl, rfl⟩, ⟨_, rfl, rfl, rfl, rfl⟩⟩

/-! ### Message transcoder: the emitted size -/

theorem setup_kmsg_parts_cursor (o : bus_world) (hd : Bool) (parts : List bus_body_part)
    (w : item_cursor) :
    ALIGN8 (setup_kmsg_parts o hd w parts).2.1.d ≤ ALIGN8 w.d + parts.length * 32 := by
  induction parts generalizing w with
  | nil => simp [setup_kmsg_parts]
  | cons part rest ih =>
    unfold setup_kmsg_parts
    have hv : ∀ p sz, ALIGN8 (append_payload_vec w p sz).d = ALIGN8 w.d + 32 := by
      intro p sz
      show ALIGN8 (ALIGN8 w.d + (16 + 16)) = _
      rw [ALIGN8_add]
      rfl
    have hm : ∀ fd sz, ALIGN8 (append_payload_memfd w fd sz).d = ALIGN8 w.d + 32 := by
      intro fd sz
      show ALIGN8 (ALIGN8 w.d + (16 + 16)) = _
      rw [ALIGN8_add]
      rfl
    simp only [List.length_cons]
    split_ifs
    · have := ih (append_payload_vec w 0 part.size)
      rw [hv] at this
      simp only
      omega
    · have := ih (append_payload_memfd w part.memfd part.size)
      rw [hm] at this
      simp only
      omega
    · simp only
      omega
    · have := ih (append_payload_vec w (bus_body_part_map o part).2.data
        (bus_body_part_map o part).2.size)
      rw [hv] at this
      simp only
      omega

theorem setup_kmsg_emit_size (o : bus_world) (m : sd_bus_message) (wk : Bool) (unique : Nat)
    (h : (setup_kmsg_emit o m wk unique).1 = 0) :
    ∃ k : kdbus_msg, (setup_kmsg_emit o m wk unique).2.kdbus = some k ∧
      k.size ≤ setup_kmsg_sz m wk := by
  unfold setup_kmsg_emit at h ⊢
  simp only at h ⊢
  by_cases h1 : ¬ o.memalign_ok (setup_kmsg_sz m wk) = true
  · rw [if_pos h1] at h; simp [ENOMEM] at h
  · rw [if_neg h1] at h ⊢
    generalize hw0 : (append_payload_vec
      (if wk = true then
        append_destination { d := offsetof_kdbus_msg_items, items := [] } (m.destination.getD [])
          (m.destination.getD []).length
      else { d := offsetof_kdbus_msg_items, items := [] })
      m.header_ptr (BUS_MESSAGE_BODY_BEGIN m)) = w0 at h ⊢
    have hw0d : ALIGN8 w0.d = 56 + (if wk = true then
        ALIGN8 (16 + (m.destination.getD []).length + 1) else 0) + 32 := by
      have e56 : ALIGN8 56 = 56 := by decide
      have e32 : ALIGN8 (16 + 16) = 32 := by decide
      rw [← hw0]
      cases wk
      · show ALIGN8 (ALIGN8 56 + (16 + 16)) = _
        rw [ALIGN8_add, e56, e32]
        simp
      · show ALIGN8 (ALIGN8 (ALIGN8 56 + (16 + (m.destination.getD []).length + 1))
          + (16 + 16)) = _
        rw [ALIGN8_add, ALIGN8_add, e56, e32]
        simp
    generalize setup_kmsg_record m wk unique = k0 at h ⊢
    have hp := setup_kmsg_parts_cursor o m.destination.isSome m.body_parts w0
    have hsz : setup_kmsg_sz m wk = 56 + (1 + m.body_parts.length) * 32 + 80 +
        (if wk = true then ALIGN8 (16 + (m.destination.getD []).length + 1) else 0) +
        (if m.fds.length > 0 then ALIGN8 (16 + 4 * m.fds.length) else 0) := by
      unfold setup_kmsg_sz
      simp only [offsetof_kdbus_msg_items, offsetof_kdbus_item_data, sizeof_kdbus_vec,
        BLOOM_SIZE, sizeof_int]
      have e1 : ALIGN8 (16 + 16) = 32 := rfl
      have e2 : ALIGN8 (16 + 64) = 80 := rfl
      rw [e1, e2]
      cases wk <;> by_cases hf : m.fds.length > 0 <;> simp [hf]
    rw [hsz]
    have hfds : ∀ w : item_cursor, (if m.fds.length > 0 then append_fds w m.fds m.fds.length
        else w).d ≤ ALIGN8 w.d +
          (if m.fds.length > 0 then ALIGN8 (16 + 4 * m.fds.length) else 0) := by
      intro w
      by_cases hf : m.fds.length > 0
      · rw [if_pos hf, if_pos hf]
        show ALIGN8 w.d + (16 + 4 * m.fds.length) ≤ _
        have := (ALIGN8_bounds (16 + 4 * m.fds.length)).1
        omega
      · rw [if_neg hf, if_neg hf]
        have := (ALIGN8_bounds w.d).1
        omega
    by_cases h2 : (setup_kmsg_parts o m.destination.isSome w0 m.body_parts).1 < 0
    · rw [if_pos h2] at h; simp only at h; omega
    · rw [if_neg h2] at h ⊢
      by_cases h3 : k0.dst_id = KDBUS_DST_ID_BROADCAST
      · rw [if_pos h3] at h ⊢
        generalize hbl : bus_message_setup_bloom
          { m with body_parts := (setup_kmsg_parts o m.destination.isSome w0 m.body_parts).2.2,
                   free_kdbus := true } = bl at h ⊢
        by_cases h4 : bl.1 < 0
        · rw [if_pos h4] at h; simp only at h; omega
        · rw [if_neg h4] at h ⊢
          refine ⟨_, rfl, ?_⟩
          have hb : ALIGN8 (append_bloom
              (setup_kmsg_parts o m.destination.isSome w0 m.body_parts).2.1 BLOOM_SIZE).d
              = ALIGN8 (setup_kmsg_parts o m.destination.isSome w0 m.body_parts).2.1.d + 80 := by
            show ALIGN8 (ALIGN8 _ + (16 + 64)) = _
            rw [ALIGN8_add]
            rfl
          have hf := hfds
            { d := (append_bloom
                (setup_kmsg_parts o m.destination.isSome w0 m.body_parts).2.1 BLOOM_SIZE).d
              items := fill_bloom (append_bloom
                (setup_kmsg_parts o m.destination.isSome w0 m.body_parts).2.1 BLOOM_SIZE).items
                bl.2.2 }
          simp only at hf ⊢
          rw [hb] at hf
          clear hsz hfds hbl h hw0
          by_cases hf0 : m.fds.length > 0 <;> cases wk <;>
            simp only [hf0, if_true, if_false, Bool.false_eq_true] at hw0d hf ⊢ <;> omega
      · rw [if_neg h3] at h ⊢
        refine ⟨_, rfl, ?_⟩
        have hf := hfds (setup_kmsg_parts o m.destination.isSome w0 m.body_parts).2.1
        simp only at hf ⊢
        clear hsz hfds h hw0
        by_cases hf0 : m.fds.length > 0 <;> cases wk <;>
          simp only [hf0, if_true, if_false, Bool.false_eq_true] at hw0d hf ⊢ <;> omega

/-- C24: whenever `bus_message_setup_kmsg` transcodes a sealed message, the
size it records for the emitted message does not exceed the size `sz` with
which it allocated the buffer, whatever the number of body parts, the length
of the destination and the number of attached descriptors. -/
theorem setup_kmsg_size_bounded (o : bus_world) (m : sd_bus_message)
    (_hs : m.sealed = true) (hk : m.kdbus = none)
    (h : (bus_message_setup_kmsg o m).1 = 0) :
    ∃ k : kdbus_msg, (bus_message_setup_kmsg o m).2.kdbus = some k ∧
      k.size ≤ setup_kmsg_sz m (well_known_destination m) := by
  unfold well_known_destination
  rcases setup_kmsg_cases o m hk with ⟨hd, he⟩ | ⟨dst, hd, hs, he⟩ | ⟨dst, rest, hd, hs, hr, he⟩ |
    ⟨dst, n, hd, hp, he⟩
  · rw [he] at h ⊢
    rw [hd]
    exact setup_kmsg_emit_size o m false 0 h
  · rw [he] at h ⊢
    rw [hd]
    have hp : (bus_kernel_parse_unique_name dst 0).1 = 0 := by
      unfold bus_kernel_parse_unique_name
      rw [hs]
    simp only [hp, decide_True]
    exact setup_kmsg_emit_size o m true 0 h
  · rw [he] at h
    simp only at h
    omega
  · rw [he] at h ⊢
    rw [hd]
    simp only [hp]
    exact setup_kmsg_emit_size o m false n h

/-- The sample call to `":1.5"` and the sample call with one attached
descriptor. -/
theorem setup_kmsg_size_bounded_witness :
    sample_fd_call.sealed = true ∧ sample_fd_call.kdbus = none ∧
    (bus_message_setup_kmsg sample_world sample_fd_call).1 = 0 ∧
    (∃ k : kdbus_msg, (bus_message_setup_kmsg sample_world sample_fd_call).2.kdbus = some k ∧
      k.size ≤ setup_kmsg_sz sample_fd_call (well_known_destination sample_fd_call)) ∧
    setup_kmsg_sz sample_fd_call (well_known_destination sample_fd_call) = 224 :=
  ⟨rfl, rfl, by decide,
   setup_kmsg_size_bounded sample_world sample_fd_call rfl rfl (by decide), by decide⟩

/-! ### Bloom filter builder -/

theorem drop_of_get_some {α : Type} (l : List α) (r : Nat) (a : α) (h : l.get? r = some a) :
    l.drop r = a :: l.drop (r + 1) := by
  induction l generalizing r with
  | nil => simp at h
  | cons x t ih =>
    cases r with
    | zero =>
      simp only [List.get?_cons_zero, Option.some.injEq] at h
      simp [h]
    | succ r =>
      simp only [List.get?_cons_succ] at h
      simpa using ih r h

theorem drop_of_get_none {α : Type} (l : List α) (r : Nat) (h : l.get? r = none) :
    l.drop r = [] := by
  induction l generalizing r with
  | nil => simp
  | cons x t ih =>
    cases r with
    | zero => simp at h
    | succ r =>
      simp only [List.get?_cons_succ] at h
      simpa using ih r h

theorem bus_message_setup_bloom_eq (m : sd_bus_message) :
    bus_message_setup_bloom m =
      if (sd_bus_message_rewind m).1 < 0 then
        ((sd_bus_message_rewind m).1, m, setup_bloom_metadata m)
      else bus_message_setup_bloom_args 64 0 (sd_bus_message_rewind m).2
        (setup_bloom_metadata m) := by
  unfold bus_message_setup_bloom setup_bloom_metadata
  cases m.interface <;> cases m.member <;> cases m.path <;> rfl

theorem bloom_args_prefix (n i : Nat) (m : sd_bus_message) (bl : bloom_filter) :
    ∃ rest, (bus_message_setup_bloom_args n i m bl).2.2 = bl ++ rest := by
  induction n generalizing i m bl with
  | zero => exact ⟨[], by simp [bus_message_setup_bloom_args]⟩
  | succ n ih =>
    unfold bus_message_setup_bloom_args
    dsimp only
    split_ifs
    · exact ⟨[], by simp⟩
    · exact ⟨[], by simp⟩
    · exact ⟨[], by simp⟩
    · obtain ⟨rest, e⟩ := ih (i + 1) (sd_bus_message_read_basic m).2.2
        (bl ++ [bloom_op.add_pair (bloom_arg_key i) (sd_bus_message_read_basic m).2.1] ++
          [bloom_op.add_prefixes (bloom_arg_key i ++ "-dot-prefix".data)
            (sd_bus_message_read_basic m).2.1 '.'] ++
          [bloom_op.add_prefixes (bloom_arg_key i ++ "-slash-prefix".data)
            (sd_bus_message_read_basic m).2.1 '/'])
      rw [e]
      exact ⟨[bloom_op.add_pair (bloom_arg_key i) (sd_bus_message_read_basic m).2.1] ++
          [bloom_op.add_prefixes (bloom_arg_key i ++ "-dot-prefix".data)
            (sd_bus_message_read_basic m).2.1 '.'] ++
          [bloom_op.add_prefixes (bloom_arg_key i ++ "-slash-prefix".data)
            (sd_bus_message_read_basic m).2.1 '/'] ++ rest,
        by simp only [List.append_assoc]⟩

theorem setup_bloom_prefix (m : sd_bus_message) :
    ∃ rest, (bus_message_setup_bloom m).2.2 = setup_bloom_metadata m ++ rest := by
  rw [bus_message_setup_bloom_eq]
  split_ifs
  · exact ⟨[], by simp⟩
  · exact bloom_args_prefix _ _ _ _

theorem tests_positive_of_mem (f : bloom_filter) (op : bloom_op) (a b : cstr)
    (h1 : op ∈ f) (h2 : (a, b) ∈ bloom_op_pairs op) : bloom_tests_positive f a b := by
  unfold bloom_tests_positive
  exact List.mem_flatMap.mpr ⟨op, h1, h2⟩

/-- C21: the filter `bus_message_setup_bloom` computes for a sealed message
starts from the empty filter (its first insertion is the message type) and
tests positive for the pair message-type = the type name of the message and,
for each of interface, member and path that is present, for the pair under
that key, and for path-slash-prefix with the exact path and with every
proper prefix of the path ending at a `/` boundary. -/
theorem setup_bloom_metadata_pairs (m : sd_bus_message) (_hs : m.sealed = true) :
    (bus_message_setup_bloom m).2.2.head? =
      some (bloom_op.add_pair "message-type".data (bus_message_type_to_string m.header.type)) ∧
    bloom_tests_positive (bus_message_setup_bloom m).2.2 "message-type".data
      (bus_message_type_to_string m.header.type) ∧
    (∀ i, m.interface = some i →
      bloom_tests_positive (bus_message_setup_bloom m).2.2 "interface".data i) ∧
    (∀ x, m.member = some x →
      bloom_tests_positive (bus_message_setup_bloom m).2.2 "member".data x) ∧
    (∀ p, m.path = some p →
      bloom_tests_positive (bus_message_setup_bloom m).2.2 "path".data p ∧
      bloom_tests_positive (bus_message_setup_bloom m).2.2 "path-slash-prefix".data p ∧
      ∀ q ∈ boundary_prefixes '/' p,
        bloom_tests_positive (bus_message_setup_bloom m).2.2 "path-slash-prefix".data q) := by
  obtain ⟨rest, e⟩ := setup_bloom_prefix m
  rw [e]
  have hmem : ∀ op, op ∈ setup_bloom_metadata m → op ∈ setup_bloom_metadata m ++ rest :=
    fun op h => List.mem_append_left _ h
  refine ⟨?_, ?_, ?_, ?_, ?_⟩
  · unfold setup_bloom_metadata
    simp
  · refine tests_positive_of_mem _ (bloom_op.add_pair "message-type".data
      (bus_message_type_to_string m.header.type)) _ _ (hmem _ ?_) (List.mem_singleton.mpr rfl)
    unfold setup_bloom_metadata
    simp
  · intro i hi
    refine tests_positive_of_mem _ (bloom_op.add_pair "interface".data i) _ _ (hmem _ ?_)
      (List.mem_singleton.mpr rfl)
    unfold setup_bloom_metadata
    rw [hi]
    simp
  · intro x hx
    refine tests_positive_of_mem _ (bloom_op.add_pair "member".data x) _ _ (hmem _ ?_)
      (List.mem_singleton.mpr rfl)
    unfold setup_bloom_metadata
    rw [hx]
    simp
  · intro p hp
    have h1 : bloom_op.add_pair "path".data p ∈ setup_bloom_metadata m := by
      unfold setup_bloom_metadata
      rw [hp]
      simp
    have h2 : bloom_op.add_pair "path-slash-prefix".data p ∈ setup_bloom_metadata m := by
      unfold setup_bloom_metadata
      rw [hp]
      simp
    have h3 : bloom_op.add_prefixes "path-slash-prefix".data p '/' ∈ setup_bloom_metadata m := by
      unfold setup_bloom_metadata
      rw [hp]
      simp
    refine ⟨tests_positive_of_mem _ (bloom_op.add_pair "path".data p) _ _ (hmem _ h1)
        (List.mem_singleton.mpr rfl),
      tests_positive_of_mem _ (bloom_op.add_pair "path-slash-prefix".data p) _ _ (hmem _ h2)
        (List.mem_singleton.mpr rfl), ?_⟩
    intro q hq
    refine tests_positive_of_mem _ (bloom_op.add_prefixes "path-slash-prefix".data p '/') _ _
      (hmem _ h3) ?_
    show ("path-slash-prefix".data, q) ∈
      (boundary_prefixes '/' p).map (fun x => ("path-slash-prefix".data, x))
    exact List.mem_map.mpr ⟨q, hq, rfl⟩

/-- A method call with interface `org.I`, member `M` and path `/a/b`. -/
theorem setup_bloom_metadata_pairs_witness :
    sample_pathed_call.sealed = true ∧
    boundary_prefixes '/' "/a/b".data = ["/".data, "/a".data] ∧
    bloom_tests_positive (bus_message_setup_bloom sample_pathed_call).2.2
      "message-type".data "method_call".data ∧
    bloom_tests_positive (bus_message_setup_bloom sample_pathed_call).2.2
      "interface".data "org.I".data ∧
    bloom_tests_positive (bus_message_setup_bloom sample_pathed_call).2.2
      "member".data "M".data ∧
    bloom_tests_positive (bus_message_setup_bloom sample_pathed_call).2.2
      "path".data "/a/b".data ∧
    bloom_tests_positive (bus_message_setup_bloom sample_pathed_call).2.2
      "path-slash-prefix".data "/a/b".data ∧
    bloom_tests_positive (bus_message_setup_bloom sample_pathed_call).2.2
      "path-slash-prefix".data "/a".data ∧
    bloom_tests_positive (bus_message_setup_bloom sample_pathed_call).2.2
      "path-slash-prefix".data "/".data :=
  ⟨rfl, by decide,
   (setup_bloom_metadata_pairs sample_pathed_call rfl).2.1,
   (setup_bloom_metadata_pairs sample_pathed_call rfl).2.2.1 _ rfl,
   (setup_bloom_metadata_pairs sample_pathed_call rfl).2.2.2.1 _ rfl,
   ((setup_bloom_metadata_pairs sample_pathed_call rfl).2.2.2.2 _ rfl).1,
   ((setup_bloom_metadata_pairs sample_pathed_call rfl).2.2.2.2 _ rfl).2.1,
   ((setup_bloom_metadata_pairs sample_pathed_call rfl).2.2.2.2 _ rfl).2.2 _ (by decide),
   ((setup_bloom_metadata_pairs sample_pathed_call rfl).2.2.2.2 _ rfl).2.2 _ (by decide)⟩

theorem leading_strings_of_none (args : List bus_arg) (r : Nat) (h : args.get? r = none) :
    leading_strings args r = 0 := by
  unfold leading_strings
  rw [drop_of_get_none args r h]
  rfl

theorem leading_strings_of_other (args : List bus_arg) (r : Nat) (a : bus_arg)
    (h : args.get? r = some a) (hs : string_like a = false) : leading_strings args r = 0 := by
  unfold leading_strings
  rw [drop_of_get_some args r a h, List.takeWhile_cons_of_neg (by simp [hs])]
  rfl

theorem leading_strings_of_string (args : List bus_arg) (r : Nat) (a : bus_arg)
    (h : args.get? r = some a) (hs : string_like a = true) :
    leading_strings args r = leading_strings args (r + 1) + 1 := by
  unfold leading_strings
  rw [drop_of_get_some args r a h, List.takeWhile_cons_of_pos hs]
  rfl

theorem range_succ_flatMap {β : Type} (c : Nat) (f : Nat → List β) :
    (List.range (c + 1)).flatMap f = f 0 ++ (List.range c).flatMap (fun j => f (j + 1)) := by
  rw [List.range_succ_eq_map, List.flatMap_cons, List.flatMap_map]

/-- The loop over the arguments, in closed form: when it ends without an
error it has read the string-like arguments in a row from the cursor on, at
most `n` of them, and has added the three entries of each. -/
theorem bloom_args_run (n i : Nat) (m : sd_bus_message) (bl : bloom_filter)
    (h : 0 ≤ (bus_message_setup_bloom_args n i m bl).1) :
    (bus_message_setup_bloom_args n i m bl).2.1.rindex
      = m.rindex + min n (leading_strings m.args m.rindex) ∧
    (bus_message_setup_bloom_args n i m bl).2.2
      = bl ++ (List.range (min n (leading_strings m.args m.rindex))).flatMap (fun j =>
          [bloom_op.add_pair (bloom_arg_key (i + j)) (arg_value m.args (m.rindex + j)),
           bloom_op.add_prefixes (bloom_arg_key (i + j) ++ "-dot-prefix".data)
             (arg_value m.args (m.rindex + j)) '.',
           bloom_op.add_prefixes (bloom_arg_key (i + j) ++ "-slash-prefix".data)
             (arg_value m.args (m.rindex + j)) '/']) := by
  induction n generalizing i m bl with
  | zero => simp [bus_message_setup_bloom_args]
  | succ n ih =>
    unfold bus_message_setup_bloom_args at h ⊢
    dsimp only at h ⊢
    cases hg : m.args.get? m.rindex with
    | none =>
      have hpk : sd_bus_message_peek_type m = (0, Char.ofNat 0) := by
        unfold sd_bus_message_peek_type
        rw [hg]
      rw [hpk]
      dsimp only
      rw [if_neg (by decide), if_pos (by decide), leading_strings_of_none _ _ hg]
      simp
    | some a =>
      by_cases he : a.err < 0
      · have hpk : sd_bus_message_peek_type m = (a.err, Char.ofNat 0) := by
          unfold sd_bus_message_peek_type
          rw [hg]
          dsimp only
          rw [if_pos he]
        rw [hpk] at h
        dsimp only at h
        rw [if_pos he] at h
        dsimp only at h
        omega
      · have hpk : sd_bus_message_peek_type m = (1, a.type) := by
          unfold sd_bus_message_peek_type
          rw [hg]
          dsimp only
          rw [if_neg he]
        have hrd : sd_bus_message_read_basic m
            = (1, a.str, { m with rindex := m.rindex + 1 }) := by
          unfold sd_bus_message_read_basic
          rw [hg]
          dsimp only
          rw [if_neg he]
        rw [hpk] at h ⊢
        dsimp only at h ⊢
        rw [if_neg (by decide)] at h ⊢
        by_cases hs : string_like a = true
        · have hc : ¬ (a.type ≠ SD_BUS_TYPE_STRING ∧ a.type ≠ SD_BUS_TYPE_OBJECT_PATH ∧
              a.type ≠ SD_BUS_TYPE_SIGNATURE) := by
            unfold string_like at hs
            simp only [decide_eq_true_eq] at hs
            tauto
          rw [if_neg hc, hrd] at h ⊢
          dsimp only at h ⊢
          rw [if_neg (by decide)] at h ⊢
          obtain ⟨e1, e2⟩ := ih (i + 1) { m with rindex := m.rindex + 1 } _ h
          have hv : arg_value m.args m.rindex = a.str := by
            unfold arg_value
            rw [hg]
          rw [e1, e2, leading_strings_of_string _ _ _ hg hs, Nat.succ_min_succ,
            range_succ_flatMap]
          dsimp only
          refine ⟨by omega, ?_⟩
          simp only [Nat.add_zero, hv, List.append_assoc, List.singleton_append,
            List.cons_append, List.nil_append]
          congr 4
          apply congrArg
          funext j
          rw [show i + 1 + j = i + (j + 1) by omega,
            show m.rindex + 1 + j = m.rindex + (j + 1) by omega]
        · have hc : a.type ≠ SD_BUS_TYPE_STRING ∧ a.type ≠ SD_BUS_TYPE_OBJECT_PATH ∧
              a.type ≠ SD_BUS_TYPE_SIGNATURE := by
            unfold string_like at hs
            simp only [decide_eq_true_eq] at hs
            tauto
          rw [if_pos hc, leading_strings_of_other _ _ _ hg (by simpa using hs)]
          simp

theorem bloom_arg_key_decimal : ∀ N, N < 64 → bloom_arg_key N = "arg".data ++ format_llu N := by
  decide

theorem bloom_arg_key_fits : ∀ N, N < 64 →
    (bloom_arg_key N ++ "-slash-prefix".data).length + 1 ≤ sizeof_bloom_key_buf ∧
    (bloom_arg_key N ++ "-dot-prefix".data).length + 1 ≤ sizeof_bloom_key_buf := by
  decide

theorem flatMap_congr_mem {α β : Type} (l : List α) (f g : α → List β)
    (h : ∀ x ∈ l, f x = g x) : l.flatMap f = l.flatMap g := by
  induction l with
  | nil => rfl
  | cons a t ih =>
    rw [List.flatMap_cons, List.flatMap_cons, h a (List.mem_cons_self _ _),
      ih (fun x hx => h x (List.mem_cons_of_mem _ hx))]

theorem rewind_sealed (m : sd_bus_message) (hs : m.sealed = true) :
    0 ≤ (sd_bus_message_rewind m).1 ∧ (sd_bus_message_rewind m).2 = { m with rindex := 0 } := by
  unfold sd_bus_message_rewind
  rw [if_neg (by simp [hs])]
  refine ⟨?_, rfl⟩
  dsimp only
  split_ifs <;> decide

theorem setup_bloom_run (m : sd_bus_message) (hs : m.sealed = true)
    (h : 0 ≤ (bus_message_setup_bloom m).1) :
    (bus_message_setup_bloom m).2.1.rindex = min 64 (leading_strings m.args 0) ∧
    (bus_message_setup_bloom m).2.2
      = setup_bloom_metadata m ++
        (List.range (min 64 (leading_strings m.args 0))).flatMap (fun j =>
          bloom_arg_entries j (arg_value m.args j)) := by
  obtain ⟨r1, r2⟩ := rewind_sealed m hs
  rw [bus_message_setup_bloom_eq] at h ⊢
  rw [if_neg (not_lt.mpr r1)] at h ⊢
  rw [r2] at h ⊢
  obtain ⟨e1, e2⟩ := bloom_args_run 64 0 { m with rindex := 0 } (setup_bloom_metadata m) h
  dsimp only at e1 e2
  refine ⟨by rw [e1]; omega, ?_⟩
  rw [e2]
  congr 1
  apply flatMap_congr_mem
  intro j hj
  have hj64 : j < 64 := by
    have := List.mem_range.mp hj
    omega
  simp only [Nat.zero_add]
  unfold bloom_arg_entries
  rw [bloom_arg_key_decimal j hj64]

/-- C22, as the claim states it, fails: the filter of the sample call with
one string argument is computed successfully, and the cursor, at the start
before the call, is past the argument after it. -/
theorem setup_bloom_cursor_counterexample :
    sample_string_call.sealed = true ∧
    (bus_message_setup_bloom sample_string_call).1 = 0 ∧
    sample_string_call.rindex = 0 ∧
    (bus_message_setup_bloom sample_string_call).2.1.rindex = 1 := by
  decide

/-- C22, amended: `bus_message_setup_bloom` rewinds the argument cursor of a
sealed message to the start before it reads and does not move it back: after
a successful return the cursor is just past the arguments it has read, that
is at the number of string-like arguments at the head of the body, 64 at
most, whatever its position before the call; nothing else of the message has
changed. -/
theorem setup_bloom_cursor (m : sd_bus_message) (hs : m.sealed = true)
    (h : 0 ≤ (bus_message_setup_bloom m).1) :
    (bus_message_setup_bloom m).2.1 = { m with rindex := min 64 (leading_strings m.args 0) } := by
  rw [bus_message_setup_bloom_frame, (setup_bloom_run m hs h).1]

/-- The sample call with one string argument. -/
theorem setup_bloom_cursor_witness :
    sample_string_call.sealed = true ∧
    0 ≤ (bus_message_setup_bloom sample_string_call).1 ∧
    min 64 (leading_strings sample_string_call.args 0) = 1 ∧
    (bus_message_setup_bloom sample_string_call).2.1
      = { sample_string_call with
          rindex := min 64 (leading_strings sample_string_call.args 0) } :=
  ⟨rfl, by decide, by decide, setup_bloom_cursor sample_string_call rfl (by decide)⟩

/-- C23, as the claim states it, fails: the sample call whose string argument
at position 1 follows an integer argument gets no argument entry at all: its
filter is the one of the metadata alone and "arg1" was not inserted. -/
theorem setup_bloom_arguments_counterexample :
    sample_mixed_call.sealed = true ∧
    (bus_message_setup_bloom sample_mixed_call).1 = 0 ∧
    (bus_message_setup_bloom sample_mixed_call).2.2 = setup_bloom_metadata sample_mixed_call ∧
    ¬ bloom_tests_positive (bus_message_setup_bloom sample_mixed_call).2.2
      "arg1".data "org.foo".data := by
  decide

/-- C23, amended: `bus_message_setup_bloom` adds argument entries for the
string, object-path or signature typed arguments at the head of the body of a
sealed message, stopping at the first argument of another type and after 64
arguments: when it returns successfully the filter is the one of the
metadata followed, for each such argument at position N, by its value under
the key "argN", its `.`-separated prefixes under "argN-dot-prefix" and its
`/`-separated prefixes under "argN-slash-prefix", N written in decimal; and
for every N below 64 the key the code builds is that key and, with its
longest suffix and the terminating NUL, fits the key buffer. -/
theorem setup_bloom_arguments (m : sd_bus_message) (hs : m.sealed = true)
    (h : 0 ≤ (bus_message_setup_bloom m).1) :
    (bus_message_setup_bloom m).2.2
      = setup_bloom_metadata m ++
        (List.range (min 64 (leading_strings m.args 0))).flatMap (fun N =>
          bloom_arg_entries N (arg_value m.args N)) ∧
    (∀ N, N < 64 → bloom_arg_key N = "arg".data ++ format_llu N ∧
      canonical_numeral (format_llu N) ∧ decimal_value (format_llu N) = N ∧
      (bloom_arg_key N ++ "-slash-prefix".data).length + 1 ≤ sizeof_bloom_key_buf ∧
      (bloom_arg_key N ++ "-dot-prefix".data).length + 1 ≤ sizeof_bloom_key_buf) := by
  refine ⟨(setup_bloom_run m hs h).2, ?_⟩
  decide

/-- The sample call with one string argument. -/
theorem setup_bloom_arguments_witness :
    sample_string_call.sealed = true ∧
    0 ≤ (bus_message_setup_bloom sample_string_call).1 ∧
    (bus_message_setup_bloom sample_string_call).2.2
      = setup_bloom_metadata sample_string_call ++
        [bloom_op.add_pair "arg0".data "org.foo".data,
         bloom_op.add_prefixes "arg0-dot-prefix".data "org.foo".data '.',
         bloom_op.add_prefixes "arg0-slash-prefix".data "org.foo".data '/'] :=
  ⟨rfl, by decide, (setup_bloom_arguments sample_string_call rfl (by decide)).1⟩

/-! ### Credentials: the marked bits and the attach flags -/

theorem ite_lor (c : Prop) [Decidable c] (m F : Nat) :
    (if c then m ||| F else m) = m ||| (if c then F else 0) := by
  split_ifs <;> simp

theorem ite_land (c : Prop) [Decidable c] (a b G : Nat) :
    (if c then a else b) &&& G = if c then a &&& G else b &&& G := by
  split_ifs <;> rfl

/-- The attach mask `kdbus_translate_attach_flags` computes, one disjunct per
test of the function. -/
theorem translate_attach_normal (mask : Nat) :
    (kdbus_translate_attach_flags mask).2 =
      (if mask &&& (SD_BUS_CREDS_UID ||| SD_BUS_CREDS_GID ||| SD_BUS_CREDS_PID |||
          SD_BUS_CREDS_PID_STARTTIME ||| SD_BUS_CREDS_TID) ≠ 0
        then KDBUS_ATTACH_CREDS else 0) |||
      (if mask &&& (SD_BUS_CREDS_COMM ||| SD_BUS_CREDS_TID_COMM) ≠ 0
        then KDBUS_ATTACH_COMM else 0) |||
      (if mask &&& SD_BUS_CREDS_EXE ≠ 0 then KDBUS_ATTACH_EXE else 0) |||
      (if mask &&& SD_BUS_CREDS_CMDLINE ≠ 0 then KDBUS_ATTACH_CMDLINE else 0) |||
      (if mask &&& (SD_BUS_CREDS_CGROUP ||| SD_BUS_CREDS_UNIT ||| SD_BUS_CREDS_USER_UNIT |||
          SD_BUS_CREDS_SLICE ||| SD_BUS_CREDS_SESSION ||| SD_BUS_CREDS_OWNER_UID) ≠ 0
        then KDBUS_ATTACH_CGROUP else 0) |||
      (if mask &&& (SD_BUS_CREDS_EFFECTIVE_CAPS ||| SD_BUS_CREDS_PERMITTED_CAPS |||
          SD_BUS_CREDS_INHERITABLE_CAPS ||| SD_BUS_CREDS_BOUNDING_CAPS) ≠ 0
        then KDBUS_ATTACH_CAPS else 0) |||
      (if mask &&& SD_BUS_CREDS_SELINUX_CONTEXT ≠ 0 then KDBUS_ATTACH_SECLABEL else 0) |||
      (if mask &&& (SD_BUS_CREDS_AUDIT_SESSION_ID ||| SD_BUS_CREDS_AUDIT_LOGIN_UID) ≠ 0
        then KDBUS_ATTACH_AUDIT else 0) |||
      (if mask &&& SD_BUS_CREDS_WELL_KNOWN_NAMES ≠ 0 then KDBUS_ATTACH_NAMES else 0) := by
  unfold kdbus_translate_attach_flags
  simp only [ite_lor, Nat.zero_or]

/-- The attach flag of one kind is set in the translated mask exactly when
the request mask meets the test of that kind. -/
theorem translate_attach_and (mask : Nat) :
    ((kdbus_translate_attach_flags mask).2 &&& KDBUS_ATTACH_CREDS =
      if mask &&& (SD_BUS_CREDS_UID ||| SD_BUS_CREDS_GID ||| SD_BUS_CREDS_PID |||
        SD_BUS_CREDS_PID_STARTTIME ||| SD_BUS_CREDS_TID) ≠ 0
      then KDBUS_ATTACH_CREDS else 0) ∧
    ((kdbus_translate_attach_flags mask).2 &&& KDBUS_ATTACH_COMM =
      if mask &&& (SD_BUS_CREDS_COMM ||| SD_BUS_CREDS_TID_COMM) ≠ 0
      then KDBUS_ATTACH_COMM else 0) ∧
    ((kdbus_translate_attach_flags mask).2 &&& KDBUS_ATTACH_EXE =
      if mask &&& (SD_BUS_CREDS_EXE) ≠ 0
      then KDBUS_ATTACH_EXE else 0) ∧
    ((kdbus_translate_attach_flags mask).2 &&& KDBUS_ATTACH_CMDLINE =
      if mask &&& (SD_BUS_CREDS_CMDLINE) ≠ 0
      then KDBUS_ATTACH_CMDLINE else 0) ∧
    ((kdbus_translate_attach_flags mask).2 &&& KDBUS_ATTACH_CGROUP =
      if mask &&& (SD_BUS_CREDS_CGROUP ||| SD_BUS_CREDS_UNIT ||| SD_BUS_CREDS_USER_UNIT |||
        SD_BUS_CREDS_SLICE ||| SD_BUS_CREDS_SESSION ||| SD_BUS_CREDS_OWNER_UID) ≠ 0
      then KDBUS_ATTACH_CGROUP else 0) ∧
    ((kdbus_translate_attach_flags mask).2 &&& KDBUS_ATTACH_CAPS =
      if mask &&& (SD_BUS_CREDS_EFFECTIVE_CAPS ||| SD_BUS_CREDS_PERMITTED_CAPS |||
        SD_BUS_CREDS_INHERITABLE_CAPS ||| SD_BUS_CREDS_BOUNDING_CAPS) ≠ 0
      then KDBUS_ATTACH_CAPS else 0) ∧
    ((kdbus_translate_attach_flags mask).2 &&& KDBUS_ATTACH_AUDIT =
      if mask &&& (SD_BUS_CREDS_AUDIT_SESSION_ID ||| SD_BUS_CREDS_AUDIT_LOGIN_UID) ≠ 0
      then KDBUS_ATTACH_AUDIT else 0) ∧
    ((kdbus_translate_attach_flags mask).2 &&& KDBUS_ATTACH_NAMES =
      if mask &&& (SD_BUS_CREDS_WELL_KNOWN_NAMES) ≠ 0
      then KDBUS_ATTACH_NAMES else 0) := by
  rw [translate_attach_normal]
  simp only [Nat.and_distrib_right, ite_land, Nat.zero_and]
  refine ⟨?_, ?_, ?_, ?_, ?_, ?_, ?_, ?_⟩
  · have eCREDS : KDBUS_ATTACH_CREDS &&& KDBUS_ATTACH_CREDS = KDBUS_ATTACH_CREDS := by decide
    have eCOMM : KDBUS_ATTACH_COMM &&& KDBUS_ATTACH_CREDS = 0 := by decide
    have eEXE : KDBUS_ATTACH_EXE &&& KDBUS_ATTACH_CREDS = 0 := by decide
    have eCMDLINE : KDBUS_ATTACH_CMDLINE &&& KDBUS_ATTACH_CREDS = 0 := by decide
    have eCGROUP : KDBUS_ATTACH_CGROUP &&& KDBUS_ATTACH_CREDS = 0 := by decide
    have eCAPS : KDBUS_ATTACH_CAPS &&& KDBUS_ATTACH_CREDS = 0 := by decide
    have eSECLABEL : KDBUS_ATTACH_SECLABEL &&& KDBUS_ATTACH_CREDS = 0 := by decide
    have eAUDIT : KDBUS_ATTACH_AUDIT &&& KDBUS_ATTACH_CREDS = 0 := by decide
    have eNAMES : KDBUS_ATTACH_NAMES &&& KDBUS_ATTACH_CREDS = 0 := by decide
    simp only [eCREDS, eCOMM, eEXE, eCMDLINE, eCGROUP, eCAPS, eSECLABEL, eAUDIT, eNAMES, ite_self, Nat.zero_or, Nat.or_zero]
  · have eCREDS : KDBUS_ATTACH_CREDS &&& KDBUS_ATTACH_COMM = 0 := by decide
    have eCOMM : KDBUS_ATTACH_COMM &&& KDBUS_ATTACH_COMM = KDBUS_ATTACH_COMM := by decide
    have eEXE : KDBUS_ATTACH_EXE &&& KDBUS_ATTACH_COMM = 0 := by decide
    have eCMDLINE : KDBUS_ATTACH_CMDLINE &&& KDBUS_ATTACH_COMM = 0 := by decide
    have eCGROUP : KDBUS_ATTACH_CGROUP &&& KDBUS_ATTACH_COMM = 0 := by decide
    have eCAPS : KDBUS_ATTACH_CAPS &&& KDBUS_ATTACH_COMM = 0 := by decide
    have eSECLABEL : KDBUS_ATTACH_SECLABEL &&& KDBUS_ATTACH_COMM = 0 := by decide
    have eAUDIT : KDBUS_ATTACH_AUDIT &&& KDBUS_ATTACH_COMM = 0 := by decide
    have eNAMES : KDBUS_ATTACH_NAMES &&& KDBUS_ATTACH_COMM = 0 := by decide
    simp only [eCREDS, eCOMM, eEXE, eCMDLINE, eCGROUP, eCAPS, eSECLABEL, eAUDIT, eNAMES, ite_self, Nat.zero_or, Nat.or_zero]
  · have eCREDS : KDBUS_ATTACH_CREDS &&& KDBUS_ATTACH_EXE = 0 := by decide
    have eCOMM : KDBUS_ATTACH_COMM &&& KDBUS_ATTACH_EXE = 0 := by decide
    have eEXE : KDBUS_ATTACH_EXE &&& KDBUS_ATTACH_EXE = KDBUS_ATTACH_EXE := by decide
    have eCMDLINE : KDBUS_ATTACH_CMDLINE &&& KDBUS_ATTACH_EXE = 0 := by decide
    have eCGROUP : KDBUS_ATTACH_CGROUP &&& KDBUS_ATTACH_EXE = 0 := by decide
    have eCAPS : KDBUS_ATTACH_CAPS &&& KDBUS_ATTACH_EXE = 0 := by decide
    have eSECLABEL : KDBUS_ATTACH_SECLABEL &&& KDBUS_ATTACH_EXE = 0 := by decide
    have eAUDIT : KDBUS_ATTACH_AUDIT &&& KDBUS_ATTACH_EXE = 0 := by decide
    have eNAMES : KDBUS_ATTACH_NAMES &&& KDBUS_ATTACH_EXE = 0 := by decide
    simp only [eCREDS, eCOMM, eEXE, eCMDLINE, eCGROUP, eCAPS, eSECLABEL, eAUDIT, eNAMES, ite_self, Nat.zero_or, Nat.or_zero]
  · have eCREDS : KDBUS_ATTACH_CREDS &&& KDBUS_ATTACH_CMDLINE = 0 := by decide
    have eCOMM : KDBUS_ATTACH_COMM &&& KDBUS_ATTACH_CMDLINE = 0 := by decide
    have eEXE : KDBUS_ATTACH_EXE &&& KDBUS_ATTACH_CMDLINE = 0 := by decide
    have eCMDLINE : KDBUS_ATTACH_CMDLINE &&& KDBUS_ATTACH_CMDLINE = KDBUS_ATTACH_CMDLINE := by decide
    have eCGROUP : KDBUS_ATTACH_CGROUP &&& KDBUS_ATTACH_CMDLINE = 0 := by decide
    have eCAPS : KDBUS_ATTACH_CAPS &&& KDBUS_ATTACH_CMDLINE = 0 := by decide
    have eSECLABEL : KDBUS_ATTACH_SECLABEL &&& KDBUS_ATTACH_CMDLINE = 0 := by decide
    have eAUDIT : KDBUS_ATTACH_AUDIT &&& KDBUS_ATTACH_CMDLINE = 0 := by decide
    have eNAMES : KDBUS_ATTACH_NAMES &&& KDBUS_ATTACH_CMDLINE = 0 := by decide
    simp only [eCREDS, eCOMM, eEXE, eCMDLINE, eCGROUP, eCAPS, eSECLABEL, eAUDIT, eNAMES, ite_self, Nat.zero_or, Nat.or_zero]
  · have eCREDS : KDBUS_ATTACH_CREDS &&& KDBUS_ATTACH_CGROUP = 0 := by decide
    have eCOMM : KDBUS_ATTACH_COMM &&& KDBUS_ATTACH_CGROUP = 0 := by decide
    have eEXE : KDBUS_ATTACH_EXE &&& KDBUS_ATTACH_CGROUP = 0 := by decide
    have eCMDLINE : KDBUS_ATTACH_CMDLINE &&& KDBUS_ATTACH_CGROUP = 0 := by decide
    have eCGROUP : KDBUS_ATTACH_CGROUP &&& KDBUS_ATTACH_CGROUP = KDBUS_ATTACH_CGROUP := by decide
    have eCAPS : KDBUS_ATTACH_CAPS &&& KDBUS_ATTACH_CGROUP = 0 := by decide
    have eSECLABEL : KDBUS_ATTACH_SECLABEL &&& KDBUS_ATTACH_CGROUP = 0 := by decide
    have eAUDIT : KDBUS_ATTACH_AUDIT &&& KDBUS_ATTACH_CGROUP = 0 := by decide
    have eNAMES : KDBUS_ATTACH_NAMES &&& KDBUS_ATTACH_CGROUP = 0 := by decide
    simp only [eCREDS, eCOMM, eEXE, eCMDLINE, eCGROUP, eCAPS, eSECLABEL, eAUDIT, eNAMES, ite_self, Nat.zero_or, Nat.or_zero]
  · have eCREDS : KDBUS_ATTACH_CREDS &&& KDBUS_ATTACH_CAPS = 0 := by decide
    have eCOMM : KDBUS_ATTACH_COMM &&& KDBUS_ATTACH_CAPS = 0 := by decide
    have eEXE : KDBUS_ATTACH_EXE &&& KDBUS_ATTACH_CAPS = 0 := by decide
    have eCMDLINE : KDBUS_ATTACH_CMDLINE &&& KDBUS_ATTACH_CAPS = 0 := by decide
    have eCGROUP : KDBUS_ATTACH_CGROUP &&& KDBUS_ATTACH_CAPS = 0 := by decide
    have eCAPS : KDBUS_ATTACH_CAPS &&& KDBUS_ATTACH_CAPS = KDBUS_ATTACH_CAPS := by decide
    have eSECLABEL : KDBUS_ATTACH_SECLABEL &&& KDBUS_ATTACH_CAPS = 0 := by decide
    have eAUDIT : KDBUS_ATTACH_AUDIT &&& KDBUS_ATTACH_CAPS = 0 := by decide
    have eNAMES : KDBUS_ATTACH_NAMES &&& KDBUS_ATTACH_CAPS = 0 := by decide
    simp only [eCREDS, eCOMM, eEXE, eCMDLINE, eCGROUP, eCAPS, eSECLABEL, eAUDIT, eNAMES, ite_self, Nat.zero_or, Nat.or_zero]
  · have eCREDS : KDBUS_ATTACH_CREDS &&& KDBUS_ATTACH_AUDIT = 0 := by decide
    have eCOMM : KDBUS_ATTACH_COMM &&& KDBUS_ATTACH_AUDIT = 0 := by decide
    have eEXE : KDBUS_ATTACH_EXE &&& KDBUS_ATTACH_AUDIT = 0 := by decide
    have eCMDLINE : KDBUS_ATTACH_CMDLINE &&& KDBUS_ATTACH_AUDIT = 0 := by decide
    have eCGROUP : KDBUS_ATTACH_CGROUP &&& KDBUS_ATTACH_AUDIT = 0 := by decide
    have eCAPS : KDBUS_ATTACH_CAPS &&& KDBUS_ATTACH_AUDIT = 0 := by decide
    have eSECLABEL : KDBUS_ATTACH_SECLABEL &&& KDBUS_ATTACH_AUDIT = 0 := by decide
    have eAUDIT : KDBUS_ATTACH_AUDIT &&& KDBUS_ATTACH_AUDIT = KDBUS_ATTACH_AUDIT := by decide
    have eNAMES : KDBUS_ATTACH_NAMES &&& KDBUS_ATTACH_AUDIT = 0 := by decide
    simp only [eCREDS, eCOMM, eEXE, eCMDLINE, eCGROUP, eCAPS, eSECLABEL, eAUDIT, eNAMES, ite_self, Nat.zero_or, Nat.or_zero]
  · have eCREDS : KDBUS_ATTACH_CREDS &&& KDBUS_ATTACH_NAMES = 0 := by decide
    have eCOMM : KDBUS_ATTACH_COMM &&& KDBUS_ATTACH_NAMES = 0 := by decide
    have eEXE : KDBUS_ATTACH_EXE &&& KDBUS_ATTACH_NAMES = 0 := by decide
    have eCMDLINE : KDBUS_ATTACH_CMDLINE &&& KDBUS_ATTACH_NAMES = 0 := by decide
    have eCGROUP : KDBUS_ATTACH_CGROUP &&& KDBUS_ATTACH_NAMES = 0 := by decide
    have eCAPS : KDBUS_ATTACH_CAPS &&& KDBUS_ATTACH_NAMES = 0 := by decide
    have eSECLABEL : KDBUS_ATTACH_SECLABEL &&& KDBUS_ATTACH_NAMES = 0 := by decide
    have eAUDIT : KDBUS_ATTACH_AUDIT &&& KDBUS_ATTACH_NAMES = 0 := by decide
    have eNAMES : KDBUS_ATTACH_NAMES &&& KDBUS_ATTACH_NAMES = KDBUS_ATTACH_NAMES := by decide
    simp only [eCREDS, eCOMM, eEXE, eCMDLINE, eCGROUP, eCAPS, eSECLABEL, eAUDIT, eNAMES, ite_self, Nat.zero_or, Nat.or_zero]

theorem translate_attach_flag_iff (mask t : Nat) (ht : t ∈ credential_item_types) :
    (kdbus_translate_attach_flags mask).2 &&& item_attach_flag t ≠ 0 ↔
      mask &&& kind_creds_bits t ≠ 0 := by
  obtain ⟨a1, a2, a3, a4, a5, a6, a7, a8⟩ := translate_attach_and mask
  simp only [credential_item_types, List.mem_cons, List.mem_singleton, List.not_mem_nil,
    or_false] at ht
  rcases ht with rfl | rfl | rfl | rfl | rfl | rfl | rfl | rfl | rfl
  · have e1 : item_attach_flag KDBUS_ITEM_CREDS = KDBUS_ATTACH_CREDS := by decide
    have e2 : kind_creds_bits KDBUS_ITEM_CREDS = (SD_BUS_CREDS_UID ||| SD_BUS_CREDS_GID ||| SD_BUS_CREDS_PID ||| SD_BUS_CREDS_PID_STARTTIME ||| SD_BUS_CREDS_TID) := by decide
    have e3 : KDBUS_ATTACH_CREDS ≠ 0 := by decide
    rw [e1, e2, a1]
    split_ifs with h
    · exact ⟨fun _ => h, fun _ => e3⟩
    · exact ⟨fun g => absurd rfl g, fun g => absurd g h⟩
  · have e1 : item_attach_flag KDBUS_ITEM_PID_COMM = KDBUS_ATTACH_COMM := by decide
    have e2 : kind_creds_bits KDBUS_ITEM_PID_COMM = (SD_BUS_CREDS_COMM ||| SD_BUS_CREDS_TID_COMM) := by decide
    have e3 : KDBUS_ATTACH_COMM ≠ 0 := by decide
    rw [e1, e2, a2]
    split_ifs with h
    · exact ⟨fun _ => h, fun _ => e3⟩
    · exact ⟨fun g => absurd rfl g, fun g => absurd g h⟩
  · have e1 : item_attach_flag KDBUS_ITEM_TID_COMM = KDBUS_ATTACH_COMM := by decide
    have e2 : kind_creds_bits KDBUS_ITEM_TID_COMM = (SD_BUS_CREDS_COMM ||| SD_BUS_CREDS_TID_COMM) := by decide
    have e3 : KDBUS_ATTACH_COMM ≠ 0 := by decide
    rw [e1, e2, a2]
    split_ifs with h
    · exact ⟨fun _ => h, fun _ => e3⟩
    · exact ⟨fun g => absurd rfl g, fun g => absurd g h⟩
  · have e1 : item_attach_flag KDBUS_ITEM_EXE = KDBUS_ATTACH_EXE := by decide
    have e2 : kind_creds_bits KDBUS_ITEM_EXE = (SD_BUS_CREDS_EXE) := by decide
    have e3 : KDBUS_ATTACH_EXE ≠ 0 := by decide
    rw [e1, e2, a3]
    split_ifs with h
    · exact ⟨fun _ => h, fun _ => e3⟩
    · exact ⟨fun g => absurd rfl g, fun g => absurd g h⟩
  · have e1 : item_attach_flag KDBUS_ITEM_CMDLINE = KDBUS_ATTACH_CMDLINE := by decide
    have e2 : kind_creds_bits KDBUS_ITEM_CMDLINE = (SD_BUS_CREDS_CMDLINE) := by decide
    have e3 : KDBUS_ATTACH_CMDLINE ≠ 0 := by decide
    rw [e1, e2, a4]
    split_ifs with h
    · exact ⟨fun _ => h, fun _ => e3⟩
    · exact ⟨fun g => absurd rfl g, fun g => absurd g h⟩
  · have e1 : item_attach_flag KDBUS_ITEM_CGROUP = KDBUS_ATTACH_CGROUP := by decide
    have e2 : kind_creds_bits KDBUS_ITEM_CGROUP = (SD_BUS_CREDS_CGROUP ||| SD_BUS_CREDS_UNIT ||| SD_BUS_CREDS_USER_UNIT ||| SD_BUS_CREDS_SLICE ||| SD_BUS_CREDS_SESSION ||| SD_BUS_CREDS_OWNER_UID) := by decide
    have e3 : KDBUS_ATTACH_CGROUP ≠ 0 := by decide
    rw [e1, e2, a5]
    split_ifs with h
    · exact ⟨fun _ => h, fun _ => e3⟩
    · exact ⟨fun g => absurd rfl g, fun g => absurd g h⟩
  · have e1 : item_attach_flag KDBUS_ITEM_AUDIT = KDBUS_ATTACH_AUDIT := by decide
    have e2 : kind_creds_bits KDBUS_ITEM_AUDIT = (SD_BUS_CREDS_AUDIT_SESSION_ID ||| SD_BUS_CREDS_AUDIT_LOGIN_UID) := by decide
    have e3 : KDBUS_ATTACH_AUDIT ≠ 0 := by decide
    rw [e1, e2, a7]
    split_ifs with h
    · exact ⟨fun _ => h, fun _ => e3⟩
    · exact ⟨fun g => absurd rfl g, fun g => absurd g h⟩
  · have e1 : item_attach_flag KDBUS_ITEM_CAPS = KDBUS_ATTACH_CAPS := by decide
    have e2 : kind_creds_bits KDBUS_ITEM_CAPS = (SD_BUS_CREDS_EFFECTIVE_CAPS ||| SD_BUS_CREDS_PERMITTED_CAPS ||| SD_BUS_CREDS_INHERITABLE_CAPS ||| SD_BUS_CREDS_BOUNDING_CAPS) := by decide
    have e3 : KDBUS_ATTACH_CAPS ≠ 0 := by decide
    rw [e1, e2, a6]
    split_ifs with h
    · exact ⟨fun _ => h, fun _ => e3⟩
    · exact ⟨fun g => absurd rfl g, fun g => absurd g h⟩
  · have e1 : item_attach_flag KDBUS_ITEM_NAMES = KDBUS_ATTACH_NAMES := by decide
    have e2 : kind_creds_bits KDBUS_ITEM_NAMES = (SD_BUS_CREDS_WELL_KNOWN_NAMES) := by decide
    have e3 : KDBUS_ATTACH_NAMES ≠ 0 := by decide
    rw [e1, e2, a8]
    split_ifs with h
    · exact ⟨fun _ => h, fun _ => e3⟩
    · exact ⟨fun g => absurd rfl g, fun g => absurd g h⟩

theorem make_message_hydrate_mask (bus : sd_bus) (m : sd_bus_message) (d : kdbus_item) :
    (make_message_hydrate bus m d).creds.mask
      = m.creds.mask ||| (hydrate_creds_bits d.type &&& bus.creds_mask) := by
  unfold make_message_hydrate
  by_cases c0 : d.type = KDBUS_ITEM_CREDS
  · have e : hydrate_creds_bits KDBUS_ITEM_CREDS =
        (SD_BUS_CREDS_UID ||| SD_BUS_CREDS_GID ||| SD_BUS_CREDS_PID |||
        SD_BUS_CREDS_PID_STARTTIME ||| SD_BUS_CREDS_TID) := by decide
    rw [if_pos c0, c0, e]
  rw [if_neg c0]
  by_cases c1 : d.type = KDBUS_ITEM_TIMESTAMP
  · have e : hydrate_creds_bits KDBUS_ITEM_TIMESTAMP =
        (0) := by decide
    rw [if_pos c1, c1, e]
    simp
  rw [if_neg c1]
  by_cases c2 : d.type = KDBUS_ITEM_PID_COMM
  · have e : hydrate_creds_bits KDBUS_ITEM_PID_COMM =
        (SD_BUS_CREDS_COMM) := by decide
    rw [if_pos c2, c2, e]
  rw [if_neg c2]
  by_cases c3 : d.type = KDBUS_ITEM_TID_COMM
  · have e : hydrate_creds_bits KDBUS_ITEM_TID_COMM =
        (SD_BUS_CREDS_TID_COMM) := by decide
    rw [if_pos c3, c3, e]
  rw [if_neg c3]
  by_cases c4 : d.type = KDBUS_ITEM_EXE
  · have e : hydrate_creds_bits KDBUS_ITEM_EXE =
        (SD_BUS_CREDS_EXE) := by decide
    rw [if_pos c4, c4, e]
  rw [if_neg c4]
  by_cases c5 : d.type = KDBUS_ITEM_CMDLINE
  · have e : hydrate_creds_bits KDBUS_ITEM_CMDLINE =
        (SD_BUS_CREDS_CMDLINE) := by decide
    rw [if_pos c5, c5, e]
  rw [if_neg c5]
  by_cases c6 : d.type = KDBUS_ITEM_CGROUP
  · have e : hydrate_creds_bits KDBUS_ITEM_CGROUP =
        (SD_BUS_CREDS_CGROUP ||| SD_BUS_CREDS_UNIT ||| SD_BUS_CREDS_USER_UNIT |||
        SD_BUS_CREDS_SLICE ||| SD_BUS_CREDS_SESSION ||| SD_BUS_CREDS_OWNER_UID) := by decide
    rw [if_pos c6, c6, e]
  rw [if_neg c6]
  by_cases c7 : d.type = KDBUS_ITEM_AUDIT
  · have e : hydrate_creds_bits KDBUS_ITEM_AUDIT =
        (SD_BUS_CREDS_AUDIT_SESSION_ID ||| SD_BUS_CREDS_AUDIT_LOGIN_UID) := by decide
    rw [if_pos c7, c7, e]
  rw [if_neg c7]
  by_cases c8 : d.type = KDBUS_ITEM_CAPS
  · have e : hydrate_creds_bits KDBUS_ITEM_CAPS =
        (SD_BUS_CREDS_EFFECTIVE_CAPS ||| SD_BUS_CREDS_PERMITTED_CAPS |||
        SD_BUS_CREDS_INHERITABLE_CAPS ||| SD_BUS_CREDS_BOUNDING_CAPS) := by decide
    rw [if_pos c8, c8, e]
  rw [if_neg c8]
  by_cases c9 : d.type = KDBUS_ITEM_NAMES
  · have e : hydrate_creds_bits KDBUS_ITEM_NAMES =
        (SD_BUS_CREDS_WELL_KNOWN_NAMES) := by decide
    rw [if_pos c9, c9, e]
  rw [if_neg c9]
  have e : hydrate_creds_bits d.type = 0 := by
    unfold hydrate_creds_bits
    rw [if_neg c0, if_neg c2, if_neg c3, if_neg c4, if_neg c5, if_neg c6, if_neg c7, if_neg c8,
      if_neg c9]
  rw [e]
  simp

theorem kind_contains_hydrate (t j : Nat) (ht : t ∈ credential_item_types)
    (h : (hydrate_creds_bits t).testBit j = true) : (kind_creds_bits t).testBit j = true := by
  simp only [credential_item_types, List.mem_cons, List.mem_singleton, List.not_mem_nil,
    or_false] at ht
  rcases ht with rfl | rfl | rfl | rfl | rfl | rfl | rfl | rfl | rfl
  · exact h
  · have e1 : kind_creds_bits KDBUS_ITEM_PID_COMM
        = SD_BUS_CREDS_COMM ||| SD_BUS_CREDS_TID_COMM := by decide
    have e2 : hydrate_creds_bits KDBUS_ITEM_PID_COMM = SD_BUS_CREDS_COMM := by decide
    rw [e2] at h
    rw [e1, Nat.testBit_or, h]
    rfl
  · have e1 : kind_creds_bits KDBUS_ITEM_TID_COMM
        = SD_BUS_CREDS_COMM ||| SD_BUS_CREDS_TID_COMM := by decide
    have e2 : hydrate_creds_bits KDBUS_ITEM_TID_COMM = SD_BUS_CREDS_TID_COMM := by decide
    rw [e2] at h
    rw [e1, Nat.testBit_or, h]
    simp
  · exact h
  · exact h
  · exact h
  · exact h
  · exact h
  · exact h

/-- C30: the bits `bus_kernel_make_message` marks in the credentials mask
when it hydrates the message from an attached item are the bits of that item
that lie within the requested credentials mask of the connection, so every
marked bit is a requested one; and for every kind of credential item
(credentials, process and thread command, executable, command line, cgroup,
audit, capabilities, well-known names) and every bit the receiver marks for
an item of that kind, a request mask with that bit makes
`kdbus_translate_attach_flags` set the attach flag of that kind, while a
request mask with none of the bits of the kind leaves that flag clear. -/
theorem hydrate_marks_requested (bus : sd_bus) (m : sd_bus_message) (d : kdbus_item)
    (mask : Nat) :
    (make_message_hydrate bus m d).creds.mask
      = m.creds.mask ||| (hydrate_creds_bits d.type &&& bus.creds_mask) ∧
    (∀ j, (make_message_hydrate bus m d).creds.mask.testBit j = true →
      m.creds.mask.testBit j = true ∨
      ((hydrate_creds_bits d.type).testBit j = true ∧ bus.creds_mask.testBit j = true)) ∧
    (kdbus_translate_attach_flags mask).1 = 0 ∧
    (∀ t ∈ credential_item_types, ∀ j, (hydrate_creds_bits t).testBit j = true →
      mask.testBit j = true →
      (kdbus_translate_attach_flags mask).2 &&& item_attach_flag t ≠ 0) ∧
    (∀ t ∈ credential_item_types, mask &&& kind_creds_bits t = 0 →
      (kdbus_translate_attach_flags mask).2 &&& item_attach_flag t = 0) := by
  refine ⟨make_message_hydrate_mask bus m d, ?_, rfl, ?_, ?_⟩
  · intro j hj
    rw [make_message_hydrate_mask, Nat.testBit_or, Nat.testBit_and] at hj
    simp only [Bool.or_eq_true, Bool.and_eq_true] at hj
    exact hj
  · intro t ht j h1 h2
    rw [translate_attach_flag_iff mask t ht]
    intro h0
    have h3 : (mask &&& kind_creds_bits t).testBit j = true := by
      rw [Nat.testBit_and, h2, kind_contains_hydrate t j ht h1]
      rfl
    rw [h0] at h3
    simp at h3
  · intro t ht h0
    by_contra hc
    exact (translate_attach_flag_iff mask t ht).mp hc h0

/-! ### Message transcoder: the whole item list -/

/-- The item list a successful transcoding emits, in order: the destination
name for a well-known destination, the header, one item per body part, the
bloom item when the destination id written is the broadcast id, the attached
descriptors when there are any. -/
theorem setup_kmsg_item_list (o : bus_world) (m : sd_bus_message) (hk : m.kdbus = none)
    (h : (bus_message_setup_kmsg o m).1 = 0) :
    ∃ (k : kdbus_msg) (bl : bloom_filter),
      (bus_message_setup_kmsg o m).2.kdbus = some k ∧
      k.items =
        (if well_known_destination m then [destination_item (m.destination.getD [])] else []) ++
        payload_vec_item m.header_ptr (BUS_MESSAGE_BODY_BEGIN m) ::
          ((bus_message_setup_kmsg o m).2.body_parts.map (part_item m.destination.isSome)) ++
        (if k.dst_id = KDBUS_DST_ID_BROADCAST then [bloom_item bl] else []) ++
        (if m.fds.length > 0 then [fds_item m.fds] else []) ∧
      List.Forall₂ same_part m.body_parts (bus_message_setup_kmsg o m).2.body_parts ∧
      (m.destination = none → k.dst_id = KDBUS_DST_ID_BROADCAST) ∧
      (well_known_destination m = true → k.dst_id = 0) := by
  unfold well_known_destination
  rcases setup_kmsg_cases o m hk with ⟨hd, he⟩ | ⟨dst, hd, hs, he⟩ | ⟨dst, rest, hd, hs, hr, he⟩ |
    ⟨dst, n, hd, hp, he⟩
  · rw [he] at h ⊢
    obtain ⟨k, bl, h1, h2, h3, h4, _⟩ := setup_kmsg_emit_items o m false 0 h
    refine ⟨k, bl, h1, ?_, h4, ?_, ?_⟩
    · rw [h3, h2, hd]
    · intro _
      rw [h2]
      simp [setup_kmsg_record, hd]
    · rw [hd]
      intro hc
      exact absurd hc (by decide)
  · rw [he] at h ⊢
    obtain ⟨k, bl, h1, h2, h3, h4, _⟩ := setup_kmsg_emit_items o m true 0 h
    have hp : (bus_kernel_parse_unique_name dst 0).1 = 0 := by
      unfold bus_kernel_parse_unique_name
      rw [hs]
    refine ⟨k, bl, h1, ?_, h4, ?_, ?_⟩
    · rw [h3, h2, hd]
      simp only [hp, decide_True]
    · intro hn
      rw [hd] at hn
      cases hn
    · intro _
      rw [h2]
      simp [setup_kmsg_record]
  · rw [he] at h
    simp only at h
    omega
  · rw [he] at h ⊢
    obtain ⟨k, bl, h1, h2, h3, h4, _⟩ := setup_kmsg_emit_items o m false n h
    refine ⟨k, bl, h1, ?_, h4, ?_, ?_⟩
    · rw [h3, h2, hd]
      simp only [hp]
      rfl
    · intro hn
      rw [hd] at hn
      cases hn
    · rw [hd]
      simp only [hp]
      intro hc
      exact absurd hc (by decide)

/-- C25: the sample call to the unique name `":1.18446744073709551615"`, a
unicast message, is transcoded into the header, the body part and a bloom
item, while the sample call to `":1.5"` gives the two payload vectors alone. -/
theorem setup_kmsg_sentinel_item_list :
    sample_sentinel_call.sealed = true ∧
    sample_sentinel_call.destination = some ":1.18446744073709551615".data ∧
    (bus_message_setup_kmsg sample_world sample_sentinel_call).1 = 0 ∧
    (transcoded sample_world sample_sentinel_call).items.map (fun d => d.type)
      = [KDBUS_ITEM_PAYLOAD_VEC, KDBUS_ITEM_PAYLOAD_VEC, KDBUS_ITEM_BLOOM] ∧
    (bus_message_setup_kmsg sample_world sample_call).1 = 0 ∧
    (transcoded sample_world sample_call).items.map (fun d => d.type)
      = [KDBUS_ITEM_PAYLOAD_VEC, KDBUS_ITEM_PAYLOAD_VEC] := by
  decide

/-! ### Receiving: what becomes of the kernel buffer -/

theorem read_message_releases (o : bus_world) (bus : sd_bus)
    (hroom : 0 ≤ o.make_room_r bus) (hrecv : 0 ≤ o.msg_recv.1)
    (h : (read_message_dispatch o bus (received_message o bus)).r ≤ 0) :
    bus_call.cmd_free
        ((bus.kdbus_buffer + o.msg_recv.2.2) -
          (read_message_dispatch o bus (received_message o bus)).bus.kdbus_buffer)
      ∈ (bus_kernel_read_message o bus).calls := by
  obtain ⟨_, _, e3⟩ := read_message_received o bus hroom hrecv
  rw [e3, if_pos h]
  apply List.mem_append_right
  unfold close_kdbus_msg
  exact List.mem_cons_self _ _

theorem make_message_takes_buffer (o : bus_world) (bus : sd_bus) (k : kdbus_msg)
    (h : (bus_kernel_make_message o bus k).r = 1) :
    ∃ q : sd_bus_message,
      (bus_kernel_make_message o bus k).bus = { bus with rqueue := bus.rqueue ++ [q] } ∧
      q.kdbus = some k ∧ q.release_kdbus = true ∧ q.free_fds = true := by
  unfold bus_kernel_make_message at h ⊢
  dsimp only at h ⊢
  by_cases c : (make_message_construct o bus k).r < 0
  · rw [if_pos c] at h
    dsimp only at h
    omega
  · rw [if_neg c]
    exact ⟨_, rfl, rfl, rfl, rfl⟩

/-- C28: the sample name-add notification is received at pool offset 128 and
translated into one queued signal; `bus_kernel_read_message` returns 1 having
made no call but the receive call, so the buffer is not handed back to the
kernel, and the queued signal neither refers to the buffer nor is marked to
release one. -/
theorem read_message_notification_buffer :
    (received_message sample_notify_world {}).payload_type = KDBUS_PAYLOAD_KERNEL ∧
    (bus_kernel_read_message sample_notify_world {}).r = 1 ∧
    (bus_kernel_read_message sample_notify_world {}).calls = [bus_call.cmd_msg_recv] ∧
    bus_call.cmd_free 128 ∉ (bus_kernel_read_message sample_notify_world {}).calls ∧
    (bus_kernel_read_message sample_notify_world {}).bus.rqueue.map
        (fun q => (q.member, q.kdbus, q.release_kdbus))
      = [(some "NameOwnerChanged".data, none, false)] := by
  decide


end BusKernel
